import Mathlib

/-!
MinIO operator: resource generators, the KES drift comparator and the KES certificate request

A shallow embedding of

* `pkg/resources/statefulsets/minio-statefulset.go` (the StatefulSet generator for a pool),
* `pkg/resources/deployments/mcs-deployment.go` (the console Deployment generator),
* `pkg/controller/cluster/kes.go` (`generateKESCryptoData`, `createKESCSR`,
  `kesStatefulSetMatchesSpec`),
* `kubectl-minio/cmd/cmd-tenant-volumes-add.go` (the statement that appends a pool),
* `pkg/apis/miniocontroller/v1beta1/helper_test.go` (the test of `EnsureDefaults`),

together with the properties of these functions that the specification states.

Conventions of the embedding

* Go pointers are `Option`s, Go slices are `List`s, Go maps are association lists. The generators
  are embedded by value, as their results read at return; where a result shares a Go map with the
  tenant (`minioMetadata`, `mcsMetadata`), a second embedding (`minioMetadataShared`,
  `mcsMetadataShared`) returns the map reference and the tenant as the call leaves it.
* `int32` and `int` values are `Int`s (the code only compares them and widens `int32` to `int`).
* A function that can hit a Go run-time panic (nil dereference, index out of range) returns an
  `Option`; `none` is the panic.
* A function that reads or writes the cluster takes the state of the world and returns it.
* The members of package `miniov1` that the source files use without defining them (constants and
  the derived-name and predicate methods of `Tenant`) are the fields of the records `Miniov1`,
  `MCSPkg`, `KESPkg` and `KESCSRPkg`, over which the embedded functions are parametrised.
-/

set_option autoImplicit false

namespace MinioOperator

/-! ## Kubernetes API objects (the fields the generators read or write) -/

/-- The type `corev1.KeyToPath`. -/
structure KeyToPath where
  Key : String
  Path : String
  deriving DecidableEq, Repr

/-- The type `corev1.SecretProjection` (`LocalObjectReference.Name` and `Items`). -/
structure SecretProjection where
  Name : String
  Items : List KeyToPath
  deriving DecidableEq, Repr

/-- The type `corev1.VolumeProjection`; only the `Secret` source is used. -/
structure VolumeProjection where
  Secret : Option SecretProjection
  deriving DecidableEq, Repr

/-- The type `corev1.Volume`; `Projected` is `VolumeSource.Projected.Sources` (a nil pointer is `none`). -/
structure Volume where
  Name : String
  Projected : Option (List VolumeProjection)
  deriving DecidableEq, Repr

/-- The type `corev1.VolumeMount`. -/
structure VolumeMount where
  Name : String
  MountPath : String
  deriving DecidableEq, Repr

/-- The type `corev1.SecretKeySelector`, reached through `EnvVarSource.SecretKeyRef`. -/
structure SecretKeySelector where
  Name : String
  Key : String
  deriving DecidableEq, Repr

/-- The type `corev1.EnvVar`; `ValueFrom` is `ValueFrom.SecretKeyRef`. -/
structure EnvVar where
  Name : String
  Value : String
  ValueFrom : Option SecretKeySelector
  deriving DecidableEq, Repr

/-- The type `corev1.HTTPGetAction` with `Port.IntVal`. -/
structure HTTPGetAction where
  Path : String
  Port : Int
  Scheme : String
  deriving DecidableEq, Repr

/-- The type `corev1.Probe` with `Handler.HTTPGet`. -/
structure Probe where
  HTTPGet : Option HTTPGetAction
  InitialDelaySeconds : Int
  PeriodSeconds : Int
  TimeoutSeconds : Int
  FailureThreshold : Int
  deriving DecidableEq, Repr

/-- The type `corev1.ResourceRequirements`, carried through unchanged by the generators. -/
structure ResourceRequirements where
  Limits : List (String × String)
  Requests : List (String × String)
  deriving DecidableEq, Repr

/-- The type `corev1.Affinity`, carried through unchanged. -/
structure Affinity where
  Raw : String
  deriving DecidableEq, Repr

/-- The type `corev1.Toleration`, carried through unchanged. -/
structure Toleration where
  Key : String
  Operator : String
  Value : String
  Effect : String
  deriving DecidableEq, Repr

/-- The type `corev1.PodSecurityContext`; the zero value has every field nil. -/
structure PodSecurityContext where
  RunAsUser : Option Int
  RunAsGroup : Option Int
  FSGroup : Option Int
  deriving DecidableEq, Repr

/-- The type `corev1.LocalObjectReference`. -/
structure LocalObjectReference where
  Name : String
  deriving DecidableEq, Repr

/-- The type `corev1.Container`; `EnvFrom` lists the `SecretRef.LocalObjectReference` of each
source and is empty unless a generator sets it. -/
structure Container where
  Name : String
  Image : String
  Command : List String
  Args : List String
  Ports : List Int
  Env : List EnvVar
  Resources : ResourceRequirements
  VolumeMounts : List VolumeMount
  LivenessProbe : Option Probe
  ImagePullPolicy : String
  EnvFrom : List LocalObjectReference := []
  deriving DecidableEq, Repr

/-- The type `metav1.OwnerReference`. -/
structure OwnerReference where
  APIVersion : String
  Kind : String
  Name : String
  UID : String
  Controller : Option Bool
  BlockOwnerDeletion : Option Bool
  deriving DecidableEq, Repr

/-- The type `metav1.ObjectMeta`; a nil `Labels` map is the empty association list. -/
structure ObjectMeta where
  Name : String
  Namespace : String
  Labels : List (String × String)
  Annotations : List (String × String)
  OwnerReferences : List OwnerReference
  deriving DecidableEq, Repr

/-- The type `corev1.PersistentVolumeClaim`; the generator only renames it. -/
structure PersistentVolumeClaim where
  Name : String
  StorageClassName : Option String
  Storage : String
  deriving DecidableEq, Repr

/-- The type `corev1.PodSpec`. -/
structure PodSpec where
  Volumes : List Volume
  InitContainers : List Container
  Containers : List Container
  RestartPolicy : String
  ServiceAccountName : String
  SecurityContext : Option PodSecurityContext
  ImagePullSecrets : List LocalObjectReference
  Affinity : Option Affinity
  SchedulerName : String
  Tolerations : List Toleration
  PriorityClassName : String
  deriving DecidableEq, Repr

/-- The type `corev1.PodTemplateSpec`. -/
structure PodTemplateSpec where
  ObjectMeta : ObjectMeta
  Spec : PodSpec
  deriving DecidableEq, Repr

/-- The type `appsv1.StatefulSetSpec`; `Selector` is `Selector.MatchLabels`, `UpdateStrategy` is
`UpdateStrategy.Type`. -/
structure StatefulSetSpec where
  Replicas : Option Int
  Selector : Option (List (String × String))
  Template : PodTemplateSpec
  VolumeClaimTemplates : List PersistentVolumeClaim
  ServiceName : String
  PodManagementPolicy : String
  UpdateStrategy : String
  deriving DecidableEq, Repr

/-- The type `appsv1.StatefulSet`. -/
structure StatefulSet where
  ObjectMeta : ObjectMeta
  Spec : StatefulSetSpec
  deriving DecidableEq, Repr

/-- The type `appsv1.DeploymentSpec`; `Selector` is `Selector.MatchLabels`. -/
structure DeploymentSpec where
  Replicas : Option Int
  Selector : Option (List (String × String))
  Template : PodTemplateSpec
  deriving DecidableEq, Repr

/-- The type `appsv1.Deployment`. -/
structure Deployment where
  ObjectMeta : ObjectMeta
  Spec : DeploymentSpec
  deriving DecidableEq, Repr

/-! ## The Tenant custom resource -/

/-- The type `miniov1.LocalCertificateReference`: an external TLS secret and its type (the Go
field `Type`, a reserved word here). -/
structure LocalCertificateReference where
  Name : String
  Type_ : String
  deriving DecidableEq, Repr

/-- The type `miniov1.KESConfig` (the fields read by the embedded functions). -/
structure KESConfig where
  Image : String
  ExternalCertSecret : Option LocalCertificateReference
  deriving DecidableEq, Repr

/-- The type `miniov1.Liveness`. -/
structure Liveness where
  InitialDelaySeconds : Int
  PeriodSeconds : Int
  TimeoutSeconds : Int
  deriving DecidableEq, Repr

/-- The type `miniov1.Zone`: one pool of the tenant. -/
structure Zone where
  Name : String
  Servers : Int
  VolumesPerServer : Int
  VolumeClaimTemplate : Option PersistentVolumeClaim
  Resources : ResourceRequirements
  Affinity : Option Affinity
  Tolerations : List Toleration
  deriving DecidableEq, Repr

/-- The type `CertificateConfig` of the operator API: the settings of an auto-issued
certificate. -/
structure CertificateConfig where
  CommonName : String
  OrganizationName : List String
  DNSNames : List String
  deriving DecidableEq, Repr

/-- The type `miniov1.MCSConfig`: the configuration of the console (MCS) of a tenant. -/
structure MCSConfig where
  Replicas : Int
  Image : String
  MCSSecret : Option LocalObjectReference
  Metadata : Option ObjectMeta
  deriving DecidableEq, Repr

/-- The type `miniov1.TenantSpec` (the fields read by the embedded functions); the console
configuration `MCS`, the `Resources` and the certificate settings `CertConfig` are unset unless
given. -/
structure TenantSpec where
  Image : String
  ImagePullPolicy : String
  ImagePullSecret : LocalObjectReference
  Zones : List Zone
  Mountpath : String
  Subpath : String
  Env : List EnvVar
  CredsSecret : Option LocalObjectReference
  Metadata : Option ObjectMeta
  Liveness : Option Liveness
  SecurityContext : Option PodSecurityContext
  RequestAutoCert : Bool
  ExternalCertSecret : Option LocalCertificateReference
  ExternalClientCertSecret : Option LocalCertificateReference
  KES : Option KESConfig
  PodManagementPolicy : String
  ServiceAccountName : String
  PriorityClassName : String
  MCS : Option MCSConfig := none
  Resources : ResourceRequirements := { Limits := [], Requests := [] }
  CertConfig : Option CertificateConfig := none
  deriving DecidableEq, Repr

/-- The type `miniov1.Tenant`; `SchedulerName` is `t.Scheduler.Name`. -/
structure Tenant where
  Name : String
  Namespace : String
  UID : String
  SchedulerName : String
  Spec : TenantSpec
  deriving DecidableEq, Repr

/-- The members of package `miniov1` that the generators use and that the embedded source files do
not define: its constants and the predicate and derived-name methods of `Tenant`. -/
structure Miniov1 where
  WebhookMinIOArgsSecret : String
  WebhookMinIOArgs : String
  MinIOCertPath : String
  KESMinIOKey : String
  ZoneLabel : String
  MinIOVolumeName : String
  MinIOPort : Int
  LivenessPath : String
  LivenessFailureThreshold : Int
  MinIOServerName : String
  MinIOVolumeInitContainer : String
  MinIODNSInitContainer : String
  InitContainerImage : String
  SchemeGroup : String
  SchemeVersion : String
  MinIOCRDResourceKind : String
  DefaultUpdateStrategy : String
  HasCredsSecret : Tenant → Bool
  HasKESEnabled : Tenant → Bool
  HasMetadata : Tenant → Bool
  AutoCert : Tenant → Bool
  ExternalCert : Tenant → Bool
  ExternalClientCert : Tenant → Bool
  KESExternalCert : Tenant → Bool
  TLS : Tenant → Bool
  KESServiceEndpoint : Tenant → String
  MinIOPodLabels : Tenant → List (String × String)
  MinIOTLSSecretName : Tenant → String
  MinIOClientTLSSecretName : Tenant → String
  KESTLSSecretName : Tenant → String
  MinIOServerHost : Tenant → String
  ZoneStatefulsetName : Tenant → Zone → String
  VolumePathForZone : Tenant → Zone → String
  MinIOEndpoints : Tenant → String → List String

/-! ## Go library functions -/

/-- The function `strconv.Itoa`: the decimal representation of an integer. -/
def Itoa (i : Int) : String := toString i

/-- Assignment `m[k] = v` on a Go map kept as an association list. -/
def mapSet (m : List (String × String)) (k v : String) : List (String × String) :=
  match m with
  | [] => [(k, v)]
  | (k0, v0) :: rest => if k0 = k then (k, v) :: rest else (k0, v0) :: mapSet rest k v

/-- Lookup `m[k]` on a Go map kept as an association list. -/
def mapGet (m : List (String × String)) (k : String) : Option String :=
  match m with
  | [] => none
  | (k0, v0) :: rest => if k0 = k then some v0 else mapGet rest k

/-! ## `minio-statefulset.go` -/

/-- The function `volumeMounts`: the volume mounts of the MinIO container. -/
def volumeMounts (api : Miniov1) (t : Tenant) (zone : Zone) : List VolumeMount :=
  let name := match zone.VolumeClaimTemplate with
    | some tpl => tpl.Name
    | none => api.MinIOVolumeName
  let mounts : List VolumeMount :=
    if zone.VolumesPerServer = 1 then
      [{ Name := name ++ Itoa 0, MountPath := t.Spec.Mountpath }]
    else
      (List.range zone.VolumesPerServer.toNat).map fun (i : Nat) =>
        { Name := name ++ Itoa (Int.ofNat i), MountPath := t.Spec.Mountpath ++ Itoa (Int.ofNat i) }
  if api.AutoCert t || api.ExternalCert t then
    mounts ++ [{ Name := api.MinIOTLSSecretName t, MountPath := api.MinIOCertPath }]
  else
    mounts

/-- The loop of `GetContainerArgs` over `t.MinIOEndpoints(hostsTemplate)`: at position `index` it
appends `endpoint + t.VolumePathForZone(&t.Spec.Zones[index])`; `t.Spec.Zones[index]` panics when
`index` is out of range. -/
def endpointArgs (api : Miniov1) (t : Tenant) : Nat → List String → List String → Option (List String)
  | _, [], args => some args
  | index, endpoint :: rest, args =>
    match t.Spec.Zones.get? index with
    | none => none
    | some zone => endpointArgs api t (index + 1) rest (args ++ [endpoint ++ api.VolumePathForZone t zone])

/-- The function `GetContainerArgs`: the arguments that the MinIO container receives. -/
def GetContainerArgs (api : Miniov1) (t : Tenant) (hostsTemplate : String) : Option (List String) :=
  match t.Spec.Zones with
  | [zone0] =>
    if zone0.Servers = 1 then
      some [api.VolumePathForZone t zone0]
    else
      endpointArgs api t 0 (api.MinIOEndpoints t hostsTemplate) []
  | _ => endpointArgs api t 0 (api.MinIOEndpoints t hostsTemplate) []

/-- The function `minioEnvironmentVars`: the environment of the MinIO container. The webhook secret
argument is not read by the code. -/
def minioEnvironmentVars (api : Miniov1) (t : Tenant) (hostsTemplate : String) : Option (List EnvVar) := do
  let args ← GetContainerArgs api t hostsTemplate
  let envVars : List EnvVar := t.Spec.Env ++
    [ { Name := "MINIO_UPDATE", Value := "on", ValueFrom := none },
      { Name := "MINIO_UPDATE_MINISIGN_PUBKEY",
        Value := "RWTx5Zr1tiHQLwG9keckT0c45M3AGeHD6IvimQHpyRywVWGbP1aVSGav", ValueFrom := none },
      { Name := "MINIO_ARGS", Value := "",
        ValueFrom := some { Name := api.WebhookMinIOArgsSecret, Key := api.WebhookMinIOArgs } },
      { Name := "MINIO_ENDPOINTS", Value := String.intercalate " " args, ValueFrom := none } ]
  let envVars ←
    if api.HasCredsSecret t then do
      let creds ← t.Spec.CredsSecret
      let secretName := creds.Name
      pure (envVars ++
        [ { Name := "MINIO_ACCESS_KEY", Value := "",
            ValueFrom := some { Name := secretName, Key := "accesskey" } },
          { Name := "MINIO_SECRET_KEY", Value := "",
            ValueFrom := some { Name := secretName, Key := "secretkey" } } ])
    else pure envVars
  let envVars :=
    if api.HasKESEnabled t then
      envVars ++
        [ { Name := "MINIO_KMS_KES_ENDPOINT", Value := api.KESServiceEndpoint t, ValueFrom := none },
          { Name := "MINIO_KMS_KES_CERT_FILE", Value := api.MinIOCertPath ++ "/client.crt", ValueFrom := none },
          { Name := "MINIO_KMS_KES_KEY_FILE", Value := api.MinIOCertPath ++ "/client.key", ValueFrom := none },
          { Name := "MINIO_KMS_KES_CA_PATH", Value := api.MinIOCertPath ++ "/CAs/kes.crt", ValueFrom := none },
          { Name := "MINIO_KMS_KES_KEY_NAME", Value := api.KESMinIOKey, ValueFrom := none } ]
    else envVars
  pure envVars

/-- The zero value `metav1.ObjectMeta{}`. -/
def emptyObjectMeta : ObjectMeta :=
  { Name := "", Namespace := "", Labels := [], Annotations := [], OwnerReferences := [] }

/-- The function `minioMetadata`: the metadata of the pods of a pool, by value, as it reads when
the function returns. The Go map behind `Labels` and the write into the tenant that goes with it
are the subject of `minioMetadataShared`. -/
def minioMetadata (api : Miniov1) (t : Tenant) (zone : Zone) : Option ObjectMeta := do
  let meta ← if api.HasMetadata t then t.Spec.Metadata else pure emptyObjectMeta
  let labels := (api.MinIOPodLabels t).foldl (fun m kv => mapSet m kv.1 kv.2) meta.Labels
  pure { meta with Labels := mapSet labels api.ZoneLabel zone.Name }

/-- The Go map that a generated `ObjectMeta` holds in its field `Labels`. A Go map is a reference:
the statement `meta = *t.Spec.Metadata` copies the struct and leaves `meta.Labels` pointing to the
map of the tenant, while `make(map[string]string)` makes a map that the result alone holds. -/
inductive LabelsRef where
  /-- The map `t.Spec.Metadata.Labels` of the tenant. -/
  | tenantMetadata
  /-- The map `t.Spec.MCS.Metadata.Labels` of the tenant. -/
  | tenantMCSMetadata
  /-- A map made by the call, with its content. -/
  | made (labels : List (String × String))
  deriving DecidableEq, Repr

/-- The statement `t.Spec.Metadata.Labels[k] = v` seen from the tenant: the labels of its metadata
are replaced by the map after the writes. -/
def setMetadataLabels (t : Tenant) (labels : List (String × String)) : Tenant :=
  { t with Spec := { t.Spec with
      Metadata := t.Spec.Metadata.map fun md => { md with Labels := labels } } }

/-- The statement `t.Spec.MCS.Metadata.Labels[k] = v` seen from the tenant. -/
def setMCSMetadataLabels (t : Tenant) (labels : List (String × String)) : Tenant :=
  { t with Spec := { t.Spec with
      MCS := t.Spec.MCS.map fun m =>
        { m with Metadata := m.Metadata.map fun md => { md with Labels := labels } } } }

/-- The content of a label map, read while the tenant is `t`. -/
def LabelsRef.read (t : Tenant) : LabelsRef → List (String × String)
  | LabelsRef.tenantMetadata =>
    match t.Spec.Metadata with
    | some md => md.Labels
    | none => []
  | LabelsRef.tenantMCSMetadata =>
    match t.Spec.MCS with
    | some m =>
      match m.Metadata with
      | some md => md.Labels
      | none => []
    | none => []
  | LabelsRef.made labels => labels

/-- The function `minioMetadata` with the Go map behind `Labels`: the map that the returned
metadata holds, and the tenant as the call leaves it. When the tenant has metadata with a label map
(the empty list stands for the nil map), `meta = *t.Spec.Metadata` makes `meta.Labels` the map of
the tenant, so the pod labels and the pool label are written into `t.Spec.Metadata.Labels` and the
result shares that map; else the labels are written into a map made by the call. -/
def minioMetadataShared (api : Miniov1) (t : Tenant) (zone : Zone) : Option (LabelsRef × Tenant) := do
  let meta ← if api.HasMetadata t then t.Spec.Metadata else pure emptyObjectMeta
  let labels := (api.MinIOPodLabels t).foldl (fun m kv => mapSet m kv.1 kv.2) meta.Labels
  let labels := mapSet labels api.ZoneLabel zone.Name
  if api.HasMetadata t ∧ meta.Labels ≠ [] then
    pure (LabelsRef.tenantMetadata, setMetadataLabels t labels)
  else
    pure (LabelsRef.made labels, t)

/-- The function `ContainerMatchLabels`: the match labels of the StatefulSet selector. -/
def ContainerMatchLabels (api : Miniov1) (t : Tenant) (zone : Zone) : List (String × String) :=
  mapSet (api.MinIOPodLabels t) api.ZoneLabel zone.Name

/-- The function `probes`: the liveness probe of the MinIO container. -/
def probes (api : Miniov1) (t : Tenant) : Option Probe :=
  let scheme := if api.TLS t then "HTTPS" else "HTTP"
  match t.Spec.Liveness with
  | some l =>
    some { HTTPGet := some { Path := api.LivenessPath, Port := api.MinIOPort, Scheme := scheme },
           InitialDelaySeconds := l.InitialDelaySeconds,
           PeriodSeconds := l.PeriodSeconds,
           TimeoutSeconds := l.TimeoutSeconds,
           FailureThreshold := api.LivenessFailureThreshold }
  | none => none

/-- The zero value `corev1.ResourceRequirements{}`. -/
def emptyResources : ResourceRequirements := { Limits := [], Requests := [] }

/-- The function `zoneMinioServerContainer`: the MinIO container of a pool. -/
def zoneMinioServerContainer (api : Miniov1) (t : Tenant) (zone : Zone) (hostsTemplate : String) :
    Option Container := do
  let args := ["server", "--certs-dir", api.MinIOCertPath]
  let liveProbe := probes api t
  let env ← minioEnvironmentVars api t hostsTemplate
  pure { Name := api.MinIOServerName,
         Image := t.Spec.Image,
         Command := [],
         Args := args,
         Ports := [api.MinIOPort],
         Env := env,
         Resources := zone.Resources,
         VolumeMounts := volumeMounts api t zone,
         LivenessProbe := liveProbe,
         ImagePullPolicy := t.Spec.ImagePullPolicy }

/-- One wait loop of the mount-validation script:
`fmt.Sprintf("until /bin/stat %s; do sleep 2; done;", m.MountPath)`. -/
def statLoop (m : VolumeMount) : String :=
  "until /bin/stat " ++ m.MountPath ++ "; do sleep 2; done;"

/-- The script built by `zoneMinIOInitContainerValidateMounts` (its variable `s`). -/
def validateMountsScript (api : Miniov1) (t : Tenant) (zone : Zone) : String :=
  let s := (volumeMounts api t zone).foldl (fun s m => s ++ statLoop m) ""
  if api.AutoCert t || api.ExternalCert t then
    s ++ "echo Wait till certs can be read;"
      ++ "until /bin/cat /tmp/certs/private.key > /dev/null; do sleep 2; done;"
      ++ "until /bin/cat /tmp/certs/public.crt > /dev/null; do sleep 2; done;"
      ++ "until /bin/cat /tmp/certs/CAs/public.crt > /dev/null; do sleep 2; done;"
  else s

/-- The function `zoneMinIOInitContainerValidateMounts`: the init container that waits for the
mounts. The claim templates and pod volumes it is passed are not read by the code. -/
def zoneMinIOInitContainerValidateMounts (api : Miniov1) (t : Tenant) (zone : Zone) : Container :=
  { Name := api.MinIOVolumeInitContainer,
    Image := api.InitContainerImage,
    Command := ["/bin/sh", "-c"],
    Args := [validateMountsScript api t zone],
    Ports := [],
    Env := [],
    Resources := emptyResources,
    VolumeMounts := volumeMounts api t zone,
    LivenessProbe := none,
    ImagePullPolicy := "" }

/-- The function `zoneMinIOInitContainerWaitForDNS`: the init container that waits for DNS. -/
def zoneMinIOInitContainerWaitForDNS (api : Miniov1) (t : Tenant) : Container :=
  { Name := api.MinIODNSInitContainer,
    Image := api.InitContainerImage,
    Command := ["/bin/sh", "-c"],
    Args := ["echo Wait for service; until nslookup " ++ api.MinIOServerHost t
        ++ " ; do echo waiting for " ++ api.MinIOServerHost t ++ "; sleep 2; done; "],
    Ports := [],
    Env := [],
    Resources := emptyResources,
    VolumeMounts := [],
    LivenessProbe := none,
    ImagePullPolicy := "" }

/-- The function `minioZoneTolerations`. -/
def minioZoneTolerations (z : Zone) : List Toleration := [] ++ z.Tolerations

/-- The function `minioSecurityContext`: the tenant's security context or the zero value. -/
def minioSecurityContext (t : Tenant) : PodSecurityContext :=
  match t.Spec.SecurityContext with
  | some sc => sc
  | none => { RunAsUser := none, RunAsGroup := none, FSGroup := none }

/-- The function `metav1.NewControllerRef` applied to the tenant and a group/version/kind. -/
def NewControllerRef (t : Tenant) (group version kind : String) : OwnerReference :=
  { APIVersion := if group = "" then version else group ++ "/" ++ version,
    Kind := kind,
    Name := t.Name,
    UID := t.UID,
    Controller := some true,
    BlockOwnerDeletion := some true }

/-- The local variables of `NewForMinIOZone` that select the TLS material of each role. -/
structure CertSelection where
  serverCertSecret : String
  serverCertPaths : List KeyToPath
  clientCertSecret : String
  clientCertPaths : List KeyToPath
  kesCertSecret : String
  KESCertPath : List KeyToPath
  deriving DecidableEq, Repr

/-- The initial values of the certificate variables of `NewForMinIOZone`. -/
def defaultCertSelection : CertSelection :=
  { serverCertSecret := "",
    serverCertPaths := [⟨"public.crt", "public.crt"⟩, ⟨"private.key", "private.key"⟩,
      ⟨"public.crt", "CAs/public.crt"⟩],
    clientCertSecret := "",
    clientCertPaths := [⟨"public.crt", "client.crt"⟩, ⟨"private.key", "client.key"⟩],
    kesCertSecret := "",
    KESCertPath := [⟨"public.crt", "CAs/kes.crt"⟩] }

/-- The server branch of the external-certificate case of `NewForMinIOZone`: the value of
`serverCertPaths` after the test of `t.Spec.ExternalCertSecret.Type`. -/
def externalServerCertPaths (ext : LocalCertificateReference) : List KeyToPath :=
  if ext.Type_ = "kubernetes.io/tls" then
    [⟨"tls.crt", "public.crt"⟩, ⟨"tls.key", "private.key"⟩, ⟨"tls.crt", "CAs/public.crt"⟩]
  else if ext.Type_ = "cert-manager.io/v1alpha2" then
    [⟨"tls.crt", "public.crt"⟩, ⟨"tls.key", "private.key"⟩, ⟨"ca.crt", "CAs/public.crt"⟩]
  else defaultCertSelection.serverCertPaths

/-- The `if t.ExternalClientCert()` statement of `NewForMinIOZone`: the values of
`clientCertSecret` and `clientCertPaths` after it. The type that is tested is the one of
`t.Spec.ExternalCertSecret`, the server's secret `ext`. -/
def externalClientCert (api : Miniov1) (t : Tenant) (ext : LocalCertificateReference) :
    Option (String × List KeyToPath) :=
  if api.ExternalClientCert t then do
    let client ← t.Spec.ExternalClientCertSecret
    if ext.Type_ = "kubernetes.io/tls" ∨ ext.Type_ = "cert-manager.io/v1alpha2" then
      pure (client.Name, [⟨"tls.crt", "client.crt"⟩, ⟨"tls.key", "client.key"⟩])
    else pure (client.Name, defaultCertSelection.clientCertPaths)
  else pure (defaultCertSelection.clientCertSecret, defaultCertSelection.clientCertPaths)

/-- The `if t.KESExternalCert()` statement of `NewForMinIOZone`: the values of `kesCertSecret`
and `KESCertPath` after it. -/
def externalKESCert (api : Miniov1) (t : Tenant) : Option (String × List KeyToPath) :=
  if api.KESExternalCert t then do
    let kes ← t.Spec.KES
    let kesExt ← kes.ExternalCertSecret
    if kesExt.Type_ = "kubernetes.io/tls" ∨ kesExt.Type_ = "cert-manager.io/v1alpha2" then
      pure (kesExt.Name, [⟨"tls.crt", "CAs/kes.crt"⟩])
    else pure (kesExt.Name, defaultCertSelection.KESCertPath)
  else pure (defaultCertSelection.kesCertSecret, defaultCertSelection.KESCertPath)

/-- The `if t.AutoCert() ... else if t.ExternalCert() ...` statement of `NewForMinIOZone` that
assigns the certificate variables. -/
def selectCerts (api : Miniov1) (t : Tenant) : Option CertSelection :=
  if api.AutoCert t then
    some { defaultCertSelection with
            serverCertSecret := api.MinIOTLSSecretName t,
            clientCertSecret := api.MinIOClientTLSSecretName t,
            kesCertSecret := api.KESTLSSecretName t }
  else if api.ExternalCert t then do
    let ext ← t.Spec.ExternalCertSecret
    let client ← externalClientCert api t ext
    let kes ← externalKESCert api t
    pure { serverCertSecret := ext.Name,
           serverCertPaths := externalServerCertPaths ext,
           clientCertSecret := client.1,
           clientCertPaths := client.2,
           kesCertSecret := kes.1,
           KESCertPath := kes.2 }
  else some defaultCertSelection

/-- The statement of `NewForMinIOZone` that adds the projected TLS volume to the pod volumes. -/
def tlsPodVolumes (api : Miniov1) (t : Tenant) (c : CertSelection) : List Volume :=
  if api.AutoCert t || api.ExternalCert t then
    let sources : List VolumeProjection :=
      [ { Secret := some { Name := c.serverCertSecret, Items := c.serverCertPaths } } ]
    let sources :=
      if api.HasKESEnabled t then
        sources ++
          [ { Secret := some { Name := c.clientCertSecret, Items := c.clientCertPaths } },
            { Secret := some { Name := c.kesCertSecret, Items := c.KESCertPath } } ]
      else sources
    [] ++ [{ Name := api.MinIOTLSSecretName t, Projected := some sources }]
  else []

/-- The loop of `NewForMinIOZone` that derives the volume claim templates of the StatefulSet. -/
def claimTemplates (zone : Zone) : List PersistentVolumeClaim :=
  match zone.VolumeClaimTemplate with
  | some pvClaim =>
    (List.range zone.VolumesPerServer.toNat).map fun (i : Nat) =>
      { pvClaim with Name := pvClaim.Name ++ Itoa (Int.ofNat i) }
  | none => []

/-- The function `NewForMinIOZone`: the StatefulSet of one pool of the tenant. The webhook secret
argument is only handed to `minioEnvironmentVars`, which does not read it. -/
def NewForMinIOZone (api : Miniov1) (t : Tenant) (zone : Zone) (serviceName hostsTemplate : String) :
    Option StatefulSet := do
  let replicas := zone.Servers
  let certs ← selectCerts api t
  let podVolumes := tlsPodVolumes api t certs
  let container ← zoneMinioServerContainer api t zone hostsTemplate
  let containers := [container]
  let podMeta ← minioMetadata api t zone
  let initContainers :=
    [zoneMinIOInitContainerValidateMounts api t zone, zoneMinIOInitContainerWaitForDNS api t]
  pure
    { ObjectMeta :=
        { Name := api.ZoneStatefulsetName t zone,
          Namespace := t.Namespace,
          Labels := [],
          Annotations := [],
          OwnerReferences :=
            [NewControllerRef t api.SchemeGroup api.SchemeVersion api.MinIOCRDResourceKind] },
      Spec :=
        { UpdateStrategy := api.DefaultUpdateStrategy,
          PodManagementPolicy := t.Spec.PodManagementPolicy,
          Selector := some (ContainerMatchLabels api t zone),
          ServiceName := serviceName,
          Replicas := some replicas,
          Template :=
            { ObjectMeta := podMeta,
              Spec :=
                { Containers := containers,
                  InitContainers := initContainers,
                  Volumes := podVolumes,
                  RestartPolicy := "Always",
                  Affinity := zone.Affinity,
                  SchedulerName := t.SchedulerName,
                  Tolerations := minioZoneTolerations zone,
                  SecurityContext := some (minioSecurityContext t),
                  ServiceAccountName := t.Spec.ServiceAccountName,
                  PriorityClassName := t.Spec.PriorityClassName,
                  ImagePullSecrets :=
                    if t.Spec.ImagePullSecret.Name ≠ "" then [t.Spec.ImagePullSecret] else [] } },
          VolumeClaimTemplates := claimTemplates zone } }

/-! ## `kes.go` -/

/-- The functions that `kesStatefulSetMatchesSpec` calls and that the embedded source files do not
define: `KESConfig.EqualImage`, `Tenant.KESHLServiceName`, `statefulsets.NewForKES` and
`equality.Semantic.DeepDerivative` on StatefulSet specs. -/
structure KESPkg where
  EqualImage : Option KESConfig → String → Option Bool
  KESHLServiceName : Tenant → String
  NewForKES : Tenant → String → StatefulSet
  DeepDerivative : StatefulSetSpec → StatefulSetSpec → Bool

/-- The function `kesStatefulSetMatchesSpec`. The result `some (matches, err)` is a normal return
(`err = none` is the nil error); `none` is a run-time panic, raised by `Containers[0]` on an empty
container list or inside the call `tenant.Spec.KES.EqualImage(image)` (`EqualImage` is handed the
pointer `tenant.Spec.KES` and answers `none` when the call panics). -/
def kesStatefulSetMatchesSpec (pkg : KESPkg) (tenant : Option Tenant) (kesStatefulSet : Option StatefulSet) :
    Option (Bool × Option String) :=
  match kesStatefulSet with
  | none => some (false, some "cannot process an empty kes StatefulSet")
  | some ss =>
    match tenant with
    | none => some (false, some "cannot process an empty tenant")
    | some t => do
      let c0 ← ss.Spec.Template.Spec.Containers.get? 0
      let equalImage ← pkg.EqualImage t.Spec.KES c0.Image
      if !equalImage then
        pure (false, none)
      else
        let expectedStatefulSet := pkg.NewForKES t (pkg.KESHLServiceName t)
        if !pkg.DeepDerivative expectedStatefulSet.Spec ss.Spec then
          pure (false, none)
        else
          pure (true, none)

/-- A byte slice. -/
abbrev Bytes := List Nat

/-- A private key, as returned by `newPrivateKey`. -/
structure PrivateKey where
  Raw : Bytes
  deriving DecidableEq, Repr

/-- The type `pkix.Extension` as `generateKESCryptoData` fills it: `Id` is nil and `Value` is
the bytes of a host name. -/
structure Extension where
  Critical : Bool
  Value : String
  deriving DecidableEq, Repr

/-- The type `x509.CertificateRequest`: the fields of the template that `generateKESCryptoData`
sets. -/
structure CertificateRequest where
  CommonName : String
  Organization : List String
  SignatureAlgorithm : String
  DNSNames : List String
  Extensions : List Extension
  deriving DecidableEq, Repr

/-- The functions that `generateKESCryptoData` and `createKESCSR` call and that the embedded
source files do not define, over the state `σ` of the world outside the function (the cluster
behind the controller's client and the random source). A call that reads or writes that state
takes it and returns it; a call that returns a Go `error` returns `Except.error` (or `some` for a
bare `error` result). -/
structure KESCSRPkg (σ : Type) where
  DefaultEllipticCurve : String
  privateKeyType : String
  newPrivateKey : String → σ → Except String PrivateKey × σ
  MarshalPKCS8PrivateKey : PrivateKey → Except String Bytes
  CreateCertificateRequest : CertificateRequest → PrivateKey → σ → Except String Bytes × σ
  EncodeToMemory : String → Bytes → Bytes
  KESHosts : Tenant → List String
  KESWildCardName : Tenant → String
  KESPodLabels : Tenant → List (String × String)
  KESCSRName : Tenant → String
  KESTLSSecretName : Tenant → String
  createCertificateSigningRequest :
    List (String × String) → String → String → Bytes → Tenant → String → σ → Option String × σ
  fetchCertificate : String → σ → Except String Bytes × σ
  createSecret : Tenant → List (String × String) → String → Bytes → Bytes → σ → Option String × σ

/-- The function `generateKESCryptoData`: the private key bytes and the CSR bytes of the KES
certificate. The result `none` is the panic of `tenant.Spec.CertConfig.OrganizationName` on a nil
`CertConfig`; the log calls are left out. -/
def generateKESCryptoData {σ : Type} (pkg : KESCSRPkg σ) (tenant : Tenant) (s : σ) :
    Option (Except String (Bytes × Bytes) × σ) :=
  match pkg.newPrivateKey pkg.DefaultEllipticCurve s with
  | (Except.error err, s1) => some (Except.error err, s1)
  | (Except.ok privateKey, s1) =>
    match pkg.MarshalPKCS8PrivateKey privateKey with
    | Except.error err => some (Except.error err, s1)
    | Except.ok privKeyBytes =>
      let kesHosts := pkg.KESHosts tenant
      let csrExtensions : List Extension :=
        kesHosts.map fun host => { Critical := false, Value := host }
      match tenant.Spec.CertConfig with
      | none => none
      | some certConfig =>
        let csrTemplate : CertificateRequest :=
          { CommonName := "system:node:" ++ pkg.KESWildCardName tenant,
            Organization := certConfig.OrganizationName,
            SignatureAlgorithm := "ECDSA-SHA512",
            DNSNames := pkg.KESHosts tenant,
            Extensions := csrExtensions }
        match pkg.CreateCertificateRequest csrTemplate privateKey s1 with
        | (Except.error err, s2) => some (Except.error err, s2)
        | (Except.ok csrBytes, s2) => some (Except.ok (privKeyBytes, csrBytes), s2)

/-- The method `Controller.createKESCSR`: key and CSR generation, CSR submission, certificate
fetch and secret creation. The result `some (err, s)` is the returned error (`none` is nil) and
the state of the world after the call; `none` is a panic of `generateKESCryptoData`. The context
argument and the log calls are left out. -/
def createKESCSR {σ : Type} (pkg : KESCSRPkg σ) (tenant : Tenant) (s : σ) :
    Option (Option String × σ) :=
  match generateKESCryptoData pkg tenant s with
  | none => none
  | some (Except.error err, s1) => some (some err, s1)
  | some (Except.ok (privKeysBytes, csrBytes), s1) =>
    match pkg.createCertificateSigningRequest (pkg.KESPodLabels tenant) (pkg.KESCSRName tenant)
        tenant.Namespace csrBytes tenant "server" s1 with
    | (some err, s2) => some (some err, s2)
    | (none, s2) =>
      match pkg.fetchCertificate (pkg.KESCSRName tenant) s2 with
      | (Except.error err, s3) => some (some err, s3)
      | (Except.ok certbytes, s3) =>
        let encodedPrivKey := pkg.EncodeToMemory pkg.privateKeyType privKeysBytes
        match pkg.createSecret tenant (pkg.KESPodLabels tenant) (pkg.KESTLSSecretName tenant)
            encodedPrivKey certbytes s3 with
        | (some err, s4) => some (some err, s4)
        | (none, s4) => some (none, s4)

/-! ## `helper_test.go`: the `MinIOInstance` of API version `v1beta1` -/

/-- The type `v1beta1.MinIOInstanceSpec`: the fields that `TestEnsureDefaults` reads or writes. -/
structure MinIOInstanceSpec where
  Image : String
  Mountpath : String
  Subpath : String
  RequestAutoCert : Bool
  CertConfig : Option CertificateConfig
  deriving DecidableEq, Repr

/-- The type `v1beta1.MinIOInstance`. -/
structure MinIOInstance where
  Name : String
  Namespace : String
  Spec : MinIOInstanceSpec
  deriving DecidableEq, Repr

/-- The constants of package `constants` that `TestEnsureDefaults` compares with, and the
certificate settings that `EnsureDefaults` creates for an instance; none of them is defined in the
source files. -/
structure Constants where
  DefaultMinIOImage : String
  MinIOVolumeMountPath : String
  MinIOVolumeSubPath : String
  NewCertConfig : MinIOInstance → CertificateConfig

/-- Modelled from the spec: the method `MinIOInstance.RequiresAutoCertSetup`, which is not among
the source files (only its test is); the test sees it false on the zero instance and true once
`Spec.RequestAutoCert` is set. -/
def RequiresAutoCertSetup (mi : MinIOInstance) : Bool := mi.Spec.RequestAutoCert

/-- Modelled from the spec: the method `MinIOInstance.HasCertConfig`, which is not among the
source files (only its test is); the test sees it true exactly when `Spec.CertConfig` is not
nil. -/
def HasCertConfig (mi : MinIOInstance) : Bool := mi.Spec.CertConfig.isSome

/-- Modelled from the spec: the method `MinIOInstance.EnsureDefaults`, which is not among the
source files (only its test `TestEnsureDefaults` is). As the test observes it, an empty `Image`,
`Mountpath` or `Subpath` is set to its default and a value that is set is not overridden; when the
instance requires the auto-certificate setup and has no `CertConfig`, one is created, and a
`CertConfig` that is there is kept. -/
def EnsureDefaults (k : Constants) (mi : MinIOInstance) : MinIOInstance :=
  let mi : MinIOInstance :=
    if mi.Spec.Image = "" then { mi with Spec := { mi.Spec with Image := k.DefaultMinIOImage } }
    else mi
  let mi : MinIOInstance :=
    if mi.Spec.Mountpath = "" then
      { mi with Spec := { mi.Spec with Mountpath := k.MinIOVolumeMountPath } }
    else mi
  let mi : MinIOInstance :=
    if mi.Spec.Subpath = "" then
      { mi with Spec := { mi.Spec with Subpath := k.MinIOVolumeSubPath } }
    else mi
  if RequiresAutoCertSetup mi then
    match mi.Spec.CertConfig with
    | some _ => mi
    | none => { mi with Spec := { mi.Spec with CertConfig := some (k.NewCertConfig mi) } }
  else mi

/-! ## `mcs-deployment.go` -/

/-- The members of package `miniov1` that `mcs-deployment.go` uses and that the embedded source
files do not define: constants, the package variable `Scheme` and methods of `Tenant`. The group
and version of `SchemeGroupVersion` and the constant `MinIOCRDResourceKind` are the ones that
`minio-statefulset.go` passes to `metav1.NewControllerRef`; the method `Tenant.OwnerRef` is the
definition `OwnerRef` below. -/
structure MCSPkg where
  Scheme : String
  MinIOPort : Int
  MCSContainerName : String
  MCSPort : Int
  DefaultImagePullPolicy : String
  MCSRestartPolicy : String
  MinIOCIServiceHost : Tenant → String
  HasMCSMetadata : Tenant → Bool
  MCSPodLabels : Tenant → List (String × String)
  MCSDeploymentName : Tenant → String
  SchemeGroup : String
  SchemeVersion : String
  MinIOCRDResourceKind : String

/-- Modelled from the spec: the method `Tenant.OwnerRef`, which `NewForMCS` calls and the source
files do not define. By the ownership invariant of the spec (every resource created by the
operator carries an owner reference to the Tenant) the list holds one reference, the controller
reference to the tenant, built as `NewForMinIOZone` builds it: `metav1.NewControllerRef` on the
tenant with the group and version of `SchemeGroupVersion` and the kind `MinIOCRDResourceKind`. -/
def OwnerRef (mcs : MCSPkg) (t : Tenant) : List OwnerReference :=
  [NewControllerRef t mcs.SchemeGroup mcs.SchemeVersion mcs.MinIOCRDResourceKind]

/-- The function `net.JoinHostPort`: a host that contains a colon is put in brackets. -/
def JoinHostPort (host port : String) : String :=
  if host.contains ':' then "[" ++ host ++ "]:" ++ port else host ++ ":" ++ port

/-- The function `mcsEnvVars`: the environment of the console container. -/
def mcsEnvVars (mcs : MCSPkg) (t : Tenant) : List EnvVar :=
  let envVars : List EnvVar :=
    [{ Name := "MCS_MINIO_SERVER",
       Value := mcs.Scheme ++ "://" ++ JoinHostPort (mcs.MinIOCIServiceHost t) (Itoa mcs.MinIOPort),
       ValueFrom := none }]
  if mcs.Scheme = "https" then
    envVars ++ [{ Name := "MCS_MINIO_SERVER_TLS_SKIP_VERIFICATION", Value := "on", ValueFrom := none }]
  else envVars

/-- The function `mcsSecretEnvVars`: the secret that the console reads its environment from. -/
def mcsSecretEnvVars (t : Tenant) : Option (List LocalObjectReference) := do
  let m ← t.Spec.MCS
  let secret ← m.MCSSecret
  pure [{ Name := secret.Name }]

/-- The function `mcsMetadata`: the metadata of the console pods, by value, as it reads when the
function returns. The Go map behind `Labels` and the write into the tenant that goes with it are
the subject of `mcsMetadataShared`. -/
def mcsMetadata (mcs : MCSPkg) (t : Tenant) : Option ObjectMeta := do
  let meta ←
    if mcs.HasMCSMetadata t then do
      let m ← t.Spec.MCS
      m.Metadata
    else pure emptyObjectMeta
  pure { meta with Labels := (mcs.MCSPodLabels t).foldl (fun m kv => mapSet m kv.1 kv.2) meta.Labels }

/-- The function `mcsMetadata` with the Go map behind `Labels`: the map that the returned metadata
holds, and the tenant as the call leaves it. When the console has metadata with a label map (the
empty list stands for the nil map), `meta = *t.Spec.MCS.Metadata` makes `meta.Labels` the map of
the tenant, so the console pod labels are written into `t.Spec.MCS.Metadata.Labels` and the result
shares that map; else the labels are written into a map made by the call. -/
def mcsMetadataShared (mcs : MCSPkg) (t : Tenant) : Option (LabelsRef × Tenant) := do
  let meta ←
    if mcs.HasMCSMetadata t then do
      let m ← t.Spec.MCS
      m.Metadata
    else pure emptyObjectMeta
  let labels := (mcs.MCSPodLabels t).foldl (fun m kv => mapSet m kv.1 kv.2) meta.Labels
  if mcs.HasMCSMetadata t ∧ meta.Labels ≠ [] then
    pure (LabelsRef.tenantMCSMetadata, setMCSMetadataLabels t labels)
  else
    pure (LabelsRef.made labels, t)

/-- The function `mcsSelector`: the match labels of the console Deployment selector. -/
def mcsSelector (mcs : MCSPkg) (t : Tenant) : List (String × String) :=
  mcs.MCSPodLabels t

/-- The function `mcsContainer`: the console container. -/
def mcsContainer (mcs : MCSPkg) (t : Tenant) : Option Container := do
  let m ← t.Spec.MCS
  let envFrom ← mcsSecretEnvVars t
  pure { Name := mcs.MCSContainerName,
         Image := m.Image,
         Command := [],
         Args := ["server"],
         Ports := [mcs.MCSPort],
         Env := mcsEnvVars mcs t,
         Resources := t.Spec.Resources,
         VolumeMounts := [],
         LivenessProbe := none,
         ImagePullPolicy := mcs.DefaultImagePullPolicy,
         EnvFrom := envFrom }

/-- The function `NewForMCS`: the console Deployment of the tenant. -/
def NewForMCS (mcs : MCSPkg) (t : Tenant) : Option Deployment := do
  let m ← t.Spec.MCS
  let podMeta ← mcsMetadata mcs t
  let container ← mcsContainer mcs t
  pure
    { ObjectMeta :=
        { Name := mcs.MCSDeploymentName t,
          Namespace := t.Namespace,
          Labels := [],
          Annotations := [],
          OwnerReferences := OwnerRef mcs t },
      Spec :=
        { Replicas := some m.Replicas,
          Selector := some (mcsSelector mcs t),
          Template :=
            { ObjectMeta := podMeta,
              Spec :=
                { Containers := [container],
                  InitContainers := [],
                  Volumes := [],
                  RestartPolicy := mcs.MCSRestartPolicy,
                  Affinity := none,
                  SchedulerName := "",
                  Tolerations := [],
                  SecurityContext := none,
                  ServiceAccountName := "",
                  PriorityClassName := "",
                  ImagePullSecrets := [] } } } }

/-! ## A concrete package instance and concrete tenants -/

/-- Modelled from the spec: an instance of the constants and `Tenant` helper methods of package
`miniov1`, which the source files call and do not define; it is used to evaluate the generators on
concrete tenants. The predicates are the nil and flag tests their names state (TLS mode
`auto-issued` is `RequestAutoCert`, mode `external` is a present external secret), the names are
derived from the tenant name, the volume path carries the index range of the volumes of a pool,
and there is one endpoint per pool, in pool declaration order. The string constants are sample
values. -/
def stdMiniov1 : Miniov1 :=
  { WebhookMinIOArgsSecret := "operator-webhook-secret",
    WebhookMinIOArgs := "webhookMinIOArgs",
    MinIOCertPath := "/tmp/certs",
    KESMinIOKey := "my-minio-key",
    ZoneLabel := "v1.min.io/zone",
    MinIOVolumeName := "export",
    MinIOPort := 9000,
    LivenessPath := "/minio/health/live",
    LivenessFailureThreshold := 1,
    MinIOServerName := "minio",
    MinIOVolumeInitContainer := "validate-volumes",
    MinIODNSInitContainer := "wait-for-dns",
    InitContainerImage := "busybox:1.32",
    SchemeGroup := "minio.min.io",
    SchemeVersion := "v1",
    MinIOCRDResourceKind := "Tenant",
    DefaultUpdateStrategy := "RollingUpdate",
    HasCredsSecret := fun t => t.Spec.CredsSecret.isSome,
    HasKESEnabled := fun t => t.Spec.KES.isSome,
    HasMetadata := fun t => t.Spec.Metadata.isSome,
    AutoCert := fun t => t.Spec.RequestAutoCert,
    ExternalCert := fun t => t.Spec.ExternalCertSecret.isSome,
    ExternalClientCert := fun t => t.Spec.ExternalClientCertSecret.isSome,
    KESExternalCert := fun t =>
      match t.Spec.KES with
      | some kes => kes.ExternalCertSecret.isSome
      | none => false,
    TLS := fun t => t.Spec.RequestAutoCert || t.Spec.ExternalCertSecret.isSome,
    KESServiceEndpoint := fun t => "https://" ++ t.Name ++ "-kes-hl-svc:7373",
    MinIOPodLabels := fun t => [("v1.min.io/tenant", t.Name)],
    MinIOTLSSecretName := fun t => t.Name ++ "-tls",
    MinIOClientTLSSecretName := fun t => t.Name ++ "-client-tls",
    KESTLSSecretName := fun t => t.Name ++ "-kes-tls",
    MinIOServerHost := fun t => t.Name ++ "-hl",
    ZoneStatefulsetName := fun t z => t.Name ++ "-" ++ z.Name,
    VolumePathForZone := fun t z =>
      if z.VolumesPerServer = 1 then t.Spec.Mountpath ++ "/" ++ t.Spec.Subpath
      else t.Spec.Mountpath ++ "\x7b0..." ++ Itoa (z.VolumesPerServer - 1) ++ "\x7d/" ++ t.Spec.Subpath,
    MinIOEndpoints := fun t hostsTemplate =>
      t.Spec.Zones.map fun z =>
        "https://" ++ t.Name ++ "-" ++ z.Name ++ "-\x7b0..." ++ Itoa (z.Servers - 1) ++ "\x7d."
          ++ hostsTemplate }

/-- A pool with the given name, server count and volumes per server, and no claim template. -/
def mkZone (name : String) (servers volumesPerServer : Int) : Zone :=
  { Name := name,
    Servers := servers,
    VolumesPerServer := volumesPerServer,
    VolumeClaimTemplate := none,
    Resources := emptyResources,
    Affinity := none,
    Tolerations := [] }

/-- A tenant named `tenant1` with the given pools and TLS settings and nothing else set. -/
def mkTenant (zones : List Zone) (autoCert : Bool) (ext client : Option LocalCertificateReference)
    (kes : Option KESConfig) : Tenant :=
  { Name := "tenant1",
    Namespace := "ns1",
    UID := "uid-1",
    SchedulerName := "",
    Spec :=
      { Image := "minio/minio:v1",
        ImagePullPolicy := "IfNotPresent",
        ImagePullSecret := { Name := "" },
        Zones := zones,
        Mountpath := "/export",
        Subpath := "data",
        Env := [],
        CredsSecret := none,
        Metadata := none,
        Liveness := none,
        SecurityContext := none,
        RequestAutoCert := autoCert,
        ExternalCertSecret := ext,
        ExternalClientCertSecret := client,
        KES := kes,
        PodManagementPolicy := "Parallel",
        ServiceAccountName := "",
        PriorityClassName := "" } }

/-- Modelled from the spec: the functions of `KESPkg`, which `kes.go` calls and the source files do
not define. `EqualImage` compares the image of the KES configuration with the live image and panics
on a nil configuration, the desired KES StatefulSet has one container that runs the configured
image, and the comparison of the desired with the live spec is taken at its strictest, equality of
the two specs. -/
def sampleKESPkg : KESPkg :=
  { EqualImage := fun kes image => kes.map fun k => decide (k.Image = image),
    KESHLServiceName := fun t => t.Name ++ "-kes-hl-svc",
    NewForKES := fun t serviceName =>
      { ObjectMeta :=
          { Name := t.Name ++ "-kes", Namespace := t.Namespace, Labels := [], Annotations := [],
            OwnerReferences := [] },
        Spec :=
          { Replicas := some 1,
            Selector := some [("v1.min.io/kes", t.Name ++ "-kes")],
            Template :=
              { ObjectMeta :=
                  { emptyObjectMeta with Labels := [("v1.min.io/kes", t.Name ++ "-kes")] },
                Spec :=
                  { Volumes := [],
                    InitContainers := [],
                    Containers :=
                      [{ Name := "kes",
                         Image := match t.Spec.KES with
                           | some k => k.Image
                           | none => "",
                         Command := [],
                         Args := ["server"],
                         Ports := [7373],
                         Env := [],
                         Resources := emptyResources,
                         VolumeMounts := [],
                         LivenessProbe := none,
                         ImagePullPolicy := "IfNotPresent" }],
                    RestartPolicy := "Always",
                    ServiceAccountName := "",
                    SecurityContext := none,
                    ImagePullSecrets := [],
                    Affinity := none,
                    SchedulerName := "",
                    Tolerations := [],
                    PriorityClassName := "" } },
            VolumeClaimTemplates := [],
            ServiceName := serviceName,
            PodManagementPolicy := "Parallel",
            UpdateStrategy := "RollingUpdate" } },
    DeepDerivative := fun desired live => decide (desired = live) }

/-- Modelled from the spec: an instance of the members of `MCSPkg`, which `mcs-deployment.go`
uses and the source files do not define; it is used to evaluate the console generator on concrete
tenants. The console pods are labelled with the console name, and the string constants are sample
values. -/
def stdMCSPkg : MCSPkg :=
  { Scheme := "http",
    MinIOPort := 9000,
    MCSContainerName := "mcs",
    MCSPort := 9090,
    DefaultImagePullPolicy := "Always",
    MCSRestartPolicy := "Always",
    MinIOCIServiceHost := fun t => t.Name ++ "-ci." ++ t.Namespace ++ ".svc.cluster.local",
    HasMCSMetadata := fun t =>
      match t.Spec.MCS with
      | some m => m.Metadata.isSome
      | none => false,
    MCSPodLabels := fun t => [("v1.min.io/mcs", t.Name ++ "-mcs")],
    MCSDeploymentName := fun t => t.Name ++ "-mcs",
    SchemeGroup := "minio.min.io",
    SchemeVersion := "v1",
    MinIOCRDResourceKind := "Tenant" }

/-- The tenant `mkTenant zones false none none none` with the console configured. -/
def mkMCSTenant (zones : List Zone) (console : MCSConfig) : Tenant :=
  { mkTenant zones false none none none with
    Spec := { (mkTenant zones false none none none).Spec with MCS := some console } }

/-! ## Definitions used to state the properties -/

/-- The name under which `volumeMounts` mounts the data volumes: the name of the pool's volume
claim template when there is one, else the default MinIO volume name. -/
def claimName (api : Miniov1) (zone : Zone) : String :=
  match zone.VolumeClaimTemplate with
  | some tpl => tpl.Name
  | none => api.MinIOVolumeName

/-- The mount of the TLS secret that `volumeMounts` appends when TLS is enabled. -/
def tlsMounts (api : Miniov1) (t : Tenant) : List VolumeMount :=
  if api.AutoCert t || api.ExternalCert t then
    [{ Name := api.MinIOTLSSecretName t, MountPath := api.MinIOCertPath }]
  else []

/-- The expansion that the endpoint loop of `GetContainerArgs` yields when no index is out of
range: endpoint `i` followed by the volume path of pool `i`. -/
def endpointExpansion (api : Miniov1) (t : Tenant) (endpoints : List String) (zones : List Zone) :
    List String :=
  List.zipWith (fun e z => e ++ api.VolumePathForZone t z) endpoints zones

/-- The tenant `mkMCSTenant zones console` whose own pod metadata carries the given labels. -/
def mkLabelledTenant (zones : List Zone) (console : MCSConfig) (labels : List (String × String)) :
    Tenant :=
  { mkMCSTenant zones console with
    Spec := { (mkMCSTenant zones console).Spec with
              Metadata := some { emptyObjectMeta with Labels := labels } } }

/-- The StatefulSet `ss` with the container list of its pod template replaced. -/
def setContainers (ss : StatefulSet) (containers : List Container) : StatefulSet :=
  { ss with Spec := { ss.Spec with Template := { ss.Spec.Template with
      Spec := { ss.Spec.Template.Spec with Containers := containers } } } }

/-- The statement `t.Spec.Zones = append(t.Spec.Zones, zone)` of `volumeAddCmd.run`: the new pool
is appended to the pool list of the tenant. -/
def addZone (t : Tenant) (zone : Zone) : Tenant :=
  { t with Spec := { t.Spec with Zones := t.Spec.Zones ++ [zone] } }

/-- The variable MINIO_ENDPOINTS that `minioEnvironmentVars` builds from the container
arguments. -/
def endpointsEnvVar (args : List String) : EnvVar :=
  { Name := "MINIO_ENDPOINTS", Value := String.intercalate " " args, ValueFrom := none }

/-- The variables that `minioEnvironmentVars` places before MINIO_ENDPOINTS: the tenant's own
variables and the three update variables. -/
def envBeforeEndpoints (api : Miniov1) (t : Tenant) : List EnvVar :=
  t.Spec.Env ++
    [ { Name := "MINIO_UPDATE", Value := "on", ValueFrom := none },
      { Name := "MINIO_UPDATE_MINISIGN_PUBKEY",
        Value := "RWTx5Zr1tiHQLwG9keckT0c45M3AGeHD6IvimQHpyRywVWGbP1aVSGav", ValueFrom := none },
      { Name := "MINIO_ARGS", Value := "",
        ValueFrom := some { Name := api.WebhookMinIOArgsSecret, Key := api.WebhookMinIOArgs } } ]

/-- The variables that `minioEnvironmentVars` places after MINIO_ENDPOINTS: the credentials of
the credentials secret, when one is used, and the KES variables, when KES is enabled. -/
def envAfterEndpoints (api : Miniov1) (t : Tenant) : List EnvVar :=
  (match api.HasCredsSecret t, t.Spec.CredsSecret with
    | true, some creds =>
      [ { Name := "MINIO_ACCESS_KEY", Value := "",
          ValueFrom := some { Name := creds.Name, Key := "accesskey" } },
        { Name := "MINIO_SECRET_KEY", Value := "",
          ValueFrom := some { Name := creds.Name, Key := "secretkey" } } ]
    | _, _ => []) ++
  (if api.HasKESEnabled t then
    [ { Name := "MINIO_KMS_KES_ENDPOINT", Value := api.KESServiceEndpoint t, ValueFrom := none },
      { Name := "MINIO_KMS_KES_CERT_FILE", Value := api.MinIOCertPath ++ "/client.crt", ValueFrom := none },
      { Name := "MINIO_KMS_KES_KEY_FILE", Value := api.MinIOCertPath ++ "/client.key", ValueFrom := none },
      { Name := "MINIO_KMS_KES_CA_PATH", Value := api.MinIOCertPath ++ "/CAs/kes.crt", ValueFrom := none },
      { Name := "MINIO_KMS_KES_KEY_NAME", Value := api.KESMinIOKey, ValueFrom := none } ]
  else [])

/-- The methods of `Tenant` that `NewForMinIOZone` calls for the pool `zone`, other than
`MinIOEndpoints` and `VolumePathForZone`, return the same on the tenants `t` and `t'`. -/
def HelpersAgree (api : Miniov1) (t t' : Tenant) (zone : Zone) : Prop :=
  api.HasCredsSecret t' = api.HasCredsSecret t ∧
  api.HasKESEnabled t' = api.HasKESEnabled t ∧
  api.HasMetadata t' = api.HasMetadata t ∧
  api.AutoCert t' = api.AutoCert t ∧
  api.ExternalCert t' = api.ExternalCert t ∧
  api.ExternalClientCert t' = api.ExternalClientCert t ∧
  api.KESExternalCert t' = api.KESExternalCert t ∧
  api.TLS t' = api.TLS t ∧
  api.KESServiceEndpoint t' = api.KESServiceEndpoint t ∧
  api.MinIOPodLabels t' = api.MinIOPodLabels t ∧
  api.MinIOTLSSecretName t' = api.MinIOTLSSecretName t ∧
  api.MinIOClientTLSSecretName t' = api.MinIOClientTLSSecretName t ∧
  api.KESTLSSecretName t' = api.KESTLSSecretName t ∧
  api.MinIOServerHost t' = api.MinIOServerHost t ∧
  api.ZoneStatefulsetName t' zone = api.ZoneStatefulsetName t zone

/-- One call of `createKESCSR` to the world outside it, with what was handed over and what came
back. -/
inductive KESEvent where
  | newPrivateKey (result : Except String PrivateKey)
  | CreateCertificateRequest (template : CertificateRequest) (key : PrivateKey)
      (result : Except String Bytes)
  | createCertificateSigningRequest (name : String) (csrBytes : Bytes) (err : Option String)
  | fetchCertificate (name : String) (result : Except String Bytes)
  | createSecret (name : String) (key cert : Bytes) (err : Option String)

/-- Whether the call returned without an error. -/
def KESEvent.succeeded : KESEvent → Bool
  | KESEvent.newPrivateKey (Except.ok _) => true
  | KESEvent.CreateCertificateRequest _ _ (Except.ok _) => true
  | KESEvent.createCertificateSigningRequest _ _ none => true
  | KESEvent.fetchCertificate _ (Except.ok _) => true
  | KESEvent.createSecret _ _ _ none => true
  | _ => false

/-- The package `pkg` with a log: every call that reads or writes the world does what it does in
`pkg` and appends itself to the log kept beside the state. -/
def traced {σ : Type} (pkg : KESCSRPkg σ) : KESCSRPkg (σ × List KESEvent) :=
  { DefaultEllipticCurve := pkg.DefaultEllipticCurve,
    privateKeyType := pkg.privateKeyType,
    newPrivateKey := fun curve s =>
      ((pkg.newPrivateKey curve s.1).1,
        ((pkg.newPrivateKey curve s.1).2,
          s.2 ++ [KESEvent.newPrivateKey (pkg.newPrivateKey curve s.1).1])),
    MarshalPKCS8PrivateKey := pkg.MarshalPKCS8PrivateKey,
    CreateCertificateRequest := fun template key s =>
      ((pkg.CreateCertificateRequest template key s.1).1,
        ((pkg.CreateCertificateRequest template key s.1).2,
          s.2 ++ [KESEvent.CreateCertificateRequest template key
            (pkg.CreateCertificateRequest template key s.1).1])),
    EncodeToMemory := pkg.EncodeToMemory,
    KESHosts := pkg.KESHosts,
    KESWildCardName := pkg.KESWildCardName,
    KESPodLabels := pkg.KESPodLabels,
    KESCSRName := pkg.KESCSRName,
    KESTLSSecretName := pkg.KESTLSSecretName,
    createCertificateSigningRequest := fun labels name ns csrBytes t usage s =>
      ((pkg.createCertificateSigningRequest labels name ns csrBytes t usage s.1).1,
        ((pkg.createCertificateSigningRequest labels name ns csrBytes t usage s.1).2,
          s.2 ++ [KESEvent.createCertificateSigningRequest name csrBytes
            (pkg.createCertificateSigningRequest labels name ns csrBytes t usage s.1).1])),
    fetchCertificate := fun name s =>
      ((pkg.fetchCertificate name s.1).1,
        ((pkg.fetchCertificate name s.1).2,
          s.2 ++ [KESEvent.fetchCertificate name (pkg.fetchCertificate name s.1).1])),
    createSecret := fun t labels name key cert s =>
      ((pkg.createSecret t labels name key cert s.1).1,
        ((pkg.createSecret t labels name key cert s.1).2,
          s.2 ++ [KESEvent.createSecret name key cert
            (pkg.createSecret t labels name key cert s.1).1])) }

/-- Modelled from the spec: an instance of the functions of `KESCSRPkg`, which `kes.go` calls and
the source files do not define. The state of the world is the list of the objects in the cluster;
submitting the CSR and creating the secret add an object, and the signed certificate can be
fetched exactly when the CSR was submitted and `approved` holds (the operator never approves
itself). The keys, certificates and names are sample values. -/
def sampleKESCSRPkg (approved : Bool) : KESCSRPkg (List String) :=
  { DefaultEllipticCurve := "P-256",
    privateKeyType := "PRIVATE KEY",
    newPrivateKey := fun _ s => (Except.ok { Raw := [4, 2] }, s),
    MarshalPKCS8PrivateKey := fun key => Except.ok (48 :: key.Raw),
    CreateCertificateRequest := fun template key s =>
      (Except.ok (template.DNSNames.length :: key.Raw), s),
    EncodeToMemory := fun _ b => 45 :: b ++ [45],
    KESHosts := fun t => [t.Name ++ "-kes-0." ++ t.Name ++ "-kes-hl-svc"],
    KESWildCardName := fun t => "*." ++ t.Name ++ "-kes-hl-svc",
    KESPodLabels := fun t => [("v1.min.io/kes", t.Name ++ "-kes")],
    KESCSRName := fun t => t.Name ++ "-kes-csr",
    KESTLSSecretName := fun t => t.Name ++ "-kes-tls",
    createCertificateSigningRequest := fun _ name _ _ _ _ s => (none, s ++ ["csr/" ++ name]),
    fetchCertificate := fun name s =>
      if approved && s.contains ("csr/" ++ name) then (Except.ok [7, 7], s)
      else (Except.error "certificate signing request is not approved", s),
    createSecret := fun _ _ name _ _ s => (none, s ++ ["secret/" ++ name]) }

/-- The tenant `mkTenant zones true none none kes` with certificate settings. -/
def mkCertTenant (zones : List Zone) (kes : Option KESConfig) (certConfig : CertificateConfig) :
    Tenant :=
  { mkTenant zones true none none kes with
    Spec := { (mkTenant zones true none none kes).Spec with CertConfig := some certConfig } }

/-- Modelled from the spec: an instance of `Constants`, which the source files do not define; the
values are sample values, and the created certificate settings name the instance. -/
def sampleConstants : Constants :=
  { DefaultMinIOImage := "minio/minio:RELEASE.2020-01-03T19-12-21Z",
    MinIOVolumeMountPath := "/export",
    MinIOVolumeSubPath := "",
    NewCertConfig := fun mi =>
      { CommonName := "*." ++ mi.Name ++ ".svc", OrganizationName := ["Acme Co"], DNSNames := [] } }

/-- The zero value `MinIOInstance{}` with which `TestEnsureDefaults` starts. -/
def emptyMinIOInstance : MinIOInstance :=
  { Name := "", Namespace := "",
    Spec := { Image := "", Mountpath := "", Subpath := "", RequestAutoCert := false,
              CertConfig := none } }

/-! ## The comparison `equality.Semantic.DeepDerivative`

The rules of `DeepDerivative(a1, a2)` of `k8s.io/apimachinery`, on the embedded types: a field
of `a1` that is unset (an empty string, a nil pointer, an empty slice, an empty map) is not
compared; a set string must be equal; a set pointer is compared through; a set slice must not be
longer than the other and is compared element by element; a set map must not have more keys than
the other and is compared key by key; numbers and booleans must be equal; two quantities
(`resource.Quantity`) are compared by amount, with the function registered for them in
`equality.Semantic`, which is the parameter `qe` below. The fields of a struct are compared in the
order of their declaration and the first comparison that does not answer `true` gives the answer.

A comparison answers `some true`, `some false`, or `none`. The answer `none` stands for the
comparisons in which the library is handed the invalid `reflect.Value` that is behind a nil pointer
of `a2` or under a key that `a2` lacks, where `a1` has a set pointer or has that key: it calls
`Type()` on that value, which panics, and no answer is modelled. -/

/-- The comparisons of a struct or of the elements of a slice, made in order: the first that does
not answer `true` gives the answer. -/
def allOf : List (Option Bool) → Option Bool
  | [] => some true
  | some true :: rest => allOf rest
  | some false :: _ => some false
  | none :: _ => none

/-- The rule for strings: the empty string is unset. -/
def deriveString (a b : String) : Bool := decide (a = "") || decide (a = b)

/-- The rule for numbers and booleans: plain equality. -/
def deriveEq {α : Type} [DecidableEq α] (a b : α) : Bool := decide (a = b)

/-- A value that is compared by equality is never unset: populating keeps it. -/
def populateKeep {α : Type} (a _b : α) : α := a

/-- The rule for pointers: nil is unset; a set pointer is compared through, and against a nil
pointer there is no answer. -/
def deriveOption {α : Type} (f : α → α → Option Bool) : Option α → Option α → Option Bool
  | none, _ => some true
  | some x, some y => f x y
  | some _, none => none

/-- The rule for slices: the empty slice is unset, a set one must not be longer than the other and
is compared index by index. -/
def deriveSlice {α : Type} (f : α → α → Option Bool) (a b : List α) : Option Bool :=
  if a.isEmpty then some true
  else if b.length < a.length then some false
  else allOf (List.zipWith f a b)

/-- The rule for maps: the empty map is unset, a set one must not have more keys than the other,
and the value under each of its keys is compared by `f` with the value under that key in the
other; when the other lacks one of the keys there is no answer. -/
def deriveMap (f : String → String → Bool) (a b : List (String × String)) : Option Bool :=
  if a.isEmpty then some true
  else if b.length < a.length then some false
  else if a.all (fun kv => b.any fun kv' => decide (kv'.1 = kv.1)) then
    some (a.all fun kv => b.any fun kv' => decide (kv'.1 = kv.1) && f kv.2 kv'.2)
  else none

/-- The rule for the storage request of a claim: the map `Resources.Requests` of a claim that
requests no storage (the empty string) is unset; a set one has more keys than an unset one; two
requests are compared as quantities. -/
def deriveStorage (qe : String → String → Bool) (a b : String) : Bool :=
  decide (a = "") || (!decide (b = "") && qe a b)

/-- Populating an unset string. -/
def populateString (a b : String) : String := if a = "" then b else a

/-- Populating an unset pointer, or what is unset behind a set one. -/
def populateOption {α : Type} (g : α → α → α) : Option α → Option α → Option α
  | none, b => b
  | some x, some y => some (g x y)
  | some x, none => some x

/-- Populating an unset slice, or what is unset in the elements of a set one; elements beyond
the set ones are added. -/
def populateSlice {α : Type} (g : α → α → α) : List α → List α → List α
  | [], b => b
  | x :: xs, [] => x :: xs
  | x :: xs, y :: ys => g x y :: populateSlice g xs ys

/-- Populating an unset map. -/
def populateMap (a b : List (String × String)) : List (String × String) :=
  if a.isEmpty then b else a

/-- The comparison of two `KeyToPath`. -/
def KeyToPath.derive (a b : KeyToPath) : Option Bool :=
  allOf [some (deriveString a.Key b.Key), some (deriveString a.Path b.Path)]

/-- The unset fields of a `KeyToPath` taken from `b`. -/
def KeyToPath.populate (a b : KeyToPath) : KeyToPath :=
  { Key := populateString a.Key b.Key, Path := populateString a.Path b.Path }

/-- The comparison of two `SecretProjection`. -/
def SecretProjection.derive (a b : SecretProjection) : Option Bool :=
  allOf [some (deriveString a.Name b.Name), deriveSlice KeyToPath.derive a.Items b.Items]

/-- The unset fields of a `SecretProjection` taken from `b`. -/
def SecretProjection.populate (a b : SecretProjection) : SecretProjection :=
  { Name := populateString a.Name b.Name,
    Items := populateSlice KeyToPath.populate a.Items b.Items }

/-- The comparison of two `VolumeProjection`. -/
def VolumeProjection.derive (a b : VolumeProjection) : Option Bool :=
  deriveOption SecretProjection.derive a.Secret b.Secret

/-- The unset fields of a `VolumeProjection` taken from `b`. -/
def VolumeProjection.populate (a b : VolumeProjection) : VolumeProjection :=
  { Secret := populateOption SecretProjection.populate a.Secret b.Secret }

/-- The comparison of two `Volume`. -/
def Volume.derive (a b : Volume) : Option Bool :=
  allOf [some (deriveString a.Name b.Name),
    deriveOption (deriveSlice VolumeProjection.derive) a.Projected b.Projected]

/-- The unset fields of a `Volume` taken from `b`. -/
def Volume.populate (a b : Volume) : Volume :=
  { Name := populateString a.Name b.Name,
    Projected := populateOption (populateSlice VolumeProjection.populate) a.Projected b.Projected }

/-- The comparison of two `VolumeMount`. -/
def VolumeMount.derive (a b : VolumeMount) : Option Bool :=
  allOf [some (deriveString a.Name b.Name), some (deriveString a.MountPath b.MountPath)]

/-- The unset fields of a `VolumeMount` taken from `b`. -/
def VolumeMount.populate (a b : VolumeMount) : VolumeMount :=
  { Name := populateString a.Name b.Name, MountPath := populateString a.MountPath b.MountPath }

/-- The comparison of two `SecretKeySelector`. -/
def SecretKeySelector.derive (a b : SecretKeySelector) : Option Bool :=
  allOf [some (deriveString a.Name b.Name), some (deriveString a.Key b.Key)]

/-- The unset fields of a `SecretKeySelector` taken from `b`. -/
def SecretKeySelector.populate (a b : SecretKeySelector) : SecretKeySelector :=
  { Name := populateString a.Name b.Name, Key := populateString a.Key b.Key }

/-- The comparison of two `EnvVar`. -/
def EnvVar.derive (a b : EnvVar) : Option Bool :=
  allOf [some (deriveString a.Name b.Name), some (deriveString a.Value b.Value),
    deriveOption SecretKeySelector.derive a.ValueFrom b.ValueFrom]

/-- The unset fields of an `EnvVar` taken from `b`. -/
def EnvVar.populate (a b : EnvVar) : EnvVar :=
  { Name := populateString a.Name b.Name,
    Value := populateString a.Value b.Value,
    ValueFrom := populateOption SecretKeySelector.populate a.ValueFrom b.ValueFrom }

/-- The comparison of two `HTTPGetAction`; the port is a number. -/
def HTTPGetAction.derive (a b : HTTPGetAction) : Option Bool :=
  allOf [some (deriveString a.Path b.Path), some (deriveEq a.Port b.Port),
    some (deriveString a.Scheme b.Scheme)]

/-- The unset fields of an `HTTPGetAction` taken from `b`. -/
def HTTPGetAction.populate (a b : HTTPGetAction) : HTTPGetAction :=
  { Path := populateString a.Path b.Path, Port := a.Port,
    Scheme := populateString a.Scheme b.Scheme }

/-- The comparison of two `Probe`; the delays and thresholds are numbers. -/
def Probe.derive (a b : Probe) : Option Bool :=
  allOf [deriveOption HTTPGetAction.derive a.HTTPGet b.HTTPGet,
    some (deriveEq a.InitialDelaySeconds b.InitialDelaySeconds),
    some (deriveEq a.TimeoutSeconds b.TimeoutSeconds),
    some (deriveEq a.PeriodSeconds b.PeriodSeconds),
    some (deriveEq a.FailureThreshold b.FailureThreshold)]

/-- The unset fields of a `Probe` taken from `b`. -/
def Probe.populate (a b : Probe) : Probe :=
  { a with HTTPGet := populateOption HTTPGetAction.populate a.HTTPGet b.HTTPGet }

/-- The comparison of two `ResourceRequirements`; the values are quantities. -/
def ResourceRequirements.derive (qe : String → String → Bool) (a b : ResourceRequirements) :
    Option Bool :=
  allOf [deriveMap qe a.Limits b.Limits, deriveMap qe a.Requests b.Requests]

/-- The unset fields of a `ResourceRequirements` taken from `b`. -/
def ResourceRequirements.populate (a b : ResourceRequirements) : ResourceRequirements :=
  { Limits := populateMap a.Limits b.Limits, Requests := populateMap a.Requests b.Requests }

/-- The comparison of two `Affinity`, whose content is carried as a whole. -/
def Affinity.derive (a b : Affinity) : Option Bool := some (deriveEq a.Raw b.Raw)

/-- The comparison of two `Toleration`. -/
def Toleration.derive (a b : Toleration) : Option Bool :=
  allOf [some (deriveString a.Key b.Key), some (deriveString a.Operator b.Operator),
    some (deriveString a.Value b.Value), some (deriveString a.Effect b.Effect)]

/-- The unset fields of a `Toleration` taken from `b`. -/
def Toleration.populate (a b : Toleration) : Toleration :=
  { Key := populateString a.Key b.Key, Operator := populateString a.Operator b.Operator,
    Value := populateString a.Value b.Value, Effect := populateString a.Effect b.Effect }

/-- The comparison of two `PodSecurityContext`. -/
def PodSecurityContext.derive (a b : PodSecurityContext) : Option Bool :=
  allOf [deriveOption (fun x y => some (deriveEq x y)) a.RunAsUser b.RunAsUser,
    deriveOption (fun x y => some (deriveEq x y)) a.RunAsGroup b.RunAsGroup,
    deriveOption (fun x y => some (deriveEq x y)) a.FSGroup b.FSGroup]

/-- The unset fields of a `PodSecurityContext` taken from `b`. -/
def PodSecurityContext.populate (a b : PodSecurityContext) : PodSecurityContext :=
  { RunAsUser := populateOption populateKeep a.RunAsUser b.RunAsUser,
    RunAsGroup := populateOption populateKeep a.RunAsGroup b.RunAsGroup,
    FSGroup := populateOption populateKeep a.FSGroup b.FSGroup }

/-- The comparison of two `LocalObjectReference`. -/
def LocalObjectReference.derive (a b : LocalObjectReference) : Option Bool :=
  some (deriveString a.Name b.Name)

/-- The unset fields of a `LocalObjectReference` taken from `b`. -/
def LocalObjectReference.populate (a b : LocalObjectReference) : LocalObjectReference :=
  { Name := populateString a.Name b.Name }

/-- The comparison of two `Container`, field by field in the order of `corev1.Container`; the
ports are numbers. -/
def Container.derive (qe : String → String → Bool) (a b : Container) : Option Bool :=
  allOf [some (deriveString a.Name b.Name), some (deriveString a.Image b.Image),
    deriveSlice (fun x y => some (deriveString x y)) a.Command b.Command,
    deriveSlice (fun x y => some (deriveString x y)) a.Args b.Args,
    deriveSlice (fun x y => some (deriveEq x y)) a.Ports b.Ports,
    deriveSlice LocalObjectReference.derive a.EnvFrom b.EnvFrom,
    deriveSlice EnvVar.derive a.Env b.Env,
    ResourceRequirements.derive qe a.Resources b.Resources,
    deriveSlice VolumeMount.derive a.VolumeMounts b.VolumeMounts,
    deriveOption Probe.derive a.LivenessProbe b.LivenessProbe,
    some (deriveString a.ImagePullPolicy b.ImagePullPolicy)]

/-- The unset fields of a `Container` taken from `b`. -/
def Container.populate (a b : Container) : Container :=
  { Name := populateString a.Name b.Name,
    Image := populateString a.Image b.Image,
    Command := populateSlice populateString a.Command b.Command,
    Args := populateSlice populateString a.Args b.Args,
    Ports := populateSlice populateKeep a.Ports b.Ports,
    Env := populateSlice EnvVar.populate a.Env b.Env,
    Resources := ResourceRequirements.populate a.Resources b.Resources,
    VolumeMounts := populateSlice VolumeMount.populate a.VolumeMounts b.VolumeMounts,
    LivenessProbe := populateOption Probe.populate a.LivenessProbe b.LivenessProbe,
    ImagePullPolicy := populateString a.ImagePullPolicy b.ImagePullPolicy,
    EnvFrom := populateSlice LocalObjectReference.populate a.EnvFrom b.EnvFrom }

/-- The comparison of two `OwnerReference`. -/
def OwnerReference.derive (a b : OwnerReference) : Option Bool :=
  allOf [some (deriveString a.APIVersion b.APIVersion), some (deriveString a.Kind b.Kind),
    some (deriveString a.Name b.Name), some (deriveString a.UID b.UID),
    deriveOption (fun x y => some (deriveEq x y)) a.Controller b.Controller,
    deriveOption (fun x y => some (deriveEq x y)) a.BlockOwnerDeletion b.BlockOwnerDeletion]

/-- The unset fields of an `OwnerReference` taken from `b`. -/
def OwnerReference.populate (a b : OwnerReference) : OwnerReference :=
  { APIVersion := populateString a.APIVersion b.APIVersion,
    Kind := populateString a.Kind b.Kind,
    Name := populateString a.Name b.Name,
    UID := populateString a.UID b.UID,
    Controller := populateOption populateKeep a.Controller b.Controller,
    BlockOwnerDeletion := populateOption populateKeep a.BlockOwnerDeletion b.BlockOwnerDeletion }

/-- The comparison of two `ObjectMeta`. -/
def ObjectMeta.derive (a b : ObjectMeta) : Option Bool :=
  allOf [some (deriveString a.Name b.Name), some (deriveString a.Namespace b.Namespace),
    deriveMap deriveString a.Labels b.Labels,
    deriveMap deriveString a.Annotations b.Annotations,
    deriveSlice OwnerReference.derive a.OwnerReferences b.OwnerReferences]

/-- The unset fields of an `ObjectMeta` taken from `b`. -/
def ObjectMeta.populate (a b : ObjectMeta) : ObjectMeta :=
  { Name := populateString a.Name b.Name,
    Namespace := populateString a.Namespace b.Namespace,
    Labels := populateMap a.Labels b.Labels,
    Annotations := populateMap a.Annotations b.Annotations,
    OwnerReferences := populateSlice OwnerReference.populate a.OwnerReferences b.OwnerReferences }

/-- The comparison of two `PersistentVolumeClaim`, field by field in the order of the type: the
name, the storage request (a quantity), the storage class. -/
def PersistentVolumeClaim.derive (qe : String → String → Bool) (a b : PersistentVolumeClaim) :
    Option Bool :=
  allOf [some (deriveString a.Name b.Name), some (deriveStorage qe a.Storage b.Storage),
    deriveOption (fun x y => some (deriveString x y)) a.StorageClassName b.StorageClassName]

/-- The unset fields of a `PersistentVolumeClaim` taken from `b`. -/
def PersistentVolumeClaim.populate (a b : PersistentVolumeClaim) : PersistentVolumeClaim :=
  { Name := populateString a.Name b.Name,
    StorageClassName := populateOption populateString a.StorageClassName b.StorageClassName,
    Storage := populateString a.Storage b.Storage }

/-- The comparison of two `PodSpec`. -/
def PodSpec.derive (qe : String → String → Bool) (a b : PodSpec) : Option Bool :=
  allOf [deriveSlice Volume.derive a.Volumes b.Volumes,
    deriveSlice (Container.derive qe) a.InitContainers b.InitContainers,
    deriveSlice (Container.derive qe) a.Containers b.Containers,
    some (deriveString a.RestartPolicy b.RestartPolicy),
    some (deriveString a.ServiceAccountName b.ServiceAccountName),
    deriveOption PodSecurityContext.derive a.SecurityContext b.SecurityContext,
    deriveSlice LocalObjectReference.derive a.ImagePullSecrets b.ImagePullSecrets,
    deriveOption Affinity.derive a.Affinity b.Affinity,
    some (deriveString a.SchedulerName b.SchedulerName),
    deriveSlice Toleration.derive a.Tolerations b.Tolerations,
    some (deriveString a.PriorityClassName b.PriorityClassName)]

/-- The unset fields of a `PodSpec` taken from `b`. -/
def PodSpec.populate (a b : PodSpec) : PodSpec :=
  { Volumes := populateSlice Volume.populate a.Volumes b.Volumes,
    InitContainers := populateSlice Container.populate a.InitContainers b.InitContainers,
    Containers := populateSlice Container.populate a.Containers b.Containers,
    RestartPolicy := populateString a.RestartPolicy b.RestartPolicy,
    ServiceAccountName := populateString a.ServiceAccountName b.ServiceAccountName,
    SecurityContext := populateOption PodSecurityContext.populate a.SecurityContext b.SecurityContext,
    ImagePullSecrets :=
      populateSlice LocalObjectReference.populate a.ImagePullSecrets b.ImagePullSecrets,
    Affinity := populateOption populateKeep a.Affinity b.Affinity,
    SchedulerName := populateString a.SchedulerName b.SchedulerName,
    Tolerations := populateSlice Toleration.populate a.Tolerations b.Tolerations,
    PriorityClassName := populateString a.PriorityClassName b.PriorityClassName }

/-- The comparison of two `PodTemplateSpec`. -/
def PodTemplateSpec.derive (qe : String → String → Bool) (a b : PodTemplateSpec) : Option Bool :=
  allOf [ObjectMeta.derive a.ObjectMeta b.ObjectMeta, PodSpec.derive qe a.Spec b.Spec]

/-- The unset fields of a `PodTemplateSpec` taken from `b`. -/
def PodTemplateSpec.populate (a b : PodTemplateSpec) : PodTemplateSpec :=
  { ObjectMeta := ObjectMeta.populate a.ObjectMeta b.ObjectMeta,
    Spec := PodSpec.populate a.Spec b.Spec }

/-- The comparison of two `StatefulSetSpec`; the replica count behind its pointer is a number. -/
def StatefulSetSpec.derive (qe : String → String → Bool) (a b : StatefulSetSpec) : Option Bool :=
  allOf [deriveOption (fun x y => some (deriveEq x y)) a.Replicas b.Replicas,
    deriveOption (deriveMap deriveString) a.Selector b.Selector,
    PodTemplateSpec.derive qe a.Template b.Template,
    deriveSlice (PersistentVolumeClaim.derive qe) a.VolumeClaimTemplates b.VolumeClaimTemplates,
    some (deriveString a.ServiceName b.ServiceName),
    some (deriveString a.PodManagementPolicy b.PodManagementPolicy),
    some (deriveString a.UpdateStrategy b.UpdateStrategy)]

/-- The unset fields of a `StatefulSetSpec` taken from `b`: the spec `a` as it reads once the
platform has populated what `a` leaves unset with the values of `b`. -/
def StatefulSetSpec.populate (a b : StatefulSetSpec) : StatefulSetSpec :=
  { Replicas := populateOption populateKeep a.Replicas b.Replicas,
    Selector := populateOption populateMap a.Selector b.Selector,
    Template := PodTemplateSpec.populate a.Template b.Template,
    VolumeClaimTemplates :=
      populateSlice PersistentVolumeClaim.populate a.VolumeClaimTemplates b.VolumeClaimTemplates,
    ServiceName := populateString a.ServiceName b.ServiceName,
    PodManagementPolicy := populateString a.PodManagementPolicy b.PodManagementPolicy,
    UpdateStrategy := populateString a.UpdateStrategy b.UpdateStrategy }

/-- The function `equality.Semantic.DeepDerivative` on two StatefulSet specs, by the rules above:
`some true` when the desired spec `a1` is a derivative of the live spec `a2`. The parameter `qe`
is the equality of two quantities by amount. -/
def DeepDerivative (qe : String → String → Bool) (a1 a2 : StatefulSetSpec) : Option Bool :=
  StatefulSetSpec.derive qe a1 a2

/-- A sample of the equality of two quantities by amount, enough for the quantities of the
examples: a quantity is equal to itself, and `1Gi` is 1073741824 bytes. -/
def sampleQuantityEqual (a b : String) : Bool :=
  decide (a = b) || (decide (a = "1Gi") && decide (b = "1073741824")) ||
    (decide (a = "1073741824") && decide (b = "1Gi"))

/-- The package `sampleKESPkg` with the comparison `DeepDerivative` over the sample quantities;
where the rules give no answer this sample answers `false`. -/
def derivativeKESPkg : KESPkg :=
  { sampleKESPkg with
    DeepDerivative := fun d l => (DeepDerivative sampleQuantityEqual d l).getD false }

/-- A StatefulSet spec that carries values of the kind the platform fills in on a live object: a
scheduler, a service account, a security context and a toleration for the pod, and a pull policy
for its first container. -/
def platformDefaults : StatefulSetSpec :=
  { Replicas := some 1,
    Selector := none,
    Template :=
      { ObjectMeta := emptyObjectMeta,
        Spec :=
          { Volumes := [],
            InitContainers := [],
            Containers :=
              [{ Name := "", Image := "", Command := [], Args := [], Ports := [], Env := [],
                 Resources := emptyResources, VolumeMounts := [], LivenessProbe := none,
                 ImagePullPolicy := "IfNotPresent" }],
            RestartPolicy := "Always",
            ServiceAccountName := "default",
            SecurityContext := some { RunAsUser := none, RunAsGroup := none, FSGroup := none },
            ImagePullSecrets := [],
            Affinity := none,
            SchedulerName := "default-scheduler",
            Tolerations := [⟨"node.kubernetes.io/not-ready", "Exists", "", "NoExecute"⟩],
            PriorityClassName := "" } },
    VolumeClaimTemplates := [],
    ServiceName := "",
    PodManagementPolicy := "OrderedReady",
    UpdateStrategy := "RollingUpdate" }

/-- The StatefulSet `ss` with its spec replaced. -/
def setSpec (ss : StatefulSet) (spec : StatefulSetSpec) : StatefulSet := { ss with Spec := spec }

/-- The labels of the pod template that `minioMetadata` returned for the pool `zone0`, read after
`minioMetadata` has been called for the pool `zone1` on the same tenant, as when the StatefulSets
of two pools of a tenant are generated one after the other. -/
def templateLabelsAfterNextPool (api : Miniov1) (t : Tenant) (zone0 zone1 : Zone) :
    Option (List (String × String)) := do
  let r0 ← minioMetadataShared api t zone0
  let r1 ← minioMetadataShared api r0.2 zone1
  pure (r0.1.read r1.2)

/-- A tenant with the pools `zone-0` and `zone-1` whose own pod metadata carries the labels
`v1.min.io/zone: other`, `v1.min.io/tenant: mine` and `team: a`. -/
def twoPoolLabelledTenant : Tenant :=
  mkLabelledTenant [mkZone "zone-0" 4 2, mkZone "zone-1" 4 2]
    ⟨2, "minio/mcs:v1", some ⟨"mcs-secret"⟩, none⟩
    [("v1.min.io/zone", "other"), ("v1.min.io/tenant", "mine"), ("team", "a")]

/-- The tenant `tenant1` with one pool that asks for the KES image `minio/kes:v1`. -/
def kesTenant : Tenant :=
  mkTenant [mkZone "zone-0" 4 2] true none none (some ⟨"minio/kes:v1", none⟩)

/-! ## Properties of `volumeMounts` -/

/-- The data mounts of `volumeMounts` (the `if zone.VolumesPerServer == 1 ... else ...` statement),
followed by the TLS mount when there is one. -/
theorem volumeMounts_eq (api : Miniov1) (t : Tenant) (zone : Zone) :
    volumeMounts api t zone =
      (if zone.VolumesPerServer = 1 then
        [{ Name := claimName api zone ++ Itoa 0, MountPath := t.Spec.Mountpath }]
      else
        (List.range zone.VolumesPerServer.toNat).map fun (i : Nat) =>
          ({ Name := claimName api zone ++ Itoa (Int.ofNat i),
             MountPath := t.Spec.Mountpath ++ Itoa (Int.ofNat i) } : VolumeMount))
      ++ tlsMounts api t := by
  unfold volumeMounts tlsMounts claimName
  by_cases h : (api.AutoCert t || api.ExternalCert t) = true
  · rw [if_pos h, if_pos h]
  · rw [if_neg h, if_neg h, List.append_nil]

/-- C1: the data mounts come first in the result of `volumeMounts`; with one volume per server
there is exactly one, named claim name + "0" and mounted at the tenant's Mountpath without a suffix;
with n >= 2 volumes per server there are exactly n, the i-th named claim name + decimal(i) and
mounted at Mountpath + decimal(i). Only the TLS mount, when TLS is enabled, follows them. -/
theorem volumeMounts_data_mounts (api : Miniov1) (t : Tenant) (zone : Zone) :
    ∃ data : List VolumeMount,
      volumeMounts api t zone = data ++ tlsMounts api t ∧
      (zone.VolumesPerServer = 1 →
        data = [{ Name := claimName api zone ++ "0", MountPath := t.Spec.Mountpath }]) ∧
      (2 ≤ zone.VolumesPerServer →
        (data.length : Int) = zone.VolumesPerServer ∧
        ∀ i : Nat, (i : Int) < zone.VolumesPerServer →
          data.get? i = some { Name := claimName api zone ++ Itoa (Int.ofNat i),
                               MountPath := t.Spec.Mountpath ++ Itoa (Int.ofNat i) }) := by
  refine ⟨_, volumeMounts_eq api t zone, ?_, ?_⟩
  · intro h1
    simp only [h1, if_true]
    rfl
  · intro h2
    have hne : zone.VolumesPerServer ≠ 1 := by omega
    simp only [hne, if_false, List.length_map, List.length_range]
    refine ⟨by omega, ?_⟩
    intro i hi
    have hi2 : i < zone.VolumesPerServer.toNat := by omega
    simp [List.get?_eq_getElem?, List.getElem?_map, List.getElem?_range hi2]

/-- C1 at a pool of three volumes per server with TLS on: three data mounts, then the TLS mount. -/
theorem volumeMounts_data_mounts_witness :
    volumeMounts stdMiniov1 (mkTenant [mkZone "zone-0" 4 3] true none none none) (mkZone "zone-0" 4 3)
      = [⟨"export0", "/export0"⟩, ⟨"export1", "/export1"⟩, ⟨"export2", "/export2"⟩,
         ⟨"tenant1-tls", "/tmp/certs"⟩]
    ∧ ∃ data : List VolumeMount,
        volumeMounts stdMiniov1 (mkTenant [mkZone "zone-0" 4 3] true none none none)
          (mkZone "zone-0" 4 3)
          = data ++ tlsMounts stdMiniov1 (mkTenant [mkZone "zone-0" 4 3] true none none none) ∧
        data.get? 2 = some ⟨"export2", "/export2"⟩ := by
  refine ⟨by decide, ?_⟩
  obtain ⟨data, h, -, hn⟩ :=
    volumeMounts_data_mounts stdMiniov1 (mkTenant [mkZone "zone-0" 4 3] true none none none)
      (mkZone "zone-0" 4 3)
  exact ⟨data, h, (hn (by decide)).2 2 (by decide)⟩

/-! ## Properties of `GetContainerArgs` -/

/-- The endpoint loop started at position `index`: when the remaining endpoints fit into the
pool list it returns the accumulated arguments followed by the expansion of the remaining
endpoints against the pools from `index` on. -/
theorem endpointArgs_eq (api : Miniov1) (t : Tenant) (endpoints : List String) :
    ∀ (index : Nat) (args : List String), index + endpoints.length ≤ t.Spec.Zones.length →
      endpointArgs api t index endpoints args
        = some (args ++ endpointExpansion api t endpoints (t.Spec.Zones.drop index)) := by
  induction endpoints with
  | nil => intro index args _; simp [endpointArgs, endpointExpansion]
  | cons e rest ih =>
    intro index args hlen
    have hidx : index < t.Spec.Zones.length := by simp at hlen; omega
    have hdrop : t.Spec.Zones.drop index
        = t.Spec.Zones[index] :: t.Spec.Zones.drop (index + 1) := List.drop_eq_getElem_cons hidx
    have hget : t.Spec.Zones.get? index = some t.Spec.Zones[index] := by
      simp [List.get?_eq_getElem?, List.getElem?_eq_getElem hidx]
    have hrest : index + 1 + rest.length ≤ t.Spec.Zones.length := by simp at hlen; omega
    simp only [endpointArgs, hget]
    rw [ih (index + 1) _ hrest, hdrop]
    simp only [endpointExpansion, List.zipWith_cons_cons, List.append_assoc, List.singleton_append]

/-- An endpoint list longer than the pool list makes the endpoint loop index out of range. -/
theorem endpointArgs_panics (api : Miniov1) (t : Tenant) (endpoints : List String) :
    ∀ (index : Nat) (args : List String), index ≤ t.Spec.Zones.length →
      t.Spec.Zones.length < index + endpoints.length →
      endpointArgs api t index endpoints args = none := by
  induction endpoints with
  | nil => intro index args hle h; simp at h; omega
  | cons e rest ih =>
    intro index args hle hlen
    by_cases hidx : index < t.Spec.Zones.length
    · have hget : t.Spec.Zones.get? index = some t.Spec.Zones[index] := by
        simp [List.get?_eq_getElem?, List.getElem?_eq_getElem hidx]
      simp only [endpointArgs, hget]
      exact ih (index + 1) _ (by omega) (by simp at hlen; omega)
    · have hget : t.Spec.Zones.get? index = none := by
        simp [List.get?_eq_getElem?]; omega
      simp only [endpointArgs, hget]

/-- The standalone branch of `GetContainerArgs`: one pool with one server. -/
theorem GetContainerArgs_one_server (api : Miniov1) (t : Tenant) (hostsTemplate : String)
    (zone0 : Zone) (hz : t.Spec.Zones = [zone0]) (hs : zone0.Servers = 1) :
    GetContainerArgs api t hostsTemplate = some [api.VolumePathForZone t zone0] := by
  simp [GetContainerArgs, hz, hs]

/-- The other branch of `GetContainerArgs`: not (one pool with one server). -/
theorem GetContainerArgs_otherwise (api : Miniov1) (t : Tenant) (hostsTemplate : String)
    (h : ∀ zone0, t.Spec.Zones = [zone0] → zone0.Servers ≠ 1) :
    GetContainerArgs api t hostsTemplate
      = endpointArgs api t 0 (api.MinIOEndpoints t hostsTemplate) [] := by
  unfold GetContainerArgs
  split
  · rename_i zone0 hz
    rw [if_neg (h zone0 hz)]
  · rfl

/-- When `GetContainerArgs` returns: in the standalone branch always, in the other branch exactly
when `MinIOEndpoints` yields no more endpoints than there are pools (else `t.Spec.Zones[index]`
is out of range). -/
theorem GetContainerArgs_isSome_iff (api : Miniov1) (t : Tenant) (hostsTemplate : String) :
    (GetContainerArgs api t hostsTemplate).isSome = true ↔
      (∃ zone0, t.Spec.Zones = [zone0] ∧ zone0.Servers = 1) ∨
      (api.MinIOEndpoints t hostsTemplate).length ≤ t.Spec.Zones.length := by
  by_cases hst : ∃ zone0, t.Spec.Zones = [zone0] ∧ zone0.Servers = 1
  · obtain ⟨zone0, hz, hs⟩ := hst
    rw [GetContainerArgs_one_server api t hostsTemplate zone0 hz hs]
    exact ⟨fun _ => Or.inl ⟨zone0, hz, hs⟩, fun _ => rfl⟩
  · have hother : ∀ zone0, t.Spec.Zones = [zone0] → zone0.Servers ≠ 1 :=
      fun zone0 hz hs => hst ⟨zone0, hz, hs⟩
    rw [GetContainerArgs_otherwise api t hostsTemplate hother]
    by_cases hlen : (api.MinIOEndpoints t hostsTemplate).length ≤ t.Spec.Zones.length
    · rw [endpointArgs_eq api t _ 0 [] (by omega)]
      exact ⟨fun _ => Or.inr hlen, fun _ => rfl⟩
    · rw [endpointArgs_panics api t _ 0 [] (by omega) (by omega)]
      constructor
      · intro h; cases h
      · rintro (h | h)
        · exact absurd h hst
        · exact absurd h hlen

/-- C2: for a tenant with exactly one pool that has one server and one volume per server,
`GetContainerArgs` returns exactly one argument, the bare volume path of that pool, and the result
is the same whatever `MinIOEndpoints` yields (no endpoint enters it). -/
theorem GetContainerArgs_standalone (api : Miniov1) (t : Tenant) (hostsTemplate : String)
    (zone0 : Zone) (hz : t.Spec.Zones = [zone0]) (hs : zone0.Servers = 1)
    (_hv : zone0.VolumesPerServer = 1) :
    GetContainerArgs api t hostsTemplate = some [api.VolumePathForZone t zone0] ∧
    ∀ endpoints : Tenant → String → List String,
      GetContainerArgs { api with MinIOEndpoints := endpoints } t hostsTemplate
        = some [api.VolumePathForZone t zone0] :=
  ⟨GetContainerArgs_one_server api t hostsTemplate zone0 hz hs,
   fun endpoints =>
    GetContainerArgs_one_server { api with MinIOEndpoints := endpoints } t hostsTemplate zone0 hz hs⟩

/-- C2 at the tenant with the single pool `zone-0` of one server and one volume. -/
theorem GetContainerArgs_standalone_witness :
    GetContainerArgs stdMiniov1 (mkTenant [mkZone "zone-0" 1 1] false none none none) "hl.svc"
      = some ["/export/data"] :=
  (GetContainerArgs_standalone stdMiniov1 (mkTenant [mkZone "zone-0" 1 1] false none none none)
    "hl.svc" (mkZone "zone-0" 1 1) rfl rfl rfl).1

/-- C3 as stated fails: a tenant with one pool of one server and two volumes per server gets the
bare volume path, not the endpoint followed by the volume path. -/
theorem GetContainerArgs_multi_volume_counterexample :
    GetContainerArgs stdMiniov1 (mkTenant [mkZone "zone-0" 1 2] false none none none) "hl.svc"
      = some ["/export\x7b0...1\x7d/data"]
    ∧ endpointExpansion stdMiniov1 (mkTenant [mkZone "zone-0" 1 2] false none none none)
        (stdMiniov1.MinIOEndpoints (mkTenant [mkZone "zone-0" 1 2] false none none none) "hl.svc")
        [mkZone "zone-0" 1 2]
      = ["https://tenant1-zone-0-\x7b0...0\x7d.hl.svc/export\x7b0...1\x7d/data"]
    ∧ GetContainerArgs stdMiniov1 (mkTenant [mkZone "zone-0" 1 2] false none none none) "hl.svc"
      ≠ some (endpointExpansion stdMiniov1 (mkTenant [mkZone "zone-0" 1 2] false none none none)
          (stdMiniov1.MinIOEndpoints (mkTenant [mkZone "zone-0" 1 2] false none none none) "hl.svc")
          [mkZone "zone-0" 1 2]) := by
  decide

/-- C3, amended: standalone (bare path) mode is used for a single pool with a single server
whatever the number of volumes per server; for a tenant with one pool and one server and two or
more volumes per server `GetContainerArgs` returns exactly one argument, the bare volume path of
that pool, whatever `MinIOEndpoints` yields. -/
theorem GetContainerArgs_single_server_multi_volume (api : Miniov1) (t : Tenant)
    (hostsTemplate : String) (zone0 : Zone) (hz : t.Spec.Zones = [zone0]) (hs : zone0.Servers = 1)
    (_hv : 2 ≤ zone0.VolumesPerServer) :
    GetContainerArgs api t hostsTemplate = some [api.VolumePathForZone t zone0] ∧
    ∀ endpoints : Tenant → String → List String,
      GetContainerArgs { api with MinIOEndpoints := endpoints } t hostsTemplate
        = some [api.VolumePathForZone t zone0] :=
  ⟨GetContainerArgs_one_server api t hostsTemplate zone0 hz hs,
   fun endpoints =>
    GetContainerArgs_one_server { api with MinIOEndpoints := endpoints } t hostsTemplate zone0 hz hs⟩

/-- C3, amended, at the tenant with the single pool `zone-0` of one server and four volumes. -/
theorem GetContainerArgs_single_server_multi_volume_witness :
    GetContainerArgs stdMiniov1 (mkTenant [mkZone "zone-0" 1 4] false none none none) "hl.svc"
      = some ["/export\x7b0...3\x7d/data"] :=
  (GetContainerArgs_single_server_multi_volume stdMiniov1
    (mkTenant [mkZone "zone-0" 1 4] false none none none) "hl.svc" (mkZone "zone-0" 1 4)
    rfl rfl (by decide)).1

/-- C4: for a tenant with at least two pools, or whose first pool has more than one server, and
for which `MinIOEndpoints` yields one endpoint per pool, `GetContainerArgs` returns (without an
index out of range) exactly one argument per pool, in pool order, and argument `i` is endpoint `i`
immediately followed by the volume path of pool `i`. -/
theorem GetContainerArgs_distributed (api : Miniov1) (t : Tenant) (hostsTemplate : String)
    (hcond : 2 ≤ t.Spec.Zones.length ∨
      ∃ zone0 rest, t.Spec.Zones = zone0 :: rest ∧ 1 < zone0.Servers)
    (hlen : (api.MinIOEndpoints t hostsTemplate).length = t.Spec.Zones.length) :
    ∃ args : List String,
      GetContainerArgs api t hostsTemplate = some args ∧
      args.length = t.Spec.Zones.length ∧
      ∀ i : Nat, i < t.Spec.Zones.length →
        ∃ endpoint zone,
          (api.MinIOEndpoints t hostsTemplate).get? i = some endpoint ∧
          t.Spec.Zones.get? i = some zone ∧
          args.get? i = some (endpoint ++ api.VolumePathForZone t zone) := by
  have hother : ∀ zone0, t.Spec.Zones = [zone0] → zone0.Servers ≠ 1 := by
    intro zone0 hz
    rcases hcond with h2 | ⟨z, rest, hzs, hsrv⟩
    · rw [hz] at h2; simp at h2
    · rw [hz] at hzs
      injection hzs with h1 _
      rw [h1]; omega
  refine ⟨endpointExpansion api t (api.MinIOEndpoints t hostsTemplate) t.Spec.Zones, ?_, ?_, ?_⟩
  · rw [GetContainerArgs_otherwise api t hostsTemplate hother,
      endpointArgs_eq api t _ 0 [] (by omega)]
    simp
  · simp [endpointExpansion, hlen]
  · intro i hi
    have hie : i < (api.MinIOEndpoints t hostsTemplate).length := by omega
    refine ⟨(api.MinIOEndpoints t hostsTemplate)[i], t.Spec.Zones[i], ?_, ?_, ?_⟩
    · simp [List.get?_eq_getElem?, List.getElem?_eq_getElem hie]
    · simp [List.get?_eq_getElem?, List.getElem?_eq_getElem hi]
    · simp [endpointExpansion, List.get?_eq_getElem?, List.getElem?_zipWith,
        List.getElem?_eq_getElem hie, List.getElem?_eq_getElem hi]

/-- C4 at a tenant with two pools: two arguments, each pool's endpoint with that pool's path. -/
theorem GetContainerArgs_distributed_witness :
    GetContainerArgs stdMiniov1
        (mkTenant [mkZone "zone-0" 4 2, mkZone "zone-1" 2 1] false none none none) "hl.svc"
      = some ["https://tenant1-zone-0-\x7b0...3\x7d.hl.svc/export\x7b0...1\x7d/data",
              "https://tenant1-zone-1-\x7b0...1\x7d.hl.svc/export/data"]
    ∧ ∃ args : List String,
        GetContainerArgs stdMiniov1
          (mkTenant [mkZone "zone-0" 4 2, mkZone "zone-1" 2 1] false none none none) "hl.svc"
          = some args ∧ args.length = 2 := by
  refine ⟨by decide, ?_⟩
  obtain ⟨args, h, hl, -⟩ :=
    GetContainerArgs_distributed stdMiniov1
      (mkTenant [mkZone "zone-0" 4 2, mkZone "zone-1" 2 1] false none none none) "hl.svc"
      (Or.inl (by decide)) (by decide)
  exact ⟨args, h, hl⟩

/-! ## Properties of `NewForMinIOZone` -/

/-- The parts of a StatefulSet returned by `NewForMinIOZone`: the certificate selection, the MinIO
container and the pod metadata were computed without a panic, and the fields of the result are
built from them. -/
theorem NewForMinIOZone_eq_some (api : Miniov1) (t : Tenant) (zone : Zone)
    (serviceName hostsTemplate : String) (ss : StatefulSet)
    (hss : NewForMinIOZone api t zone serviceName hostsTemplate = some ss) :
    ∃ certs container podMeta,
      selectCerts api t = some certs ∧
      zoneMinioServerContainer api t zone hostsTemplate = some container ∧
      minioMetadata api t zone = some podMeta ∧
      ss.Spec.Replicas = some zone.Servers ∧
      ss.Spec.Template.Spec.Volumes = tlsPodVolumes api t certs ∧
      ss.Spec.Template.Spec.Containers = [container] ∧
      ss.Spec.Template.Spec.InitContainers
        = [zoneMinIOInitContainerValidateMounts api t zone, zoneMinIOInitContainerWaitForDNS api t] ∧
      ss.Spec.Template.ObjectMeta = podMeta ∧
      ss.Spec.Selector = some (ContainerMatchLabels api t zone) ∧
      ss.Spec.VolumeClaimTemplates = claimTemplates zone ∧
      ss.ObjectMeta.OwnerReferences
        = [NewControllerRef t api.SchemeGroup api.SchemeVersion api.MinIOCRDResourceKind] := by
  unfold NewForMinIOZone at hss
  cases hc : selectCerts api t with
  | none => simp [hc] at hss
  | some certs =>
    cases hk : zoneMinioServerContainer api t zone hostsTemplate with
    | none => simp [hc, hk] at hss
    | some container =>
      cases hm : minioMetadata api t zone with
      | none => simp [hc, hk, hm] at hss
      | some podMeta =>
        simp only [hc, hk, hm, Option.some_bind, Option.bind_eq_bind, Option.pure_def,
          Option.some.injEq] at hss
        subst hss
        exact ⟨certs, container, podMeta, rfl, rfl, rfl, rfl, rfl, rfl, rfl, rfl, rfl, rfl, rfl⟩

/-- The MinIO container is built whenever the container arguments and the credentials secret, when
one is used, can be read. -/
theorem zoneMinioServerContainer_eq_some (api : Miniov1) (t : Tenant) (zone : Zone)
    (hostsTemplate : String) (container : Container)
    (h : zoneMinioServerContainer api t zone hostsTemplate = some container) :
    container.VolumeMounts = volumeMounts api t zone ∧ container.Name = api.MinIOServerName ∧
      container.Image = t.Spec.Image ∧
      minioEnvironmentVars api t hostsTemplate = some container.Env := by
  unfold zoneMinioServerContainer at h
  cases he : minioEnvironmentVars api t hostsTemplate with
  | none => simp [he] at h
  | some env =>
    simp only [he, Option.some_bind, Option.bind_eq_bind, Option.pure_def, Option.some.injEq] at h
    subst h
    exact ⟨rfl, rfl, rfl, rfl⟩

/-- The generator `NewForMinIOZone` returns a StatefulSet whenever its reads succeed: the
certificate selection finds the external secrets it dereferences, the endpoint loop of
`GetContainerArgs` stays in range, and the credentials secret and the metadata are present when
`HasCredsSecret` and `HasMetadata` say so. -/
theorem NewForMinIOZone_returns (api : Miniov1) (t : Tenant) (zone : Zone)
    (serviceName hostsTemplate : String)
    (hcerts : (selectCerts api t).isSome = true)
    (hargs : (GetContainerArgs api t hostsTemplate).isSome = true)
    (hcreds : api.HasCredsSecret t = true → t.Spec.CredsSecret.isSome = true)
    (hmeta : api.HasMetadata t = true → t.Spec.Metadata.isSome = true) :
    ∃ ss, NewForMinIOZone api t zone serviceName hostsTemplate = some ss := by
  obtain ⟨certs, hc⟩ := Option.isSome_iff_exists.mp hcerts
  obtain ⟨args, ha⟩ := Option.isSome_iff_exists.mp hargs
  have henv : ∃ env, minioEnvironmentVars api t hostsTemplate = some env := by
    unfold minioEnvironmentVars
    by_cases hcs : api.HasCredsSecret t = true
    · obtain ⟨creds, hcr⟩ := Option.isSome_iff_exists.mp (hcreds hcs)
      simp [ha, hcs, hcr]
    · simp [ha, hcs]
  obtain ⟨env, he⟩ := henv
  have hmd : ∃ podMeta, minioMetadata api t zone = some podMeta := by
    unfold minioMetadata
    by_cases hm : api.HasMetadata t = true
    · obtain ⟨m, hmm⟩ := Option.isSome_iff_exists.mp (hmeta hm)
      simp [hm, hmm]
    · simp [hm]
  obtain ⟨podMeta, hp⟩ := hmd
  simp [NewForMinIOZone, zoneMinioServerContainer, hc, he, hp]

/-- The server certificate variables after the certificate selection of `NewForMinIOZone`. -/
theorem selectCerts_server (api : Miniov1) (t : Tenant) (c : CertSelection)
    (h : selectCerts api t = some c) :
    (api.AutoCert t = true →
      c.serverCertSecret = api.MinIOTLSSecretName t ∧
      c.serverCertPaths = defaultCertSelection.serverCertPaths) ∧
    (api.AutoCert t = false → api.ExternalCert t = true →
      ∃ ext, t.Spec.ExternalCertSecret = some ext ∧ c.serverCertSecret = ext.Name ∧
        c.serverCertPaths = externalServerCertPaths ext) := by
  unfold selectCerts at h
  constructor
  · intro ha
    simp only [ha, if_true, Option.some.injEq] at h
    subst h
    exact ⟨rfl, rfl⟩
  · intro ha he
    simp only [ha, he, if_true, Bool.false_eq_true, if_false] at h
    cases hx : t.Spec.ExternalCertSecret with
    | none => simp [hx] at h
    | some ext =>
      refine ⟨ext, rfl, ?_⟩
      cases hcl : externalClientCert api t ext with
      | none => simp [hx, hcl] at h
      | some client =>
        cases hk : externalKESCert api t with
        | none => simp [hx, hcl, hk] at h
        | some kes =>
          simp only [hx, hcl, hk, Option.some_bind, Option.bind_eq_bind, Option.pure_def,
            Option.some.injEq] at h
          subst h
          exact ⟨rfl, rfl⟩

/-- The projected TLS volume when TLS is enabled: the server source comes first. -/
theorem tlsPodVolumes_enabled (api : Miniov1) (t : Tenant) (c : CertSelection)
    (htls : (api.AutoCert t || api.ExternalCert t) = true) :
    ∃ rest : List VolumeProjection,
      tlsPodVolumes api t c
        = [{ Name := api.MinIOTLSSecretName t,
             Projected := some
              ({ Secret := some { Name := c.serverCertSecret, Items := c.serverCertPaths } } :: rest) }]
      ∧ rest =
          if api.HasKESEnabled t then
            [{ Secret := some { Name := c.clientCertSecret, Items := c.clientCertPaths } },
             { Secret := some { Name := c.kesCertSecret, Items := c.KESCertPath } }]
          else [] := by
  unfold tlsPodVolumes
  rw [if_pos htls]
  refine ⟨_, ?_, rfl⟩
  dsimp only
  by_cases hk : api.HasKESEnabled t = true
  · rw [if_pos hk, if_pos hk]; rfl
  · rw [if_neg hk, if_neg hk]; rfl

/-- C5: in the StatefulSet built by `NewForMinIOZone` for a tenant with TLS enabled, the first
projected secret source has exactly three items with the in-container paths public.crt,
private.key, CAs/public.crt in every TLS mode; for auto-issued TLS the secret is
MinIOTLSSecretName with keys (public.crt, private.key, public.crt); otherwise the secret is the
external one, with keys (tls.crt, tls.key, tls.crt) for type kubernetes.io/tls and
(tls.crt, tls.key, ca.crt) for type cert-manager.io/v1alpha2. -/
theorem NewForMinIOZone_server_cert_projection (api : Miniov1) (t : Tenant) (zone : Zone)
    (serviceName hostsTemplate : String) (ss : StatefulSet)
    (htls : (api.AutoCert t || api.ExternalCert t) = true)
    (hss : NewForMinIOZone api t zone serviceName hostsTemplate = some ss) :
    ∃ (name : String) (items : List KeyToPath) (rest : List VolumeProjection),
      ss.Spec.Template.Spec.Volumes
        = [{ Name := api.MinIOTLSSecretName t,
             Projected := some ({ Secret := some { Name := name, Items := items } } :: rest) }] ∧
      items.map KeyToPath.Path = ["public.crt", "private.key", "CAs/public.crt"] ∧
      (api.AutoCert t = true →
        name = api.MinIOTLSSecretName t ∧
        items.map KeyToPath.Key = ["public.crt", "private.key", "public.crt"]) ∧
      (api.AutoCert t = false →
        ∃ ext, t.Spec.ExternalCertSecret = some ext ∧ name = ext.Name ∧
          (ext.Type_ = "kubernetes.io/tls" →
            items.map KeyToPath.Key = ["tls.crt", "tls.key", "tls.crt"]) ∧
          (ext.Type_ = "cert-manager.io/v1alpha2" →
            items.map KeyToPath.Key = ["tls.crt", "tls.key", "ca.crt"])) := by
  obtain ⟨certs, container, podMeta, hc, -, -, -, hvol, -⟩ :=
    NewForMinIOZone_eq_some api t zone serviceName hostsTemplate ss hss
  obtain ⟨rest, hrest, -⟩ := tlsPodVolumes_enabled api t certs htls
  obtain ⟨hauto, hext⟩ := selectCerts_server api t certs hc
  refine ⟨certs.serverCertSecret, certs.serverCertPaths, rest, by rw [hvol, hrest], ?_, ?_, ?_⟩
  · by_cases ha : api.AutoCert t = true
    · rw [(hauto ha).2]; rfl
    · have ha2 : api.AutoCert t = false := by simpa using ha
      have he : api.ExternalCert t = true := by simpa [ha2] using htls
      obtain ⟨ext, -, -, hp⟩ := hext ha2 he
      rw [hp]
      unfold externalServerCertPaths
      split_ifs <;> rfl
  · intro ha
    refine ⟨(hauto ha).1, ?_⟩
    rw [(hauto ha).2]; rfl
  · intro ha2
    have he : api.ExternalCert t = true := by simpa [ha2] using htls
    obtain ⟨ext, hx, hn, hp⟩ := hext ha2 he
    refine ⟨ext, hx, hn, ?_, ?_⟩
    · intro hty
      rw [hp]; unfold externalServerCertPaths; rw [if_pos hty]; rfl
    · intro hty
      have hne : ext.Type_ ≠ "kubernetes.io/tls" := by rw [hty]; decide
      rw [hp]; unfold externalServerCertPaths; rw [if_neg hne, if_pos hty]; rfl

/-- C5 at a tenant whose external server secret `server-tls` has type cert-manager.io/v1alpha2. -/
theorem NewForMinIOZone_server_cert_projection_witness :
    ∃ ss,
      NewForMinIOZone stdMiniov1
        (mkTenant [mkZone "zone-0" 4 2] false (some ⟨"server-tls", "cert-manager.io/v1alpha2"⟩)
          none none)
        (mkZone "zone-0" 4 2) "hl" "hl.svc" = some ss ∧
      ∃ (name : String) (items : List KeyToPath) (rest : List VolumeProjection),
        ss.Spec.Template.Spec.Volumes
          = [{ Name := "tenant1-tls",
               Projected := some ({ Secret := some { Name := name, Items := items } } :: rest) }] ∧
        items.map KeyToPath.Path = ["public.crt", "private.key", "CAs/public.crt"] ∧
        name = "server-tls" ∧
        items.map KeyToPath.Key = ["tls.crt", "tls.key", "ca.crt"] := by
  cases hss : NewForMinIOZone stdMiniov1
      (mkTenant [mkZone "zone-0" 4 2] false (some ⟨"server-tls", "cert-manager.io/v1alpha2"⟩)
        none none)
      (mkZone "zone-0" 4 2) "hl" "hl.svc" with
  | none => exact absurd hss (by decide)
  | some ss =>
    obtain ⟨name, items, rest, hv, hp, -, hext⟩ :=
      NewForMinIOZone_server_cert_projection stdMiniov1 _ _ _ _ ss (by decide) hss
    obtain ⟨ext, hx, hn, -, hcm⟩ := hext (by decide)
    have hx2 : ext = ⟨"server-tls", "cert-manager.io/v1alpha2"⟩ := by
      have : some (⟨"server-tls", "cert-manager.io/v1alpha2"⟩ : LocalCertificateReference)
          = some ext := hx
      injection this with h; exact h.symm
    subst hx2
    exact ⟨ss, rfl, name, items, rest, hv, hp, hn, hcm rfl⟩

/-- C6: the code at two failing inputs, with KES enabled. First a tenant whose external server
secret has type Opaque and whose client secret has type kubernetes.io/tls: the client projection
(the second source) maps public.crt and private.key, not tls.crt and tls.key. Then a tenant whose
server secret has type kubernetes.io/tls and whose client secret has type Opaque: the client
projection maps tls.crt and tls.key, not public.crt and private.key. The client mapping follows
the type of the server's secret. -/
theorem NewForMinIOZone_client_cert_projection_by_server_type :
    (NewForMinIOZone stdMiniov1
        (mkTenant [mkZone "zone-0" 4 2] false (some ⟨"server-tls", "Opaque"⟩)
          (some ⟨"client-tls", "kubernetes.io/tls"⟩) (some ⟨"minio/kes:v1", none⟩))
        (mkZone "zone-0" 4 2) "hl" "hl.svc").map (fun ss => ss.Spec.Template.Spec.Volumes)
      = some [{ Name := "tenant1-tls",
                Projected := some
                  [ ⟨some ⟨"server-tls", [⟨"public.crt", "public.crt"⟩,
                      ⟨"private.key", "private.key"⟩, ⟨"public.crt", "CAs/public.crt"⟩]⟩⟩,
                    ⟨some ⟨"client-tls", [⟨"public.crt", "client.crt"⟩,
                      ⟨"private.key", "client.key"⟩]⟩⟩,
                    ⟨some ⟨"", [⟨"public.crt", "CAs/kes.crt"⟩]⟩⟩ ] }]
    ∧
    (NewForMinIOZone stdMiniov1
        (mkTenant [mkZone "zone-0" 4 2] false (some ⟨"server-tls", "kubernetes.io/tls"⟩)
          (some ⟨"client-tls", "Opaque"⟩) (some ⟨"minio/kes:v1", none⟩))
        (mkZone "zone-0" 4 2) "hl" "hl.svc").map (fun ss => ss.Spec.Template.Spec.Volumes)
      = some [{ Name := "tenant1-tls",
                Projected := some
                  [ ⟨some ⟨"server-tls", [⟨"tls.crt", "public.crt"⟩,
                      ⟨"tls.key", "private.key"⟩, ⟨"tls.crt", "CAs/public.crt"⟩]⟩⟩,
                    ⟨some ⟨"client-tls", [⟨"tls.crt", "client.crt"⟩,
                      ⟨"tls.key", "client.key"⟩]⟩⟩,
                    ⟨some ⟨"", [⟨"public.crt", "CAs/kes.crt"⟩]⟩⟩ ] }] := by
  decide

/-- The number of mounts that `volumeMounts` returns: one per volume of a server, and one more
for the TLS secret when TLS is enabled. -/
theorem volumeMounts_length (api : Miniov1) (t : Tenant) (zone : Zone) :
    (volumeMounts api t zone).length
      = zone.VolumesPerServer.toNat + (if api.AutoCert t || api.ExternalCert t then 1 else 0) := by
  rw [volumeMounts_eq]
  have hdata : ∀ l : List VolumeMount,
      l = (if zone.VolumesPerServer = 1 then
            [{ Name := claimName api zone ++ Itoa 0, MountPath := t.Spec.Mountpath }]
          else
            (List.range zone.VolumesPerServer.toNat).map fun (i : Nat) =>
              ({ Name := claimName api zone ++ Itoa (Int.ofNat i),
                 MountPath := t.Spec.Mountpath ++ Itoa (Int.ofNat i) } : VolumeMount)) →
      l.length = zone.VolumesPerServer.toNat := by
    intro l hl
    by_cases h1 : zone.VolumesPerServer = 1
    · rw [hl, if_pos h1, h1]; rfl
    · rw [hl, if_neg h1, List.length_map, List.length_range]
  rw [List.length_append, hdata _ rfl]
  unfold tlsMounts
  by_cases h : (api.AutoCert t || api.ExternalCert t) = true
  · rw [if_pos h, if_pos h]; rfl
  · rw [if_neg h, if_neg h]; rfl

/-- C7 as stated fails: for auto-issued TLS and a pool of 4 servers with 8 volumes per server the
StatefulSet has 4 replicas and the MinIO container has 9 volume mounts, not 8. -/
theorem NewForMinIOZone_mount_count_counterexample :
    (NewForMinIOZone stdMiniov1 (mkTenant [mkZone "zone-0" 4 8] true none none none)
        (mkZone "zone-0" 4 8) "hl" "hl.svc").map
      (fun ss => (ss.Spec.Replicas,
        ss.Spec.Template.Spec.Containers.map (fun c => c.VolumeMounts.length)))
      = some (some 4, [9]) := by
  decide

/-- C7, amended: the StatefulSet built by `NewForMinIOZone` has as many replicas as the pool has
servers, and its only container, the MinIO container, has one volume mount per volume of a server
(none when volumes-per-server is not positive) and one more, the mount of the TLS secret, when TLS
is enabled (AutoCert or ExternalCert). -/
theorem NewForMinIOZone_replicas_and_mounts (api : Miniov1) (t : Tenant) (zone : Zone)
    (serviceName hostsTemplate : String) (ss : StatefulSet)
    (hss : NewForMinIOZone api t zone serviceName hostsTemplate = some ss) :
    ss.Spec.Replicas = some zone.Servers ∧
    ∃ c : Container,
      ss.Spec.Template.Spec.Containers = [c] ∧
      c.Name = api.MinIOServerName ∧
      c.VolumeMounts.length
        = zone.VolumesPerServer.toNat + (if api.AutoCert t || api.ExternalCert t then 1 else 0) := by
  obtain ⟨certs, container, podMeta, -, hk, -, hrep, -, hcs, -⟩ :=
    NewForMinIOZone_eq_some api t zone serviceName hostsTemplate ss hss
  obtain ⟨hvm, hname, -, -⟩ := zoneMinioServerContainer_eq_some api t zone hostsTemplate container hk
  exact ⟨hrep, container, hcs, hname, by rw [hvm, volumeMounts_length]⟩

/-- C7, amended, at auto-issued TLS and a pool of 4 servers with 8 volumes per server:
4 replicas and 8 + 1 mounts. -/
theorem NewForMinIOZone_replicas_and_mounts_witness :
    ∃ ss,
      NewForMinIOZone stdMiniov1 (mkTenant [mkZone "zone-0" 4 8] true none none none)
        (mkZone "zone-0" 4 8) "hl" "hl.svc" = some ss ∧
      ss.Spec.Replicas = some 4 ∧
      ∃ c : Container, ss.Spec.Template.Spec.Containers = [c] ∧ c.VolumeMounts.length = 8 + 1 := by
  cases hss : NewForMinIOZone stdMiniov1 (mkTenant [mkZone "zone-0" 4 8] true none none none)
      (mkZone "zone-0" 4 8) "hl" "hl.svc" with
  | none => exact absurd hss (by decide)
  | some ss =>
    obtain ⟨hrep, c, hcs, -, hlen⟩ :=
      NewForMinIOZone_replicas_and_mounts stdMiniov1
        (mkTenant [mkZone "zone-0" 4 8] true none none none) (mkZone "zone-0" 4 8)
        "hl" "hl.svc" ss hss
    exact ⟨ss, rfl, hrep, c, hcs, hlen⟩

/-! ## Properties of `zoneMinIOInitContainerValidateMounts` -/

/-- The script loop of `zoneMinIOInitContainerValidateMounts` concatenates one wait loop per
mount, in mount order. -/
theorem statLoops_eq_join (mounts : List VolumeMount) :
    mounts.foldl (fun s m => s ++ statLoop m) ""
      = String.join (mounts.map fun m => "until /bin/stat " ++ m.MountPath ++ "; do sleep 2; done;") := by
  unfold String.join
  rw [List.foldl_map]
  rfl

/-- C8: the single shell argument of the mount-validation init container is the concatenation, in
mount order, of one wait loop "until /bin/stat MountPath; do sleep 2; done;" for every mount that
`volumeMounts` returns, followed, exactly when TLS is enabled, by the certificate waits (an echo
line, then the wait loops for private.key, public.crt and CAs/public.crt under /tmp/certs); with
TLS disabled nothing follows the mount loops. The container's volume mounts are
`volumeMounts t zone`. -/
theorem zoneMinIOInitContainerValidateMounts_script (api : Miniov1) (t : Tenant) (zone : Zone) :
    (zoneMinIOInitContainerValidateMounts api t zone).VolumeMounts = volumeMounts api t zone ∧
    ∃ certWait : String,
      (zoneMinIOInitContainerValidateMounts api t zone).Args
        = [String.join ((volumeMounts api t zone).map fun m =>
              "until /bin/stat " ++ m.MountPath ++ "; do sleep 2; done;") ++ certWait] ∧
      ((api.AutoCert t || api.ExternalCert t) = true →
        certWait = "echo Wait till certs can be read;"
          ++ ("until /bin/cat /tmp/certs/private.key > /dev/null; do sleep 2; done;"
          ++ ("until /bin/cat /tmp/certs/public.crt > /dev/null; do sleep 2; done;"
          ++ "until /bin/cat /tmp/certs/CAs/public.crt > /dev/null; do sleep 2; done;"))) ∧
      ((api.AutoCert t || api.ExternalCert t) = false → certWait = "") := by
  refine ⟨rfl, ?_⟩
  by_cases h : (api.AutoCert t || api.ExternalCert t) = true
  · refine ⟨_, ?_, fun _ => rfl, fun h2 => by rw [h] at h2; cases h2⟩
    show [validateMountsScript api t zone] = _
    unfold validateMountsScript
    simp only [h, if_true, statLoops_eq_join, String.append_assoc]
  · refine ⟨"", ?_, fun h2 => absurd h2 h, fun _ => rfl⟩
    show [validateMountsScript api t zone] = _
    unfold validateMountsScript
    simp only [h, if_false, statLoops_eq_join, String.append_empty]
    rfl

/-- C8 at a pool of two volumes per server with auto-issued TLS: the whole script. -/
theorem zoneMinIOInitContainerValidateMounts_script_witness :
    (zoneMinIOInitContainerValidateMounts stdMiniov1
        (mkTenant [mkZone "zone-0" 4 2] true none none none) (mkZone "zone-0" 4 2)).Args
      = ["until /bin/stat /export0; do sleep 2; done;"
          ++ "until /bin/stat /export1; do sleep 2; done;"
          ++ "until /bin/stat /tmp/certs; do sleep 2; done;"
          ++ "echo Wait till certs can be read;"
          ++ "until /bin/cat /tmp/certs/private.key > /dev/null; do sleep 2; done;"
          ++ "until /bin/cat /tmp/certs/public.crt > /dev/null; do sleep 2; done;"
          ++ "until /bin/cat /tmp/certs/CAs/public.crt > /dev/null; do sleep 2; done;"]
    ∧ (zoneMinIOInitContainerValidateMounts stdMiniov1
        (mkTenant [mkZone "zone-0" 4 2] true none none none) (mkZone "zone-0" 4 2)).VolumeMounts
      = volumeMounts stdMiniov1 (mkTenant [mkZone "zone-0" 4 2] true none none none)
          (mkZone "zone-0" 4 2) :=
  ⟨by rfl,
   (zoneMinIOInitContainerValidateMounts_script stdMiniov1
      (mkTenant [mkZone "zone-0" 4 2] true none none none) (mkZone "zone-0" 4 2)).1⟩

/-! ## Properties of `kesStatefulSetMatchesSpec` -/

/-- C9: `kesStatefulSetMatchesSpec` never reports a match on an absent input. For every tenant,
nil or not, and a nil live StatefulSet it returns false with a non-nil error; for a nil tenant and
every non-nil live StatefulSet (whatever its containers, also none) it returns false with a
non-nil error. -/
theorem kesStatefulSetMatchesSpec_absent_input (pkg : KESPkg) :
    (∀ tenant : Option Tenant, ∃ err : String,
      kesStatefulSetMatchesSpec pkg tenant none = some (false, some err)) ∧
    (∀ ss : StatefulSet, ∃ err : String,
      kesStatefulSetMatchesSpec pkg none (some ss) = some (false, some err)) :=
  ⟨fun _ => ⟨"cannot process an empty kes StatefulSet", rfl⟩,
   fun _ => ⟨"cannot process an empty tenant", rfl⟩⟩

/-- C10: `kesStatefulSetMatchesSpec` evaluates the image first. For a non-nil tenant and a non-nil
live StatefulSet with at least one container, when `EqualImage` answers that the tenant's KES image
differs from the image of the first live container the result is (false, nil), whatever the other
fields of the live spec are and whatever the desired StatefulSet and the comparison of the specs
would say. -/
theorem kesStatefulSetMatchesSpec_image_mismatch (pkg : KESPkg) (t : Tenant) (ss : StatefulSet)
    (c0 : Container) (rest : List Container)
    (hc : ss.Spec.Template.Spec.Containers = c0 :: rest)
    (himg : pkg.EqualImage t.Spec.KES c0.Image = some false) :
    kesStatefulSetMatchesSpec pkg (some t) (some ss) = some (false, none) ∧
    ∀ (newForKES : Tenant → String → StatefulSet)
      (deepDerivative : StatefulSetSpec → StatefulSetSpec → Bool),
      kesStatefulSetMatchesSpec
        { pkg with NewForKES := newForKES, DeepDerivative := deepDerivative } (some t) (some ss)
        = some (false, none) := by
  constructor
  · simp [kesStatefulSetMatchesSpec, hc, himg]
  · intro newForKES deepDerivative
    simp [kesStatefulSetMatchesSpec, hc, himg]

/-- C10 at an image bump from v1 to v2: the live StatefulSet is the desired one of the tenant at
`minio/kes:v1`, the tenant asks for `minio/kes:v2`, and the result is (false, nil). -/
theorem kesStatefulSetMatchesSpec_image_mismatch_witness :
    kesStatefulSetMatchesSpec sampleKESPkg
      (some (mkTenant [mkZone "zone-0" 4 2] true none none (some ⟨"minio/kes:v2", none⟩)))
      (some (sampleKESPkg.NewForKES
        (mkTenant [mkZone "zone-0" 4 2] true none none (some ⟨"minio/kes:v1", none⟩))
        "tenant1-kes-hl-svc"))
      = some (false, none) :=
  (kesStatefulSetMatchesSpec_image_mismatch sampleKESPkg
    (mkTenant [mkZone "zone-0" 4 2] true none none (some ⟨"minio/kes:v2", none⟩))
    (sampleKESPkg.NewForKES
      (mkTenant [mkZone "zone-0" 4 2] true none none (some ⟨"minio/kes:v1", none⟩))
      "tenant1-kes-hl-svc")
    _ [] rfl (by decide)).1

/-! ## Properties of the labels and owner references of the generated objects -/

/-- The parts of a Deployment returned by `NewForMCS`: the console configuration, the pod metadata
and the console container were read without a panic, and the fields of the result are built from
them. -/
theorem NewForMCS_eq_some (mcs : MCSPkg) (t : Tenant) (d : Deployment)
    (h : NewForMCS mcs t = some d) :
    ∃ m podMeta container,
      t.Spec.MCS = some m ∧
      mcsMetadata mcs t = some podMeta ∧
      mcsContainer mcs t = some container ∧
      d.ObjectMeta.OwnerReferences = OwnerRef mcs t ∧
      d.Spec.Replicas = some m.Replicas ∧
      d.Spec.Selector = some (mcsSelector mcs t) ∧
      d.Spec.Template.ObjectMeta = podMeta ∧
      d.Spec.Template.Spec.Containers = [container] := by
  unfold NewForMCS at h
  cases hm : t.Spec.MCS with
  | none => simp [hm] at h
  | some m =>
    cases hp : mcsMetadata mcs t with
    | none => simp [hm, hp] at h
    | some podMeta =>
      cases hc : mcsContainer mcs t with
      | none => simp [hm, hp, hc] at h
      | some container =>
        simp only [hm, hp, hc, Option.some_bind, Option.bind_eq_bind, Option.pure_def,
          Option.some.injEq] at h
        subst h
        exact ⟨m, podMeta, container, rfl, rfl, rfl, rfl, rfl, rfl, rfl, rfl⟩

/-- C12: the StatefulSet built by `NewForMinIOZone` carries exactly one owner reference, a
controller reference to the tenant (the tenant's name and UID, the operator's group/version, kind
MinIOCRDResourceKind, Controller = true); the console Deployment built by `NewForMCS` carries the
tenant's owner reference list `t.OwnerRef()`, which is one controller reference to the tenant
(the tenant's name and UID, Controller = true). Neither list is ever empty. -/
theorem generators_owner_references (api : Miniov1) (mcs : MCSPkg) (t : Tenant) (zone : Zone)
    (serviceName hostsTemplate : String) :
    (∀ ss, NewForMinIOZone api t zone serviceName hostsTemplate = some ss →
      ss.ObjectMeta.OwnerReferences ≠ [] ∧
      ∃ ref : OwnerReference,
        ss.ObjectMeta.OwnerReferences = [ref] ∧
        ref.Name = t.Name ∧ ref.UID = t.UID ∧
        ref.APIVersion
          = (if api.SchemeGroup = "" then api.SchemeVersion
             else api.SchemeGroup ++ "/" ++ api.SchemeVersion) ∧
        ref.Kind = api.MinIOCRDResourceKind ∧
        ref.Controller = some true) ∧
    (∀ d, NewForMCS mcs t = some d →
      d.ObjectMeta.OwnerReferences = OwnerRef mcs t ∧
      d.ObjectMeta.OwnerReferences ≠ [] ∧
      ∃ ref : OwnerReference,
        d.ObjectMeta.OwnerReferences = [ref] ∧
        ref.Name = t.Name ∧ ref.UID = t.UID ∧
        ref.APIVersion
          = (if mcs.SchemeGroup = "" then mcs.SchemeVersion
             else mcs.SchemeGroup ++ "/" ++ mcs.SchemeVersion) ∧
        ref.Kind = mcs.MinIOCRDResourceKind ∧
        ref.Controller = some true) := by
  constructor
  · intro ss hss
    obtain ⟨_, _, _, -, -, -, -, -, -, -, -, -, -, hown⟩ :=
      NewForMinIOZone_eq_some api t zone serviceName hostsTemplate ss hss
    rw [hown]
    exact ⟨by simp, _, rfl, rfl, rfl, rfl, rfl, rfl⟩
  · intro d hd
    obtain ⟨_, _, _, -, -, -, hown, -⟩ := NewForMCS_eq_some mcs t d hd
    rw [hown]
    exact ⟨rfl, by simp [OwnerRef], _, rfl, rfl, rfl, rfl, rfl, rfl⟩

/-- C12 at a tenant with one pool and the console configured: both generators return, the
StatefulSet and the Deployment each carry the controller reference to `tenant1`. -/
theorem generators_owner_references_witness :
    (∃ ss,
      NewForMinIOZone stdMiniov1
        (mkMCSTenant [mkZone "zone-0" 4 2] ⟨2, "minio/mcs:v1", some ⟨"mcs-secret"⟩, none⟩)
        (mkZone "zone-0" 4 2) "hl" "hl.svc" = some ss ∧
      ss.ObjectMeta.OwnerReferences ≠ []) ∧
    (∃ d,
      NewForMCS stdMCSPkg
        (mkMCSTenant [mkZone "zone-0" 4 2] ⟨2, "minio/mcs:v1", some ⟨"mcs-secret"⟩, none⟩) = some d ∧
      d.ObjectMeta.OwnerReferences
        = [⟨"minio.min.io/v1", "Tenant", "tenant1", "uid-1", some true, some true⟩] ∧
      d.ObjectMeta.OwnerReferences ≠ []) := by
  have h := generators_owner_references stdMiniov1 stdMCSPkg
    (mkMCSTenant [mkZone "zone-0" 4 2] ⟨2, "minio/mcs:v1", some ⟨"mcs-secret"⟩, none⟩)
    (mkZone "zone-0" 4 2) "hl" "hl.svc"
  constructor
  · cases hss : NewForMinIOZone stdMiniov1
        (mkMCSTenant [mkZone "zone-0" 4 2] ⟨2, "minio/mcs:v1", some ⟨"mcs-secret"⟩, none⟩)
        (mkZone "zone-0" 4 2) "hl" "hl.svc" with
    | none => exact absurd hss (by decide)
    | some ss => exact ⟨ss, rfl, (h.1 ss hss).1⟩
  · cases hd : NewForMCS stdMCSPkg
        (mkMCSTenant [mkZone "zone-0" 4 2] ⟨2, "minio/mcs:v1", some ⟨"mcs-secret"⟩, none⟩) with
    | none => exact absurd hd (by decide)
    | some d =>
      obtain ⟨heq, hne, -⟩ := h.2 d hd
      exact ⟨d, rfl, heq, hne⟩

/-- Reading the key that was just assigned. -/
theorem mapGet_mapSet_self (m : List (String × String)) (k v : String) :
    mapGet (mapSet m k v) k = some v := by
  induction m with
  | nil => simp [mapSet, mapGet]
  | cons kv rest ih =>
    obtain ⟨k0, v0⟩ := kv
    by_cases h : k0 = k
    · simp [mapSet, mapGet, h]
    · simp [mapSet, mapGet, h, ih]

/-- Reading another key than the one that was just assigned. -/
theorem mapGet_mapSet_ne (m : List (String × String)) (k v k' : String) (hne : k' ≠ k) :
    mapGet (mapSet m k v) k' = mapGet m k' := by
  induction m with
  | nil => simp [mapSet, mapGet, Ne.symm hne]
  | cons kv rest ih =>
    obtain ⟨k0, v0⟩ := kv
    by_cases h : k0 = k
    · subst h
      simp [mapSet, mapGet, Ne.symm hne]
    · by_cases h2 : k0 = k'
      · subst h2
        simp [mapSet, mapGet, h]
      · simp [mapSet, mapGet, h, h2, ih]

/-- A key that is found in an association list is one of its keys. -/
theorem mem_keys_of_mapGet (l : List (String × String)) (k v : String)
    (h : mapGet l k = some v) : k ∈ l.map Prod.fst := by
  induction l with
  | nil => simp [mapGet] at h
  | cons kv rest ih =>
    obtain ⟨k0, v0⟩ := kv
    by_cases h0 : k0 = k
    · simp [h0]
    · simp only [mapGet, h0, if_false] at h
      simp [ih h]

/-- The loop `for k, v := range labels { m[k] = v }` leaves the keys that are not in `labels`. -/
theorem mapGet_foldl_mapSet_not_mem (labels : List (String × String)) :
    ∀ (m : List (String × String)) (k : String), k ∉ labels.map Prod.fst →
      mapGet (labels.foldl (fun m kv => mapSet m kv.1 kv.2) m) k = mapGet m k := by
  induction labels with
  | nil => intro m k _; rfl
  | cons kv rest ih =>
    intro m k hk
    simp only [List.map_cons, List.mem_cons, not_or] at hk
    simp only [List.foldl_cons]
    rw [ih _ k hk.2, mapGet_mapSet_ne m kv.1 kv.2 k hk.1]

/-- The loop `for k, v := range labels { m[k] = v }` over a map `labels` (no key twice) leaves
every label of `labels` in `m` with its value. -/
theorem mapGet_foldl_mapSet (labels : List (String × String)) :
    ∀ (m : List (String × String)) (k v : String), (labels.map Prod.fst).Nodup →
      mapGet labels k = some v →
      mapGet (labels.foldl (fun m kv => mapSet m kv.1 kv.2) m) k = some v := by
  induction labels with
  | nil => intro m k v _ h; simp [mapGet] at h
  | cons kv rest ih =>
    intro m k v hnd h
    obtain ⟨k0, v0⟩ := kv
    simp only [List.map_cons, List.nodup_cons] at hnd
    simp only [List.foldl_cons]
    by_cases h0 : k0 = k
    · subst h0
      simp only [mapGet, if_true, Option.some.injEq] at h
      subst h
      rw [mapGet_foldl_mapSet_not_mem rest _ k0 hnd.1, mapGet_mapSet_self]
    · simp only [mapGet, h0, if_false] at h
      exact ih _ k v hnd.2 h

/-- The labels of `minioMetadata` contain every label of `ContainerMatchLabels`. -/
theorem minioMetadata_labels (api : Miniov1) (t : Tenant) (zone : Zone) (podMeta : ObjectMeta)
    (hnd : ((api.MinIOPodLabels t).map Prod.fst).Nodup)
    (h : minioMetadata api t zone = some podMeta) (k v : String)
    (hk : mapGet (ContainerMatchLabels api t zone) k = some v) :
    mapGet podMeta.Labels k = some v := by
  have hlab : ∃ meta : ObjectMeta, podMeta.Labels
      = mapSet ((api.MinIOPodLabels t).foldl (fun m kv => mapSet m kv.1 kv.2) meta.Labels)
          api.ZoneLabel zone.Name := by
    unfold minioMetadata at h
    by_cases hm : api.HasMetadata t = true
    · cases hmd : t.Spec.Metadata with
      | none => simp [hm, hmd] at h
      | some md =>
        simp only [hm, hmd, if_true, Option.some_bind, Option.bind_eq_bind, Option.pure_def,
          Option.some.injEq] at h
        exact ⟨md, by rw [← h]⟩
    · simp only [hm, if_false, Option.some_bind, Option.bind_eq_bind, Option.pure_def,
        Option.some.injEq, Bool.false_eq_true] at h
      exact ⟨emptyObjectMeta, by rw [← h]⟩
  obtain ⟨meta, hl⟩ := hlab
  rw [hl]
  unfold ContainerMatchLabels at hk
  by_cases hz : k = api.ZoneLabel
  · subst hz
    rw [mapGet_mapSet_self] at hk ⊢
    exact hk
  · rw [mapGet_mapSet_ne _ _ _ _ hz] at hk ⊢
    exact mapGet_foldl_mapSet _ _ k v hnd hk

/-- The labels of `mcsMetadata` contain every label of `mcsSelector`. -/
theorem mcsMetadata_labels (mcs : MCSPkg) (t : Tenant) (podMeta : ObjectMeta)
    (hnd : ((mcs.MCSPodLabels t).map Prod.fst).Nodup)
    (h : mcsMetadata mcs t = some podMeta) (k v : String)
    (hk : mapGet (mcsSelector mcs t) k = some v) :
    mapGet podMeta.Labels k = some v := by
  have hlab : ∃ meta : ObjectMeta, podMeta.Labels
      = (mcs.MCSPodLabels t).foldl (fun m kv => mapSet m kv.1 kv.2) meta.Labels := by
    unfold mcsMetadata at h
    by_cases hm : mcs.HasMCSMetadata t = true
    · cases hc : t.Spec.MCS with
      | none => simp [hm, hc] at h
      | some c =>
        cases hmd : c.Metadata with
        | none => simp [hm, hc, hmd] at h
        | some md =>
          simp only [hm, hc, hmd, if_true, Option.some_bind, Option.bind_eq_bind,
            Option.pure_def, Option.some.injEq] at h
          exact ⟨md, by rw [← h]⟩
    · simp only [hm, if_false, Option.some_bind, Option.bind_eq_bind, Option.pure_def,
        Option.some.injEq, Bool.false_eq_true] at h
      exact ⟨emptyObjectMeta, by rw [← h]⟩
  obtain ⟨meta, hl⟩ := hlab
  rw [hl]
  exact mapGet_foldl_mapSet _ _ k v hnd hk

/-- When a generator returns, every label of the StatefulSet's selector (`ContainerMatchLabels`:
the tenant's pod labels plus the pool label set to the pool's name) is present with the same value
in the labels of the pod template (`minioMetadata`), whatever labels the tenant's own metadata
carries; likewise every label of the console Deployment's selector (`mcsSelector`) is present with
the same value in its pod template labels (`mcsMetadata`). The pod labels returned by
`MinIOPodLabels` and `MCSPodLabels` are Go maps: no key occurs twice. The labels are read at the
return of the generator, before a later call writes into a map that the template shares with the
tenant. -/
theorem selector_labels_in_template_at_return (api : Miniov1) (mcs : MCSPkg) (t : Tenant) (zone : Zone)
    (serviceName hostsTemplate : String)
    (hpod : ((api.MinIOPodLabels t).map Prod.fst).Nodup)
    (hmcs : ((mcs.MCSPodLabels t).map Prod.fst).Nodup) :
    (∀ ss, NewForMinIOZone api t zone serviceName hostsTemplate = some ss →
      ∃ sel : List (String × String),
        ss.Spec.Selector = some sel ∧
        mapGet sel api.ZoneLabel = some zone.Name ∧
        (∀ k v, k ≠ api.ZoneLabel → mapGet (api.MinIOPodLabels t) k = some v →
          mapGet sel k = some v) ∧
        ∀ k v, mapGet sel k = some v →
          mapGet ss.Spec.Template.ObjectMeta.Labels k = some v) ∧
    (∀ d, NewForMCS mcs t = some d →
      ∃ sel : List (String × String),
        d.Spec.Selector = some sel ∧
        sel = mcs.MCSPodLabels t ∧
        ∀ k v, mapGet sel k = some v →
          mapGet d.Spec.Template.ObjectMeta.Labels k = some v) := by
  constructor
  · intro ss hss
    obtain ⟨_, _, podMeta, -, -, hmeta, -, -, -, -, hpm, hsel, -⟩ :=
      NewForMinIOZone_eq_some api t zone serviceName hostsTemplate ss hss
    refine ⟨ContainerMatchLabels api t zone, hsel, ?_, ?_, ?_⟩
    · exact mapGet_mapSet_self _ _ _
    · intro k v hk hv
      unfold ContainerMatchLabels
      rw [mapGet_mapSet_ne _ _ _ _ hk]
      exact hv
    · intro k v hk
      rw [hpm]
      exact minioMetadata_labels api t zone podMeta hpod hmeta k v hk
  · intro d hd
    obtain ⟨_, podMeta, _, -, hmeta, -, -, -, hsel, hpm, -⟩ := NewForMCS_eq_some mcs t d hd
    refine ⟨mcsSelector mcs t, hsel, rfl, ?_⟩
    intro k v hk
    rw [hpm]
    exact mcsMetadata_labels mcs t podMeta hmcs hmeta k v hk

/-- The map that `minioMetadataShared` returns reads, on the tenant as the call leaves it, as the
labels that `minioMetadata` returns: the two embeddings agree when the function returns. -/
theorem minioMetadataShared_read (api : Miniov1) (t : Tenant) (zone : Zone) :
    (minioMetadataShared api t zone).map (fun r => r.1.read r.2)
      = (minioMetadata api t zone).map (fun m => m.Labels) := by
  unfold minioMetadataShared minioMetadata
  by_cases hm : api.HasMetadata t = true
  · cases hmd : t.Spec.Metadata with
    | none => simp [hm]
    | some md =>
      by_cases hl : md.Labels = []
      · simp [hm, hl, LabelsRef.read]
      · simp [hm, hl, LabelsRef.read, setMetadataLabels, hmd]
  · simp [hm, LabelsRef.read]

/-- The map that `mcsMetadataShared` returns reads, on the tenant as the call leaves it, as the
labels that `mcsMetadata` returns. -/
theorem mcsMetadataShared_read (mcs : MCSPkg) (t : Tenant) :
    (mcsMetadataShared mcs t).map (fun r => r.1.read r.2)
      = (mcsMetadata mcs t).map (fun m => m.Labels) := by
  unfold mcsMetadataShared mcsMetadata
  by_cases hm : mcs.HasMCSMetadata t = true
  · cases hc : t.Spec.MCS with
    | none => simp [hm]
    | some c =>
      cases hmd : c.Metadata with
      | none => simp [hm, hmd]
      | some md =>
        by_cases hl : md.Labels = []
        · simp [hm, hmd, hl, LabelsRef.read]
        · simp [hm, hmd, hl, LabelsRef.read, setMCSMetadataLabels, hc]
  · simp [hm, LabelsRef.read]
/-- A label map is not empty after a write. -/
theorem mapSet_ne_nil (m : List (String × String)) (k v : String) : mapSet m k v ≠ [] := by
  cases m with
  | nil => simp [mapSet]
  | cons kv rest =>
    obtain ⟨k0, v0⟩ := kv
    by_cases h : k0 = k <;> simp [mapSet, h]

/-- When the tenant has metadata with labels, the labels of the pod template generated for one pool
carry, after the metadata of another pool has been generated, the name of that other pool. The
helper `HasMetadata` tests the presence of the metadata, which a write into its labels leaves. -/
theorem templateLabelsAfterNextPool_zone (api : Miniov1) (t : Tenant) (zone0 zone1 : Zone)
    (md : ObjectMeta) (hmd : t.Spec.Metadata = some md) (hl : md.Labels ≠ [])
    (hhas : ∀ labels, api.HasMetadata (setMetadataLabels t labels) = true)
    (hm : api.HasMetadata t = true) :
    ∃ labels, templateLabelsAfterNextPool api t zone0 zone1 = some labels ∧
      mapGet labels api.ZoneLabel = some zone1.Name := by
  unfold templateLabelsAfterNextPool minioMetadataShared
  simp only [hm, hmd, hl, if_true, Option.some_bind, Option.bind_eq_bind, Option.pure_def,
    ne_eq, not_false_eq_true, and_self, hhas]
  simp [setMetadataLabels, hmd, mapSet_ne_nil, LabelsRef.read, mapGet_mapSet_self]

/-- C14: the code at a failing input. On the tenant `tenant1` with the pools `zone-0` and `zone-1`
and the labels `v1.min.io/zone: other`, `v1.min.io/tenant: mine`, `team: a` in its own metadata,
`NewForMinIOZone` for `zone-0` returns a StatefulSet whose selector labels are all in its template
labels; the template labels are the very map `t.Spec.Metadata.Labels` of the tenant, into which
`minioMetadata` has written the pod labels and the pool label over the labels of the user; the
call of `minioMetadata` for `zone-1` writes the pool label `zone-1` into that map, so that the
template of the first StatefulSet is labelled `zone-1` while its selector asks for `zone-0`. -/
theorem minioMetadata_shared_labels_rewritten :
    (NewForMinIOZone stdMiniov1 twoPoolLabelledTenant (mkZone "zone-0" 4 2) "hl" "hl.svc").map
        (fun ss => (ss.Spec.Selector, ss.Spec.Template.ObjectMeta.Labels))
      = some (some [("v1.min.io/tenant", "tenant1"), ("v1.min.io/zone", "zone-0")],
              [("v1.min.io/zone", "zone-0"), ("v1.min.io/tenant", "tenant1"), ("team", "a")]) ∧
    ContainerMatchLabels stdMiniov1 twoPoolLabelledTenant (mkZone "zone-0" 4 2)
      = [("v1.min.io/tenant", "tenant1"), ("v1.min.io/zone", "zone-0")] ∧
    twoPoolLabelledTenant.Spec.Metadata.map (fun md => md.Labels)
      = some [("v1.min.io/zone", "other"), ("v1.min.io/tenant", "mine"), ("team", "a")] ∧
    (minioMetadataShared stdMiniov1 twoPoolLabelledTenant (mkZone "zone-0" 4 2)).map
        (fun r => (r.1, r.1.read r.2, r.2.Spec.Metadata.map fun md => md.Labels))
      = some (LabelsRef.tenantMetadata,
              [("v1.min.io/zone", "zone-0"), ("v1.min.io/tenant", "tenant1"), ("team", "a")],
              some [("v1.min.io/zone", "zone-0"), ("v1.min.io/tenant", "tenant1"),
                    ("team", "a")]) ∧
    templateLabelsAfterNextPool stdMiniov1 twoPoolLabelledTenant (mkZone "zone-0" 4 2)
        (mkZone "zone-1" 4 2)
      = some [("v1.min.io/zone", "zone-1"), ("v1.min.io/tenant", "tenant1"), ("team", "a")] ∧
    mapGet (ContainerMatchLabels stdMiniov1 twoPoolLabelledTenant (mkZone "zone-0" 4 2))
        "v1.min.io/zone" = some "zone-0" ∧
    (templateLabelsAfterNextPool stdMiniov1 twoPoolLabelledTenant (mkZone "zone-0" 4 2)
        (mkZone "zone-1" 4 2)).map (fun labels => mapGet labels "v1.min.io/zone")
      = some (some "zone-1") := by
  refine ⟨by decide, by decide, by decide, by decide, by decide, by decide, by decide⟩

/-! ## Volume mounts and the volumes behind them -/

/-- The claim templates of a pool with a volume claim template: the `i`-th is a copy of the
pool's template named template name + decimal(i). -/
theorem claimTemplates_get (zone : Zone) (tpl : PersistentVolumeClaim)
    (htpl : zone.VolumeClaimTemplate = some tpl) (i : Nat) (hi : (i : Int) < zone.VolumesPerServer) :
    (claimTemplates zone).get? i = some { tpl with Name := tpl.Name ++ Itoa (Int.ofNat i) } := by
  have hi2 : i < zone.VolumesPerServer.toNat := by omega
  unfold claimTemplates
  simp [htpl, List.get?_eq_getElem?, List.getElem?_map, List.getElem?_range hi2]

/-- Every data mount of a pool with a volume claim template and at least one volume per server
carries the name of one of the claim templates. -/
theorem data_mount_has_claim (api : Miniov1) (t : Tenant) (zone : Zone)
    (tpl : PersistentVolumeClaim) (htpl : zone.VolumeClaimTemplate = some tpl)
    (hn : 1 ≤ zone.VolumesPerServer) (m : VolumeMount)
    (hm : m ∈ (if zone.VolumesPerServer = 1 then
        [{ Name := claimName api zone ++ Itoa 0, MountPath := t.Spec.Mountpath }]
      else
        (List.range zone.VolumesPerServer.toNat).map fun (i : Nat) =>
          ({ Name := claimName api zone ++ Itoa (Int.ofNat i),
             MountPath := t.Spec.Mountpath ++ Itoa (Int.ofNat i) } : VolumeMount))) :
    ∃ pvc ∈ claimTemplates zone, pvc.Name = m.Name := by
  have hname : claimName api zone = tpl.Name := by simp [claimName, htpl]
  have hidx : ∃ i : Nat, (i : Int) < zone.VolumesPerServer ∧ m.Name = tpl.Name ++ Itoa (Int.ofNat i) := by
    by_cases h1 : zone.VolumesPerServer = 1
    · rw [if_pos h1] at hm
      simp only [List.mem_singleton] at hm
      exact ⟨0, by omega, by rw [hm, hname]; rfl⟩
    · rw [if_neg h1] at hm
      simp only [List.mem_map, List.mem_range] at hm
      obtain ⟨i, hi, rfl⟩ := hm
      exact ⟨i, by omega, by rw [hname]⟩
  obtain ⟨i, hi, hmn⟩ := hidx
  refine ⟨{ tpl with Name := tpl.Name ++ Itoa (Int.ofNat i) }, ?_, hmn.symm⟩
  exact List.get?_mem (claimTemplates_get zone tpl htpl i hi)

/-- C17: for a pool that has a volume claim template and n >= 1 volumes per server, the
StatefulSet built by `NewForMinIOZone` has exactly n volume claim templates, the i-th a copy of the
pool's template named template name + decimal(i), and every volume mount of every container and
init container of the pod template names one of these claim templates or a pod volume of the
template, the projected TLS volume named MinIOTLSSecretName. -/
theorem mounts_backed_by_volumes (api : Miniov1) (t : Tenant) (zone : Zone)
    (serviceName hostsTemplate : String) (ss : StatefulSet) (tpl : PersistentVolumeClaim)
    (htpl : zone.VolumeClaimTemplate = some tpl) (hn : 1 ≤ zone.VolumesPerServer)
    (hss : NewForMinIOZone api t zone serviceName hostsTemplate = some ss) :
    (ss.Spec.VolumeClaimTemplates.length : Int) = zone.VolumesPerServer ∧
    (∀ i : Nat, (i : Int) < zone.VolumesPerServer →
      ss.Spec.VolumeClaimTemplates.get? i
        = some { tpl with Name := tpl.Name ++ Itoa (Int.ofNat i) }) ∧
    (∀ c ∈ ss.Spec.Template.Spec.Containers ++ ss.Spec.Template.Spec.InitContainers,
      ∀ m ∈ c.VolumeMounts,
        (∃ pvc ∈ ss.Spec.VolumeClaimTemplates, pvc.Name = m.Name) ∨
        (∃ v ∈ ss.Spec.Template.Spec.Volumes,
          v.Name = m.Name ∧ v.Name = api.MinIOTLSSecretName t ∧ v.Projected.isSome = true)) := by
  obtain ⟨certs, container, podMeta, -, hk, -, -, hvol, hcs, hinit, -, -, hct, -⟩ :=
    NewForMinIOZone_eq_some api t zone serviceName hostsTemplate ss hss
  obtain ⟨hvm, -, -, -⟩ := zoneMinioServerContainer_eq_some api t zone hostsTemplate container hk
  refine ⟨?_, ?_, ?_⟩
  · rw [hct]
    unfold claimTemplates
    simp only [htpl, List.length_map, List.length_range]
    omega
  · intro i hi
    rw [hct]
    exact claimTemplates_get zone tpl htpl i hi
  · have hmounts : ∀ m ∈ volumeMounts api t zone,
        (∃ pvc ∈ ss.Spec.VolumeClaimTemplates, pvc.Name = m.Name) ∨
        (∃ v ∈ ss.Spec.Template.Spec.Volumes,
          v.Name = m.Name ∧ v.Name = api.MinIOTLSSecretName t ∧ v.Projected.isSome = true) := by
      intro m hm
      rw [volumeMounts_eq, List.mem_append] at hm
      rcases hm with hdata | htls
      · left
        rw [hct]
        exact data_mount_has_claim api t zone tpl htpl hn m hdata
      · right
        unfold tlsMounts at htls
        by_cases hen : (api.AutoCert t || api.ExternalCert t) = true
        · rw [if_pos hen] at htls
          simp only [List.mem_singleton] at htls
          obtain ⟨rest, hv, -⟩ := tlsPodVolumes_enabled api t certs hen
          rw [hvol, hv]
          exact ⟨_, List.mem_singleton.mpr rfl, by rw [htls], rfl, rfl⟩
        · rw [if_neg hen] at htls
          simp at htls
    intro c hc m hm
    rw [hcs, hinit] at hc
    simp only [List.cons_append, List.nil_append, List.mem_cons, List.mem_singleton,
      List.not_mem_nil, or_false] at hc
    rcases hc with rfl | rfl | rfl
    · rw [hvm] at hm
      exact hmounts m hm
    · exact hmounts m hm
    · simp [zoneMinIOInitContainerWaitForDNS] at hm

/-- C17 at a pool of 4 servers with 2 volumes per server, the claim template `data` and
auto-issued TLS: two claim templates `data0` and `data1`, and every mount is backed. -/
theorem mounts_backed_by_volumes_witness :
    ∃ ss,
      NewForMinIOZone stdMiniov1
        (mkTenant [{ mkZone "zone-0" 4 2 with VolumeClaimTemplate := some ⟨"data", none, "1Ti"⟩ }]
          true none none none)
        { mkZone "zone-0" 4 2 with VolumeClaimTemplate := some ⟨"data", none, "1Ti"⟩ }
        "hl" "hl.svc" = some ss ∧
      ss.Spec.VolumeClaimTemplates = [⟨"data0", none, "1Ti"⟩, ⟨"data1", none, "1Ti"⟩] ∧
      (ss.Spec.Template.Spec.Containers.map fun c => c.VolumeMounts.map fun m => m.Name)
        = [["data0", "data1", "tenant1-tls"]] ∧
      ∀ c ∈ ss.Spec.Template.Spec.Containers ++ ss.Spec.Template.Spec.InitContainers,
        ∀ m ∈ c.VolumeMounts,
          (∃ pvc ∈ ss.Spec.VolumeClaimTemplates, pvc.Name = m.Name) ∨
          (∃ v ∈ ss.Spec.Template.Spec.Volumes,
            v.Name = m.Name ∧ v.Name = "tenant1-tls" ∧ v.Projected.isSome = true) := by
  cases hss : NewForMinIOZone stdMiniov1
      (mkTenant [{ mkZone "zone-0" 4 2 with VolumeClaimTemplate := some ⟨"data", none, "1Ti"⟩ }]
        true none none none)
      { mkZone "zone-0" 4 2 with VolumeClaimTemplate := some ⟨"data", none, "1Ti"⟩ }
      "hl" "hl.svc" with
  | none => exact absurd hss (by decide)
  | some ss =>
    have h := mounts_backed_by_volumes stdMiniov1 _ _ "hl" "hl.svc" ss ⟨"data", none, "1Ti"⟩ rfl
      (by decide) hss
    obtain ⟨_, container, _, -, hk, -, -, -, hcs, -, -, -, hct, -⟩ :=
      NewForMinIOZone_eq_some _ _ _ _ _ ss hss
    obtain ⟨hvm, -, -, -⟩ := zoneMinioServerContainer_eq_some _ _ _ _ container hk
    refine ⟨ss, rfl, by rw [hct]; decide, ?_, h.2.2⟩
    rw [hcs]
    simp only [List.map_cons, List.map_nil, hvm]
    decide

/-! ## Totality of `kesStatefulSetMatchesSpec` -/

/-- On a live StatefulSet whose pod template has no container, `Containers[0]` is out of range:
`kesStatefulSetMatchesSpec` panics for every present tenant. -/
theorem kesStatefulSetMatchesSpec_no_containers (pkg : KESPkg) (t : Tenant) (ss : StatefulSet)
    (h : ss.Spec.Template.Spec.Containers = []) :
    kesStatefulSetMatchesSpec pkg (some t) (some ss) = none := by
  simp [kesStatefulSetMatchesSpec, h]

/-- When `kesStatefulSetMatchesSpec` returns on present inputs: exactly when the live StatefulSet
has a first container and the call of `EqualImage` on its image returns. -/
theorem kesStatefulSetMatchesSpec_isSome_iff (pkg : KESPkg) (t : Tenant) (ss : StatefulSet) :
    (kesStatefulSetMatchesSpec pkg (some t) (some ss)).isSome = true ↔
      ∃ c0 rest, ss.Spec.Template.Spec.Containers = c0 :: rest ∧
        (pkg.EqualImage t.Spec.KES c0.Image).isSome = true := by
  cases hc : ss.Spec.Template.Spec.Containers with
  | nil => simp [kesStatefulSetMatchesSpec, hc]
  | cons c0 rest =>
    cases he : pkg.EqualImage t.Spec.KES c0.Image with
    | none => simp [kesStatefulSetMatchesSpec, hc, he]
    | some b =>
      cases b <;>
        cases hd : pkg.DeepDerivative (pkg.NewForKES t (pkg.KESHLServiceName t)).Spec ss.Spec <;>
        simp [kesStatefulSetMatchesSpec, hc, he, hd]

/-- C18: the code at a present tenant with KES configured and a present live StatefulSet whose pod
template has an empty container list (the desired KES StatefulSet with its containers removed):
`kesStatefulSetMatchesSpec` does not return a result, the read of `Containers[0]` is out of
range. -/
theorem kesStatefulSetMatchesSpec_empty_containers_panics :
    (setContainers
        (sampleKESPkg.NewForKES
          (mkTenant [mkZone "zone-0" 4 2] true none none (some ⟨"minio/kes:v1", none⟩))
          "tenant1-kes-hl-svc") []).Spec.Template.Spec.Containers = []
    ∧ kesStatefulSetMatchesSpec sampleKESPkg
        (some (mkTenant [mkZone "zone-0" 4 2] true none none (some ⟨"minio/kes:v1", none⟩)))
        (some (setContainers
          (sampleKESPkg.NewForKES
            (mkTenant [mkZone "zone-0" 4 2] true none none (some ⟨"minio/kes:v1", none⟩))
            "tenant1-kes-hl-svc") []))
      = none := by
  decide

/-! ## Adding a pool -/

/-- The environment returned by `minioEnvironmentVars`: the container arguments were computed,
and their join is the value of MINIO_ENDPOINTS between the fixed leading and trailing variables. -/
theorem minioEnvironmentVars_eq_some (api : Miniov1) (t : Tenant) (hostsTemplate : String)
    (env : List EnvVar) (h : minioEnvironmentVars api t hostsTemplate = some env) :
    ∃ args, GetContainerArgs api t hostsTemplate = some args ∧
      env = envBeforeEndpoints api t ++ endpointsEnvVar args :: envAfterEndpoints api t := by
  unfold minioEnvironmentVars at h
  cases ha : GetContainerArgs api t hostsTemplate with
  | none => simp [ha] at h
  | some args =>
    refine ⟨args, rfl, ?_⟩
    by_cases hcs : api.HasCredsSecret t = true
    · cases hcr : t.Spec.CredsSecret with
      | none => simp [ha, hcs, hcr] at h
      | some creds =>
        by_cases hk : api.HasKESEnabled t = true
        · simp [ha, hcs, hcr, hk] at h
          simp [← h, envBeforeEndpoints, endpointsEnvVar, envAfterEndpoints, hcs, hcr, hk]
        · simp [ha, hcs, hcr, hk] at h
          simp [← h, envBeforeEndpoints, endpointsEnvVar, envAfterEndpoints, hcs, hcr, hk]
    · have hcs2 : api.HasCredsSecret t = false := by simpa using hcs
      by_cases hk : api.HasKESEnabled t = true
      · simp [ha, hcs2, hk] at h
        simp [← h, envBeforeEndpoints, endpointsEnvVar, envAfterEndpoints, hcs2, hk]
      · simp [ha, hcs2, hk] at h
        simp [← h, envBeforeEndpoints, endpointsEnvVar, envAfterEndpoints, hcs2, hk]

/-- Appending a pool changes none of the parts of `NewForMinIOZone` that do not read the
container arguments, when the helper methods agree on the two tenants. -/
theorem addZone_frame (api : Miniov1) (t : Tenant) (newZone zone : Zone)
    (hag : HelpersAgree api t (addZone t newZone) zone) :
    selectCerts api (addZone t newZone) = selectCerts api t ∧
    minioMetadata api (addZone t newZone) zone = minioMetadata api t zone ∧
    volumeMounts api (addZone t newZone) zone = volumeMounts api t zone ∧
    probes api (addZone t newZone) = probes api t ∧
    zoneMinIOInitContainerValidateMounts api (addZone t newZone) zone
      = zoneMinIOInitContainerValidateMounts api t zone ∧
    zoneMinIOInitContainerWaitForDNS api (addZone t newZone) = zoneMinIOInitContainerWaitForDNS api t ∧
    (∀ c, tlsPodVolumes api (addZone t newZone) c = tlsPodVolumes api t c) ∧
    ContainerMatchLabels api (addZone t newZone) zone = ContainerMatchLabels api t zone ∧
    envBeforeEndpoints api (addZone t newZone) = envBeforeEndpoints api t ∧
    envAfterEndpoints api (addZone t newZone) = envAfterEndpoints api t := by
  obtain ⟨h1, h2, h3, h4, h5, h6, h7, h8, h9, h10, h11, h12, h13, h14, -⟩ := hag
  have hvm : volumeMounts api (addZone t newZone) zone = volumeMounts api t zone := by
    simp only [volumeMounts, h4, h5, h11]
    rfl
  refine ⟨?_, ?_, hvm, ?_, ?_, ?_, ?_, ?_, ?_, ?_⟩
  · simp only [selectCerts, externalClientCert, externalKESCert, h4, h5, h6, h7, h11, h12, h13]
    rfl
  · simp only [minioMetadata, h3, h10]
    rfl
  · simp only [probes, h8]
    rfl
  · simp only [zoneMinIOInitContainerValidateMounts, validateMountsScript, hvm, h4, h5]
  · simp only [zoneMinIOInitContainerWaitForDNS, h14]
  · intro c
    simp only [tlsPodVolumes, h4, h5, h2, h11]
  · simp only [ContainerMatchLabels, h10]
  · rfl
  · simp only [envAfterEndpoints, h1, h2, h9]
    rfl

/-- The MinIO container returned by `zoneMinioServerContainer`, field by field. -/
theorem zoneMinioServerContainer_fields (api : Miniov1) (t : Tenant) (zone : Zone)
    (hostsTemplate : String) (container : Container)
    (h : zoneMinioServerContainer api t zone hostsTemplate = some container) :
    ∃ env, minioEnvironmentVars api t hostsTemplate = some env ∧
      container =
        { Name := api.MinIOServerName,
          Image := t.Spec.Image,
          Command := [],
          Args := ["server", "--certs-dir", api.MinIOCertPath],
          Ports := [api.MinIOPort],
          Env := env,
          Resources := zone.Resources,
          VolumeMounts := volumeMounts api t zone,
          LivenessProbe := probes api t,
          ImagePullPolicy := t.Spec.ImagePullPolicy } := by
  unfold zoneMinioServerContainer at h
  cases he : minioEnvironmentVars api t hostsTemplate with
  | none => simp [he] at h
  | some env =>
    simp only [he, Option.some_bind, Option.bind_eq_bind, Option.pure_def, Option.some.injEq] at h
    exact ⟨env, rfl, h.symm⟩

/-- C13 as stated fails: for the tenant with the single pool `zone-0` (4 servers, 2 volumes per
server) the StatefulSet of `zone-0` differs before and after the pool `zone-1` is appended; the
value of MINIO_ENDPOINTS gains the endpoint of the new pool. -/
theorem add_zone_first_pool_counterexample :
    NewForMinIOZone stdMiniov1 (mkTenant [mkZone "zone-0" 4 2] false none none none)
        (mkZone "zone-0" 4 2) "hl" "hl.svc"
      ≠ NewForMinIOZone stdMiniov1
          (addZone (mkTenant [mkZone "zone-0" 4 2] false none none none) (mkZone "zone-1" 4 2))
          (mkZone "zone-0" 4 2) "hl" "hl.svc"
    ∧ (NewForMinIOZone stdMiniov1 (mkTenant [mkZone "zone-0" 4 2] false none none none)
        (mkZone "zone-0" 4 2) "hl" "hl.svc").map
        (fun ss => ss.Spec.Template.Spec.Containers.map fun c =>
          (c.Env.filter fun e => e.Name = "MINIO_ENDPOINTS").map fun e => e.Value)
      = some [["https://tenant1-zone-0-\x7b0...3\x7d.hl.svc/export\x7b0...1\x7d/data"]]
    ∧ (NewForMinIOZone stdMiniov1
          (addZone (mkTenant [mkZone "zone-0" 4 2] false none none none) (mkZone "zone-1" 4 2))
          (mkZone "zone-0" 4 2) "hl" "hl.svc").map
        (fun ss => ss.Spec.Template.Spec.Containers.map fun c =>
          (c.Env.filter fun e => e.Name = "MINIO_ENDPOINTS").map fun e => e.Value)
      = some [["https://tenant1-zone-0-\x7b0...3\x7d.hl.svc/export\x7b0...1\x7d/data"
                ++ " https://tenant1-zone-1-\x7b0...3\x7d.hl.svc/export\x7b0...1\x7d/data"]] := by
  decide

/-- C13, amended: when a new pool is appended to a tenant with exactly one pool, the StatefulSet
that `NewForMinIOZone` generates for the first pool (same service name and hosts template) is the
same before and after except for the value of the variable MINIO_ENDPOINTS of the MinIO container,
which is the join of the container arguments of the whole pool list, before `args` and after
`args'`; every other field, and every other variable of the container environment, is unchanged.
The helper methods of the tenant other than `MinIOEndpoints` and `VolumePathForZone` are taken to
return the same before and after. -/
theorem add_zone_first_pool (api : Miniov1) (t : Tenant) (zone0 newZone : Zone)
    (serviceName hostsTemplate : String) (ss ss' : StatefulSet)
    (_hz : t.Spec.Zones = [zone0])
    (hag : HelpersAgree api t (addZone t newZone) zone0)
    (hss : NewForMinIOZone api t zone0 serviceName hostsTemplate = some ss)
    (hss' : NewForMinIOZone api (addZone t newZone) zone0 serviceName hostsTemplate = some ss') :
    ∃ (args args' : List String) (c : Container),
      GetContainerArgs api t hostsTemplate = some args ∧
      GetContainerArgs api (addZone t newZone) hostsTemplate = some args' ∧
      ss.Spec.Template.Spec.Containers = [c] ∧
      c.Env = envBeforeEndpoints api t ++ endpointsEnvVar args :: envAfterEndpoints api t ∧
      ss' = setContainers ss
        [{ c with Env :=
            envBeforeEndpoints api t ++ endpointsEnvVar args' :: envAfterEndpoints api t }] := by
  obtain ⟨hsel, hmeta, hvm, hpr, hval, hdns, htls, hlab, hbefore, hafter⟩ :=
    addZone_frame api t newZone zone0 hag
  have hname : api.ZoneStatefulsetName (addZone t newZone) zone0 = api.ZoneStatefulsetName t zone0 :=
    hag.2.2.2.2.2.2.2.2.2.2.2.2.2.2
  unfold NewForMinIOZone at hss hss'
  rw [hsel, hmeta, hval, hdns, hlab, hname] at hss'
  cases hc : selectCerts api t with
  | none => simp [hc] at hss
  | some certs =>
    cases hk : zoneMinioServerContainer api t zone0 hostsTemplate with
    | none => simp [hc, hk] at hss
    | some c =>
      cases hk' : zoneMinioServerContainer api (addZone t newZone) zone0 hostsTemplate with
      | none => simp [hc, hk'] at hss'
      | some c' =>
        cases hm : minioMetadata api t zone0 with
        | none => simp [hc, hk, hm] at hss
        | some podMeta =>
          simp only [hc, hk, hm, Option.some_bind, Option.bind_eq_bind, Option.pure_def,
            Option.some.injEq] at hss
          simp only [hc, hk', hm, htls, Option.some_bind, Option.bind_eq_bind, Option.pure_def,
            Option.some.injEq] at hss'
          obtain ⟨env, he, hceq⟩ := zoneMinioServerContainer_fields api t zone0 hostsTemplate c hk
          obtain ⟨env', he', hceq'⟩ :=
            zoneMinioServerContainer_fields api (addZone t newZone) zone0 hostsTemplate c' hk'
          obtain ⟨args, ha, henv⟩ := minioEnvironmentVars_eq_some api t hostsTemplate env he
          obtain ⟨args', ha', henv'⟩ :=
            minioEnvironmentVars_eq_some api (addZone t newZone) hostsTemplate env' he'
          rw [hbefore, hafter] at henv'
          rw [hvm, hpr] at hceq'
          refine ⟨args, args', c, ha, ha', ?_, ?_, ?_⟩
          · rw [← hss]
          · rw [hceq]; exact henv
          · rw [← hss', ← hss, hceq', hceq, henv']
            rfl

/-- C13, amended, at the tenant with the single pool `zone-0` and the new pool `zone-1`: both
StatefulSets are generated, and the second is the first with MINIO_ENDPOINTS set to the join of
the two container arguments of the two pools. -/
theorem add_zone_first_pool_witness :
    ∃ (ss ss' : StatefulSet) (c : Container) (args' : List String),
      NewForMinIOZone stdMiniov1 (mkTenant [mkZone "zone-0" 4 2] false none none none)
        (mkZone "zone-0" 4 2) "hl" "hl.svc" = some ss ∧
      NewForMinIOZone stdMiniov1
        (addZone (mkTenant [mkZone "zone-0" 4 2] false none none none) (mkZone "zone-1" 4 2))
        (mkZone "zone-0" 4 2) "hl" "hl.svc" = some ss' ∧
      GetContainerArgs stdMiniov1
        (addZone (mkTenant [mkZone "zone-0" 4 2] false none none none) (mkZone "zone-1" 4 2))
        "hl.svc" = some args' ∧
      args'.length = 2 ∧
      ss.Spec.Template.Spec.Containers = [c] ∧
      ss' = setContainers ss
        [{ c with Env :=
            envBeforeEndpoints stdMiniov1 (mkTenant [mkZone "zone-0" 4 2] false none none none)
              ++ endpointsEnvVar args'
              :: envAfterEndpoints stdMiniov1
                    (mkTenant [mkZone "zone-0" 4 2] false none none none) }] := by
  cases hss : NewForMinIOZone stdMiniov1 (mkTenant [mkZone "zone-0" 4 2] false none none none)
      (mkZone "zone-0" 4 2) "hl" "hl.svc" with
  | none => exact absurd hss (by decide)
  | some ss =>
    cases hss' : NewForMinIOZone stdMiniov1
        (addZone (mkTenant [mkZone "zone-0" 4 2] false none none none) (mkZone "zone-1" 4 2))
        (mkZone "zone-0" 4 2) "hl" "hl.svc" with
    | none => exact absurd hss' (by decide)
    | some ss' =>
      obtain ⟨args, args', c, -, ha', hc, -, heq⟩ :=
        add_zone_first_pool stdMiniov1 (mkTenant [mkZone "zone-0" 4 2] false none none none)
          (mkZone "zone-0" 4 2) (mkZone "zone-1" 4 2) "hl" "hl.svc" ss ss' rfl
          ⟨rfl, rfl, rfl, rfl, rfl, rfl, rfl, rfl, rfl, rfl, rfl, rfl, rfl, rfl, rfl⟩ hss hss'
      have hlen : (GetContainerArgs stdMiniov1
          (addZone (mkTenant [mkZone "zone-0" 4 2] false none none none) (mkZone "zone-1" 4 2))
          "hl.svc").map List.length = some 2 := by decide
      rw [ha'] at hlen
      exact ⟨ss, ss', c, args', rfl, rfl, ha', by simpa using hlen, hc, heq⟩

/-! ## Properties of `createKESCSR` -/

/-- C15: `createKESCSR` runs key/CSR generation, CSR submission, certificate fetch and secret
creation in this order and stops at the first step that returns an error, which it returns
itself: the log of the calls made is one of the seven listed below, each a beginning of the full
sequence in which only the last call can have failed. The secret is created only after the CSR was
submitted and the certificate was fetched, from the PEM encoding of the private key generated in
this call and the fetched certificate, and the returned error is nil exactly when all five calls
of the four steps were made and succeeded. The tenant has certificate settings (`CertConfig`),
which the CSR template reads. -/
theorem createKESCSR_fail_fast {σ : Type} (pkg : KESCSRPkg σ) (t : Tenant) (s : σ)
    (cfg : CertificateConfig) (hcfg : t.Spec.CertConfig = some cfg) :
    ∃ (err : Option String) (s' : σ) (log : List KESEvent),
      createKESCSR (traced pkg) t (s, []) = some (err, (s', log)) ∧
      (err = none ↔ log.length = 5 ∧ ∀ e ∈ log, e.succeeded = true) ∧
      ((∃ e, err = some e ∧ log = [KESEvent.newPrivateKey (Except.error e)]) ∨
       (∃ key e, err = some e ∧ pkg.MarshalPKCS8PrivateKey key = Except.error e ∧
          log = [KESEvent.newPrivateKey (Except.ok key)]) ∨
       (∃ key tpl e, err = some e ∧
          log = [KESEvent.newPrivateKey (Except.ok key),
                 KESEvent.CreateCertificateRequest tpl key (Except.error e)]) ∨
       (∃ key tpl csr e, err = some e ∧
          log = [KESEvent.newPrivateKey (Except.ok key),
                 KESEvent.CreateCertificateRequest tpl key (Except.ok csr),
                 KESEvent.createCertificateSigningRequest (pkg.KESCSRName t) csr (some e)]) ∨
       (∃ key tpl csr e, err = some e ∧
          log = [KESEvent.newPrivateKey (Except.ok key),
                 KESEvent.CreateCertificateRequest tpl key (Except.ok csr),
                 KESEvent.createCertificateSigningRequest (pkg.KESCSRName t) csr none,
                 KESEvent.fetchCertificate (pkg.KESCSRName t) (Except.error e)]) ∨
       (∃ key tpl csr priv cert e, err = some e ∧
          pkg.MarshalPKCS8PrivateKey key = Except.ok priv ∧
          log = [KESEvent.newPrivateKey (Except.ok key),
                 KESEvent.CreateCertificateRequest tpl key (Except.ok csr),
                 KESEvent.createCertificateSigningRequest (pkg.KESCSRName t) csr none,
                 KESEvent.fetchCertificate (pkg.KESCSRName t) (Except.ok cert),
                 KESEvent.createSecret (pkg.KESTLSSecretName t)
                   (pkg.EncodeToMemory pkg.privateKeyType priv) cert (some e)]) ∨
       (∃ key tpl csr priv cert, err = none ∧
          pkg.MarshalPKCS8PrivateKey key = Except.ok priv ∧
          log = [KESEvent.newPrivateKey (Except.ok key),
                 KESEvent.CreateCertificateRequest tpl key (Except.ok csr),
                 KESEvent.createCertificateSigningRequest (pkg.KESCSRName t) csr none,
                 KESEvent.fetchCertificate (pkg.KESCSRName t) (Except.ok cert),
                 KESEvent.createSecret (pkg.KESTLSSecretName t)
                   (pkg.EncodeToMemory pkg.privateKeyType priv) cert none])) := by
  unfold createKESCSR generateKESCryptoData
  simp only [traced, hcfg, List.nil_append]
  rcases h1 : pkg.newPrivateKey pkg.DefaultEllipticCurve s with ⟨r1, s1⟩
  rcases r1 with e | key
  · exact ⟨some e, s1, _, rfl, by simp [KESEvent.succeeded], Or.inl ⟨e, rfl, rfl⟩⟩
  · simp only []
    rcases h2 : pkg.MarshalPKCS8PrivateKey key with e | priv
    · exact ⟨some e, s1, _, rfl, by simp [KESEvent.succeeded], Or.inr (Or.inl ⟨key, e, rfl, h2, rfl⟩)⟩
    · simp only []
      rcases h3 : pkg.CreateCertificateRequest
          { CommonName := "system:node:" ++ pkg.KESWildCardName t,
            Organization := cfg.OrganizationName,
            SignatureAlgorithm := "ECDSA-SHA512",
            DNSNames := pkg.KESHosts t,
            Extensions := (pkg.KESHosts t).map fun host => { Critical := false, Value := host } }
          key s1 with ⟨r3, s2⟩
      rcases r3 with e | csr
      · exact ⟨some e, s2, _, rfl, by simp [KESEvent.succeeded],
          Or.inr (Or.inr (Or.inl ⟨key, _, e, rfl, rfl⟩))⟩
      · simp only []
        rcases h4 : pkg.createCertificateSigningRequest (pkg.KESPodLabels t) (pkg.KESCSRName t)
            t.Namespace csr t "server" s2 with ⟨r4, s3⟩
        rcases r4 with _ | e
        · simp only []
          rcases h5 : pkg.fetchCertificate (pkg.KESCSRName t) s3 with ⟨r5, s4⟩
          rcases r5 with e | cert
          · exact ⟨some e, s4, _, rfl, by simp [KESEvent.succeeded],
              Or.inr (Or.inr (Or.inr (Or.inr (Or.inl ⟨key, _, csr, e, rfl, rfl⟩))))⟩
          · simp only []
            rcases h6 : pkg.createSecret t (pkg.KESPodLabels t) (pkg.KESTLSSecretName t)
                (pkg.EncodeToMemory pkg.privateKeyType priv) cert s4 with ⟨r6, s5⟩
            rcases r6 with _ | e
            · exact ⟨none, s5, _, rfl, by simp [KESEvent.succeeded],
                Or.inr (Or.inr (Or.inr (Or.inr (Or.inr (Or.inr
                  ⟨key, _, csr, priv, cert, rfl, h2, rfl⟩)))))⟩
            · exact ⟨some e, s5, _, rfl, by simp [KESEvent.succeeded],
                Or.inr (Or.inr (Or.inr (Or.inr (Or.inr (Or.inl
                  ⟨key, _, csr, priv, cert, e, rfl, h2, rfl⟩)))))⟩
        · exact ⟨some e, s3, _, rfl, by simp [KESEvent.succeeded],
            Or.inr (Or.inr (Or.inr (Or.inl ⟨key, _, csr, e, rfl, rfl⟩)))⟩

/-- C15 at a tenant whose CSR is not approved: the key and the CSR are generated, the CSR is
submitted, the fetch of the certificate fails, its error is returned and no secret is created;
when the CSR is approved the secret is created last and nil is returned. -/
theorem createKESCSR_fail_fast_witness :
    createKESCSR (traced (sampleKESCSRPkg false))
        (mkCertTenant [mkZone "zone-0" 4 2] (some ⟨"minio/kes:v1", none⟩) ⟨"", ["Acme"], []⟩)
        ([], [])
      = some (some "certificate signing request is not approved",
          (["csr/tenant1-kes-csr"],
           [KESEvent.newPrivateKey (Except.ok ⟨[4, 2]⟩),
            KESEvent.CreateCertificateRequest
              ⟨"system:node:*.tenant1-kes-hl-svc", ["Acme"], "ECDSA-SHA512",
                ["tenant1-kes-0.tenant1-kes-hl-svc"],
                [⟨false, "tenant1-kes-0.tenant1-kes-hl-svc"⟩]⟩
              ⟨[4, 2]⟩ (Except.ok [1, 4, 2]),
            KESEvent.createCertificateSigningRequest "tenant1-kes-csr" [1, 4, 2] none,
            KESEvent.fetchCertificate "tenant1-kes-csr"
              (Except.error "certificate signing request is not approved")]))
    ∧ (createKESCSR (sampleKESCSRPkg true)
        (mkCertTenant [mkZone "zone-0" 4 2] (some ⟨"minio/kes:v1", none⟩) ⟨"", ["Acme"], []⟩) [])
      = some (none, ["csr/tenant1-kes-csr", "secret/tenant1-kes-tls"])
    ∧ ∃ (err : Option String) (s' : List String) (log : List KESEvent),
        createKESCSR (traced (sampleKESCSRPkg true))
          (mkCertTenant [mkZone "zone-0" 4 2] (some ⟨"minio/kes:v1", none⟩) ⟨"", ["Acme"], []⟩)
          ([], []) = some (err, (s', log)) ∧
        (err = none ↔ log.length = 5 ∧ ∀ e ∈ log, e.succeeded = true) := by
  refine ⟨rfl, rfl, ?_⟩
  obtain ⟨err, s', log, h, hiff, -⟩ :=
    createKESCSR_fail_fast (sampleKESCSRPkg true)
      (mkCertTenant [mkZone "zone-0" 4 2] (some ⟨"minio/kes:v1", none⟩) ⟨"", ["Acme"], []⟩)
      [] ⟨"", ["Acme"], []⟩ rfl
  exact ⟨err, s', log, h, hiff⟩

/-! ## Properties of `EnsureDefaults` -/

/-- The instance returned by `EnsureDefaults`, field by field. -/
theorem EnsureDefaults_fields (k : Constants) (mi : MinIOInstance) :
    (EnsureDefaults k mi).Name = mi.Name ∧
    (EnsureDefaults k mi).Namespace = mi.Namespace ∧
    (EnsureDefaults k mi).Spec.Image
      = (if mi.Spec.Image = "" then k.DefaultMinIOImage else mi.Spec.Image) ∧
    (EnsureDefaults k mi).Spec.Mountpath
      = (if mi.Spec.Mountpath = "" then k.MinIOVolumeMountPath else mi.Spec.Mountpath) ∧
    (EnsureDefaults k mi).Spec.Subpath
      = (if mi.Spec.Subpath = "" then k.MinIOVolumeSubPath else mi.Spec.Subpath) ∧
    (EnsureDefaults k mi).Spec.RequestAutoCert = mi.Spec.RequestAutoCert ∧
    (mi.Spec.RequestAutoCert = false →
      (EnsureDefaults k mi).Spec.CertConfig = mi.Spec.CertConfig) ∧
    (∀ cfg, mi.Spec.CertConfig = some cfg → (EnsureDefaults k mi).Spec.CertConfig = some cfg) ∧
    (mi.Spec.RequestAutoCert = true → (EnsureDefaults k mi).Spec.CertConfig.isSome = true) := by
  rcases mi with ⟨name, ns, ⟨img, mp, sp, auto, cc⟩⟩
  by_cases h1 : img = "" <;> by_cases h2 : mp = "" <;> by_cases h3 : sp = "" <;>
    cases auto <;> cases cc <;>
    simp [EnsureDefaults, RequiresAutoCertSetup, h1, h2, h3]

/-- Applying `EnsureDefaults` a second time changes nothing. -/
theorem EnsureDefaults_idem (k : Constants) (mi : MinIOInstance) :
    EnsureDefaults k (EnsureDefaults k mi) = EnsureDefaults k mi := by
  rcases mi with ⟨name, ns, ⟨img, mp, sp, auto, cc⟩⟩
  by_cases h1 : img = "" <;> by_cases h2 : mp = "" <;> by_cases h3 : sp = "" <;>
    cases auto <;> cases cc <;>
    simp [EnsureDefaults, RequiresAutoCertSetup, h1, h2, h3]

/-- The test `TestEnsureDefaults` holds of `EnsureDefaults`, for all constants: the defaults are
set on the zero instance, the certificate settings appear once the auto-certificate is requested
and survive another call, and an image that is set is kept. -/
theorem TestEnsureDefaults (k : Constants) :
    (EnsureDefaults k emptyMinIOInstance).Spec.Image = k.DefaultMinIOImage ∧
    (EnsureDefaults k emptyMinIOInstance).Spec.Mountpath = k.MinIOVolumeMountPath ∧
    (EnsureDefaults k emptyMinIOInstance).Spec.Subpath = k.MinIOVolumeSubPath ∧
    RequiresAutoCertSetup (EnsureDefaults k emptyMinIOInstance) = false ∧
    (∀ mi : MinIOInstance, mi.Spec.RequestAutoCert = true → mi.Spec.CertConfig = none →
      RequiresAutoCertSetup mi = true ∧ HasCertConfig mi = false ∧
      HasCertConfig (EnsureDefaults k mi) = true ∧
      (EnsureDefaults k (EnsureDefaults k mi)).Spec.CertConfig
        = (EnsureDefaults k mi).Spec.CertConfig) ∧
    (∀ mi : MinIOInstance,
      (EnsureDefaults k
        { mi with Spec := { mi.Spec with Image := "minio/minio:latest" } }).Spec.Image
        = "minio/minio:latest") := by
  refine ⟨?_, ?_, ?_, ?_, ?_, ?_⟩
  · simp [EnsureDefaults, emptyMinIOInstance, RequiresAutoCertSetup]
  · simp [EnsureDefaults, emptyMinIOInstance, RequiresAutoCertSetup]
  · simp [EnsureDefaults, emptyMinIOInstance, RequiresAutoCertSetup]
  · simp [EnsureDefaults, emptyMinIOInstance, RequiresAutoCertSetup]
  · intro mi hauto hcc
    refine ⟨hauto, by simp [HasCertConfig, hcc], ?_, by rw [EnsureDefaults_idem]⟩
    exact (EnsureDefaults_fields k mi).2.2.2.2.2.2.2.2 hauto
  · intro mi
    have h := (EnsureDefaults_fields k
      { mi with Spec := { mi.Spec with Image := "minio/minio:latest" } }).2.2.1
    rw [h]
    simp

/-- C16: `EnsureDefaults` is idempotent and never overrides what is already set: a second call
leaves the instance as the first call returned it; the certificate settings created by the first
call when the auto-certificate is requested are there after the second call unchanged; an image,
mount path, sub path or certificate settings already set are not replaced by a default. -/
theorem EnsureDefaults_idempotent (k : Constants) (mi : MinIOInstance) :
    EnsureDefaults k (EnsureDefaults k mi) = EnsureDefaults k mi ∧
    (mi.Spec.RequestAutoCert = true →
      ∃ cfg, (EnsureDefaults k mi).Spec.CertConfig = some cfg ∧
        (EnsureDefaults k (EnsureDefaults k mi)).Spec.CertConfig = some cfg) ∧
    (mi.Spec.Image ≠ "" → (EnsureDefaults k mi).Spec.Image = mi.Spec.Image) ∧
    (mi.Spec.Mountpath ≠ "" → (EnsureDefaults k mi).Spec.Mountpath = mi.Spec.Mountpath) ∧
    (mi.Spec.Subpath ≠ "" → (EnsureDefaults k mi).Spec.Subpath = mi.Spec.Subpath) ∧
    (∀ cfg, mi.Spec.CertConfig = some cfg → (EnsureDefaults k mi).Spec.CertConfig = some cfg) := by
  obtain ⟨-, -, himg, hmp, hsp, -, -, hkeep, hsome⟩ := EnsureDefaults_fields k mi
  refine ⟨EnsureDefaults_idem k mi, ?_, ?_, ?_, ?_, hkeep⟩
  · intro hauto
    obtain ⟨cfg, hcfg⟩ := Option.isSome_iff_exists.mp (hsome hauto)
    exact ⟨cfg, hcfg, by rw [EnsureDefaults_idem, hcfg]⟩
  · intro h; rw [himg, if_neg h]
  · intro h; rw [hmp, if_neg h]
  · intro h; rw [hsp, if_neg h]

/-- C16 at an instance that requests the auto-certificate and sets its own image: the image is
kept, the certificate settings are created once and kept by the second call. -/
theorem EnsureDefaults_idempotent_witness :
    EnsureDefaults sampleConstants
        { emptyMinIOInstance with
          Name := "minio1",
          Spec := { emptyMinIOInstance.Spec with
                    Image := "minio/minio:latest", RequestAutoCert := true } }
      = { Name := "minio1", Namespace := "",
          Spec := { Image := "minio/minio:latest", Mountpath := "/export", Subpath := "",
                    RequestAutoCert := true,
                    CertConfig := some ⟨"*.minio1.svc", ["Acme Co"], []⟩ } }
    ∧ EnsureDefaults sampleConstants
        (EnsureDefaults sampleConstants
          { emptyMinIOInstance with
            Name := "minio1",
            Spec := { emptyMinIOInstance.Spec with
                      Image := "minio/minio:latest", RequestAutoCert := true } })
      = EnsureDefaults sampleConstants
          { emptyMinIOInstance with
            Name := "minio1",
            Spec := { emptyMinIOInstance.Spec with
                      Image := "minio/minio:latest", RequestAutoCert := true } } :=
  ⟨by decide,
   (EnsureDefaults_idempotent sampleConstants
      { emptyMinIOInstance with
        Name := "minio1",
        Spec := { emptyMinIOInstance.Spec with
                  Image := "minio/minio:latest", RequestAutoCert := true } }).1⟩

/-! ## Properties of the comparison `DeepDerivative` -/

/-- A string is a derivative of itself. -/
theorem deriveString_self (a : String) : deriveString a a = true := by
  simp [deriveString]

/-- A string is a derivative of itself populated. -/
theorem deriveString_populate (a b : String) : deriveString a (populateString a b) = true := by
  by_cases h : a = "" <;> simp [deriveString, populateString, h]

/-- A value compared by equality is a derivative of itself. -/
theorem deriveEq_self {α : Type} [DecidableEq α] (a : α) : deriveEq a a = true := by
  simp [deriveEq]

/-- A value compared by equality is a derivative of itself populated. -/
theorem deriveEq_populate {α : Type} [DecidableEq α] (a b : α) :
    deriveEq a (populateKeep a b) = true := by
  simp [deriveEq, populateKeep]

/-- A storage request is a derivative of itself, a quantity being equal to itself. -/
theorem deriveStorage_self {qe : String → String → Bool} (hqe : ∀ q, qe q q = true) (a : String) :
    deriveStorage qe a a = true := by
  by_cases h : a = "" <;> simp [deriveStorage, h, hqe]

/-- A storage request is a derivative of itself populated. -/
theorem deriveStorage_populate {qe : String → String → Bool} (hqe : ∀ q, qe q q = true)
    (a b : String) : deriveStorage qe a (populateString a b) = true := by
  by_cases h : a = "" <;> simp [deriveStorage, populateString, h, hqe]

/-- A pointer is a derivative of itself. -/
theorem deriveOption_self {α : Type} {f : α → α → Option Bool} (hr : ∀ x, f x x = some true)
    (a : Option α) : deriveOption f a a = some true := by
  cases a with
  | none => rfl
  | some x => exact hr x

/-- A pointer is a derivative of itself populated. -/
theorem deriveOption_populate {α : Type} {f : α → α → Option Bool} {g : α → α → α}
    (hp : ∀ x y, f x (g x y) = some true) (hr : ∀ x, f x x = some true) (a b : Option α) :
    deriveOption f a (populateOption g a b) = some true := by
  cases a with
  | none => rfl
  | some x =>
    cases b with
    | none => exact hr x
    | some y => exact hp x y

/-- Populating a slice does not shorten it. -/
theorem populateSlice_length {α : Type} (g : α → α → α) (a b : List α) :
    a.length ≤ (populateSlice g a b).length := by
  induction a generalizing b with
  | nil => simp
  | cons x xs ih =>
    cases b with
    | nil => simp [populateSlice]
    | cons y ys => simp [populateSlice, ih ys]

/-- The elements of a slice are derivatives of themselves, index by index. -/
theorem allOf_zipWith_self {α : Type} {f : α → α → Option Bool} (hr : ∀ x, f x x = some true)
    (a : List α) : allOf (List.zipWith f a a) = some true := by
  induction a with
  | nil => rfl
  | cons x xs ih => simp only [List.zipWith_cons_cons, hr x, allOf, ih]

/-- The elements of a slice are derivatives of the elements of the slice populated. -/
theorem allOf_zipWith_populate {α : Type} {f : α → α → Option Bool} {g : α → α → α}
    (hp : ∀ x y, f x (g x y) = some true) (hr : ∀ x, f x x = some true) (a b : List α) :
    allOf (List.zipWith f a (populateSlice g a b)) = some true := by
  induction a generalizing b with
  | nil => rfl
  | cons x xs ih =>
    cases b with
    | nil => simp only [populateSlice, List.zipWith_cons_cons, hr x, allOf, allOf_zipWith_self hr xs]
    | cons y ys => simp only [populateSlice, List.zipWith_cons_cons, hp x y, allOf, ih ys]

/-- A slice is a derivative of itself. -/
theorem deriveSlice_self {α : Type} {f : α → α → Option Bool} (hr : ∀ x, f x x = some true)
    (a : List α) : deriveSlice f a a = some true := by
  unfold deriveSlice
  rw [allOf_zipWith_self hr a]
  simp

/-- A slice is a derivative of itself populated. -/
theorem deriveSlice_populate {α : Type} {f : α → α → Option Bool} {g : α → α → α}
    (hp : ∀ x y, f x (g x y) = some true) (hr : ∀ x, f x x = some true) (a b : List α) :
    deriveSlice f a (populateSlice g a b) = some true := by
  unfold deriveSlice
  rw [allOf_zipWith_populate hp hr a b, if_neg (Nat.not_lt.mpr (populateSlice_length g a b))]
  simp

/-- A map is a derivative of itself. -/
theorem deriveMap_self {f : String → String → Bool} (hr : ∀ x, f x x = true)
    (a : List (String × String)) : deriveMap f a a = some true := by
  unfold deriveMap
  have h1 : (a.all fun kv => a.any fun kv' => decide (kv'.1 = kv.1)) = true := by
    simp only [List.all_eq_true, List.any_eq_true, decide_eq_true_eq]
    exact fun kv hkv => ⟨kv, hkv, rfl⟩
  have h2 : (a.all fun kv => a.any fun kv' => decide (kv'.1 = kv.1) && f kv.2 kv'.2) = true := by
    simp only [List.all_eq_true, List.any_eq_true, Bool.and_eq_true, decide_eq_true_eq]
    exact fun kv hkv => ⟨kv, hkv, rfl, hr kv.2⟩
  simp [h1, h2]

/-- A map is a derivative of itself populated. -/
theorem deriveMap_populate {f : String → String → Bool} (hr : ∀ x, f x x = true)
    (a b : List (String × String)) : deriveMap f a (populateMap a b) = some true := by
  by_cases h : a.isEmpty = true
  · simp [deriveMap, h]
  · simp only [populateMap, h]
    exact deriveMap_self hr a

/-- A `KeyToPath` is a derivative of itself. -/
theorem KeyToPath_derive_self (a : KeyToPath) : a.derive a = some true := by
  simp [KeyToPath.derive, allOf, deriveString_self]

/-- A `KeyToPath` is a derivative of itself populated. -/
theorem KeyToPath_derive_populate (a b : KeyToPath) : a.derive (a.populate b) = some true := by
  simp [KeyToPath.derive, KeyToPath.populate, allOf, deriveString_populate]

/-- A `SecretProjection` is a derivative of itself. -/
theorem SecretProjection_derive_self (a : SecretProjection) : a.derive a = some true := by
  simp [SecretProjection.derive, allOf, deriveString_self, deriveSlice_self KeyToPath_derive_self]

/-- A `SecretProjection` is a derivative of itself populated. -/
theorem SecretProjection_derive_populate (a b : SecretProjection) :
    a.derive (a.populate b) = some true := by
  simp [SecretProjection.derive, SecretProjection.populate, allOf, deriveString_populate,
    deriveSlice_populate KeyToPath_derive_populate KeyToPath_derive_self]

/-- A `VolumeProjection` is a derivative of itself. -/
theorem VolumeProjection_derive_self (a : VolumeProjection) : a.derive a = some true := by
  simp [VolumeProjection.derive, deriveOption_self SecretProjection_derive_self]

/-- A `VolumeProjection` is a derivative of itself populated. -/
theorem VolumeProjection_derive_populate (a b : VolumeProjection) :
    a.derive (a.populate b) = some true := by
  simp [VolumeProjection.derive, VolumeProjection.populate,
    deriveOption_populate SecretProjection_derive_populate SecretProjection_derive_self]

/-- A `Volume` is a derivative of itself. -/
theorem Volume_derive_self (a : Volume) : a.derive a = some true := by
  simp [Volume.derive, allOf, deriveString_self,
    deriveOption_self (deriveSlice_self VolumeProjection_derive_self)]

/-- A `Volume` is a derivative of itself populated. -/
theorem Volume_derive_populate (a b : Volume) : a.derive (a.populate b) = some true := by
  simp [Volume.derive, Volume.populate, allOf, deriveString_populate,
    deriveOption_populate
      (deriveSlice_populate VolumeProjection_derive_populate VolumeProjection_derive_self)
      (deriveSlice_self VolumeProjection_derive_self)]

/-- A `VolumeMount` is a derivative of itself. -/
theorem VolumeMount_derive_self (a : VolumeMount) : a.derive a = some true := by
  simp [VolumeMount.derive, allOf, deriveString_self]

/-- A `VolumeMount` is a derivative of itself populated. -/
theorem VolumeMount_derive_populate (a b : VolumeMount) :
    a.derive (a.populate b) = some true := by
  simp [VolumeMount.derive, VolumeMount.populate, allOf, deriveString_populate]

/-- A `SecretKeySelector` is a derivative of itself. -/
theorem SecretKeySelector_derive_self (a : SecretKeySelector) : a.derive a = some true := by
  simp [SecretKeySelector.derive, allOf, deriveString_self]

/-- A `SecretKeySelector` is a derivative of itself populated. -/
theorem SecretKeySelector_derive_populate (a b : SecretKeySelector) :
    a.derive (a.populate b) = some true := by
  simp [SecretKeySelector.derive, SecretKeySelector.populate, allOf, deriveString_populate]

/-- An `EnvVar` is a derivative of itself. -/
theorem EnvVar_derive_self (a : EnvVar) : a.derive a = some true := by
  simp [EnvVar.derive, allOf, deriveString_self, deriveOption_self SecretKeySelector_derive_self]

/-- An `EnvVar` is a derivative of itself populated. -/
theorem EnvVar_derive_populate (a b : EnvVar) : a.derive (a.populate b) = some true := by
  simp [EnvVar.derive, EnvVar.populate, allOf, deriveString_populate,
    deriveOption_populate SecretKeySelector_derive_populate SecretKeySelector_derive_self]

/-- An `HTTPGetAction` is a derivative of itself. -/
theorem HTTPGetAction_derive_self (a : HTTPGetAction) : a.derive a = some true := by
  simp [HTTPGetAction.derive, allOf, deriveString_self, deriveEq_self]

/-- An `HTTPGetAction` is a derivative of itself populated. -/
theorem HTTPGetAction_derive_populate (a b : HTTPGetAction) :
    a.derive (a.populate b) = some true := by
  simp [HTTPGetAction.derive, HTTPGetAction.populate, allOf, deriveString_populate, deriveEq_self]

/-- A `Probe` is a derivative of itself. -/
theorem Probe_derive_self (a : Probe) : a.derive a = some true := by
  simp [Probe.derive, allOf, deriveEq_self, deriveOption_self HTTPGetAction_derive_self]

/-- A `Probe` is a derivative of itself populated. -/
theorem Probe_derive_populate (a b : Probe) : a.derive (a.populate b) = some true := by
  simp [Probe.derive, Probe.populate, allOf, deriveEq_self,
    deriveOption_populate HTTPGetAction_derive_populate HTTPGetAction_derive_self]

/-- A `ResourceRequirements` is a derivative of itself, a quantity being equal to itself. -/
theorem ResourceRequirements_derive_self {qe : String → String → Bool} (hqe : ∀ q, qe q q = true)
    (a : ResourceRequirements) : a.derive qe a = some true := by
  simp [ResourceRequirements.derive, allOf, deriveMap_self hqe]

/-- A `ResourceRequirements` is a derivative of itself populated. -/
theorem ResourceRequirements_derive_populate {qe : String → String → Bool}
    (hqe : ∀ q, qe q q = true) (a b : ResourceRequirements) :
    a.derive qe (a.populate b) = some true := by
  simp [ResourceRequirements.derive, ResourceRequirements.populate, allOf,
    deriveMap_populate hqe]

/-- An `Affinity` is a derivative of itself. -/
theorem Affinity_derive_self (a : Affinity) : a.derive a = some true := by
  simp [Affinity.derive, deriveEq_self]

/-- A `Toleration` is a derivative of itself. -/
theorem Toleration_derive_self (a : Toleration) : a.derive a = some true := by
  simp [Toleration.derive, allOf, deriveString_self]

/-- A `Toleration` is a derivative of itself populated. -/
theorem Toleration_derive_populate (a b : Toleration) : a.derive (a.populate b) = some true := by
  simp [Toleration.derive, Toleration.populate, allOf, deriveString_populate]

/-- A number or a boolean behind a pointer is a derivative of itself. -/
theorem deriveOption_eq_self {α : Type} [DecidableEq α] (a : Option α) :
    deriveOption (fun x y => some (deriveEq x y)) a a = some true :=
  deriveOption_self (fun x => by simp [deriveEq_self]) a

/-- A number or a boolean behind a pointer is a derivative of itself populated. -/
theorem deriveOption_eq_populate {α : Type} [DecidableEq α] (a b : Option α) :
    deriveOption (fun x y => some (deriveEq x y)) a (populateOption populateKeep a b)
      = some true :=
  deriveOption_populate (fun x y => by simp [deriveEq_populate]) (fun x => by simp [deriveEq_self])
    a b

/-- A `PodSecurityContext` is a derivative of itself. -/
theorem PodSecurityContext_derive_self (a : PodSecurityContext) : a.derive a = some true := by
  simp [PodSecurityContext.derive, allOf, deriveOption_eq_self]

/-- A `PodSecurityContext` is a derivative of itself populated. -/
theorem PodSecurityContext_derive_populate (a b : PodSecurityContext) :
    a.derive (a.populate b) = some true := by
  simp [PodSecurityContext.derive, PodSecurityContext.populate, allOf, deriveOption_eq_populate]

/-- A `LocalObjectReference` is a derivative of itself. -/
theorem LocalObjectReference_derive_self (a : LocalObjectReference) :
    a.derive a = some true := by
  simp [LocalObjectReference.derive, deriveString_self]

/-- A `LocalObjectReference` is a derivative of itself populated. -/
theorem LocalObjectReference_derive_populate (a b : LocalObjectReference) :
    a.derive (a.populate b) = some true := by
  simp [LocalObjectReference.derive, LocalObjectReference.populate, deriveString_populate]

/-- A slice of strings is a derivative of itself. -/
theorem deriveSlice_string_self (a : List String) :
    deriveSlice (fun x y => some (deriveString x y)) a a = some true :=
  deriveSlice_self (fun x => by simp [deriveString_self]) a

/-- A slice of strings is a derivative of itself populated. -/
theorem deriveSlice_string_populate (a b : List String) :
    deriveSlice (fun x y => some (deriveString x y)) a (populateSlice populateString a b)
      = some true :=
  deriveSlice_populate (fun x y => by simp [deriveString_populate])
    (fun x => by simp [deriveString_self]) a b

/-- A slice of numbers is a derivative of itself. -/
theorem deriveSlice_eq_self {α : Type} [DecidableEq α] (a : List α) :
    deriveSlice (fun x y => some (deriveEq x y)) a a = some true :=
  deriveSlice_self (fun x => by simp [deriveEq_self]) a

/-- A slice of numbers is a derivative of itself populated. -/
theorem deriveSlice_eq_populate {α : Type} [DecidableEq α] (a b : List α) :
    deriveSlice (fun x y => some (deriveEq x y)) a (populateSlice populateKeep a b)
      = some true :=
  deriveSlice_populate (fun x y => by simp [deriveEq_populate]) (fun x => by simp [deriveEq_self])
    a b

/-- A `Container` is a derivative of itself, a quantity being equal to itself. -/
theorem Container_derive_self {qe : String → String → Bool} (hqe : ∀ q, qe q q = true)
    (a : Container) : a.derive qe a = some true := by
  simp [Container.derive, allOf, deriveString_self, deriveSlice_string_self, deriveSlice_eq_self,
    deriveSlice_self EnvVar_derive_self, ResourceRequirements_derive_self hqe,
    deriveSlice_self VolumeMount_derive_self, deriveOption_self Probe_derive_self,
    deriveSlice_self LocalObjectReference_derive_self]

/-- A `Container` is a derivative of itself populated. -/
theorem Container_derive_populate {qe : String → String → Bool} (hqe : ∀ q, qe q q = true)
    (a b : Container) : a.derive qe (a.populate b) = some true := by
  simp [Container.derive, Container.populate, allOf, deriveString_populate,
    deriveSlice_string_populate, deriveSlice_eq_populate,
    deriveSlice_populate EnvVar_derive_populate EnvVar_derive_self,
    ResourceRequirements_derive_populate hqe,
    deriveSlice_populate VolumeMount_derive_populate VolumeMount_derive_self,
    deriveOption_populate Probe_derive_populate Probe_derive_self,
    deriveSlice_populate LocalObjectReference_derive_populate LocalObjectReference_derive_self]

/-- An `OwnerReference` is a derivative of itself. -/
theorem OwnerReference_derive_self (a : OwnerReference) : a.derive a = some true := by
  simp [OwnerReference.derive, allOf, deriveString_self, deriveOption_eq_self]

/-- An `OwnerReference` is a derivative of itself populated. -/
theorem OwnerReference_derive_populate (a b : OwnerReference) :
    a.derive (a.populate b) = some true := by
  simp [OwnerReference.derive, OwnerReference.populate, allOf, deriveString_populate,
    deriveOption_eq_populate]

/-- An `ObjectMeta` is a derivative of itself. -/
theorem ObjectMeta_derive_self (a : ObjectMeta) : a.derive a = some true := by
  simp [ObjectMeta.derive, allOf, deriveString_self, deriveMap_self deriveString_self,
    deriveSlice_self OwnerReference_derive_self]

/-- An `ObjectMeta` is a derivative of itself populated. -/
theorem ObjectMeta_derive_populate (a b : ObjectMeta) : a.derive (a.populate b) = some true := by
  simp [ObjectMeta.derive, ObjectMeta.populate, allOf, deriveString_populate,
    deriveMap_populate deriveString_self,
    deriveSlice_populate OwnerReference_derive_populate OwnerReference_derive_self]

/-- A `PersistentVolumeClaim` is a derivative of itself, a quantity being equal to itself. -/
theorem PersistentVolumeClaim_derive_self {qe : String → String → Bool}
    (hqe : ∀ q, qe q q = true) (a : PersistentVolumeClaim) : a.derive qe a = some true := by
  simp [PersistentVolumeClaim.derive, allOf, deriveString_self, deriveStorage_self hqe,
    deriveOption_self (f := fun x y => some (deriveString x y))
      (fun x => by simp [deriveString_self])]

/-- A `PersistentVolumeClaim` is a derivative of itself populated. -/
theorem PersistentVolumeClaim_derive_populate {qe : String → String → Bool}
    (hqe : ∀ q, qe q q = true) (a b : PersistentVolumeClaim) :
    a.derive qe (a.populate b) = some true := by
  simp [PersistentVolumeClaim.derive, PersistentVolumeClaim.populate, allOf,
    deriveString_populate, deriveStorage_populate hqe,
    deriveOption_populate (f := fun x y => some (deriveString x y)) (g := populateString)
      (fun x y => by simp [deriveString_populate]) (fun x => by simp [deriveString_self])]

/-- A `PodSpec` is a derivative of itself, a quantity being equal to itself. -/
theorem PodSpec_derive_self {qe : String → String → Bool} (hqe : ∀ q, qe q q = true)
    (a : PodSpec) : a.derive qe a = some true := by
  simp [PodSpec.derive, allOf, deriveString_self, deriveSlice_self Volume_derive_self,
    deriveSlice_self (Container_derive_self hqe),
    deriveOption_self PodSecurityContext_derive_self,
    deriveSlice_self LocalObjectReference_derive_self, deriveOption_self Affinity_derive_self,
    deriveSlice_self Toleration_derive_self]

/-- A `PodSpec` is a derivative of itself populated. -/
theorem PodSpec_derive_populate {qe : String → String → Bool} (hqe : ∀ q, qe q q = true)
    (a b : PodSpec) : a.derive qe (a.populate b) = some true := by
  simp [PodSpec.derive, PodSpec.populate, allOf, deriveString_populate,
    deriveSlice_populate Volume_derive_populate Volume_derive_self,
    deriveSlice_populate (Container_derive_populate hqe) (Container_derive_self hqe),
    deriveOption_populate PodSecurityContext_derive_populate PodSecurityContext_derive_self,
    deriveSlice_populate LocalObjectReference_derive_populate LocalObjectReference_derive_self,
    deriveOption_populate (f := Affinity.derive) (g := populateKeep)
      (fun x _ => Affinity_derive_self x) Affinity_derive_self,
    deriveSlice_populate Toleration_derive_populate Toleration_derive_self]

/-- A `PodTemplateSpec` is a derivative of itself, a quantity being equal to itself. -/
theorem PodTemplateSpec_derive_self {qe : String → String → Bool} (hqe : ∀ q, qe q q = true)
    (a : PodTemplateSpec) : a.derive qe a = some true := by
  simp [PodTemplateSpec.derive, allOf, ObjectMeta_derive_self, PodSpec_derive_self hqe]

/-- A `PodTemplateSpec` is a derivative of itself populated. -/
theorem PodTemplateSpec_derive_populate {qe : String → String → Bool} (hqe : ∀ q, qe q q = true)
    (a b : PodTemplateSpec) : a.derive qe (a.populate b) = some true := by
  simp [PodTemplateSpec.derive, PodTemplateSpec.populate, allOf, ObjectMeta_derive_populate,
    PodSpec_derive_populate hqe]

/-- The comparison is reflexive: a StatefulSet spec is a derivative of itself, a quantity being
equal to itself. -/
theorem DeepDerivative_self {qe : String → String → Bool} (hqe : ∀ q, qe q q = true)
    (a : StatefulSetSpec) : DeepDerivative qe a a = some true := by
  simp [DeepDerivative, StatefulSetSpec.derive, allOf, deriveString_self, deriveOption_eq_self,
    deriveOption_self (deriveMap_self deriveString_self), PodTemplateSpec_derive_self hqe,
    deriveSlice_self (PersistentVolumeClaim_derive_self hqe)]

/-- The comparison is directional: a StatefulSet spec is a derivative of every spec that only
populates what it leaves unset. -/
theorem DeepDerivative_populate {qe : String → String → Bool} (hqe : ∀ q, qe q q = true)
    (a b : StatefulSetSpec) : DeepDerivative qe a (a.populate b) = some true := by
  simp [DeepDerivative, StatefulSetSpec.derive, StatefulSetSpec.populate, allOf,
    deriveString_populate, deriveOption_eq_populate,
    deriveOption_populate (deriveMap_populate deriveString_self) (deriveMap_self deriveString_self),
    PodTemplateSpec_derive_populate hqe,
    deriveSlice_populate (PersistentVolumeClaim_derive_populate hqe)
      (PersistentVolumeClaim_derive_self hqe)]

/-- Populating a spec keeps the image of its first container, when that image is set. -/
theorem populate_first_container (d p : StatefulSetSpec) (c0 : Container) (rest : List Container)
    (hc : d.Template.Spec.Containers = c0 :: rest) (hne : c0.Image ≠ "") :
    ∃ c rest', (d.populate p).Template.Spec.Containers = c :: rest' ∧ c.Image = c0.Image := by
  simp only [StatefulSetSpec.populate, PodTemplateSpec.populate, PodSpec.populate, hc]
  cases p.Template.Spec.Containers with
  | nil => exact ⟨c0, rest, rfl, rfl⟩
  | cons y ys =>
    refine ⟨Container.populate c0 y, _, rfl, ?_⟩
    simp [Container.populate, populateString, hne]

/-- The rules at work on resource requirements: quantities are compared by amount, so a limit of
`1Gi` is a derivative of a limit of 1073741824; a limit that differs in amount is not; a set map
is not a derivative of a map with fewer keys; and against a map of as many keys that lacks the
key there is no answer. -/
theorem ResourceRequirements_derive_examples :
    ResourceRequirements.derive sampleQuantityEqual
        ⟨[("memory", "1Gi")], []⟩ ⟨[("memory", "1073741824")], [("cpu", "1")]⟩ = some true ∧
    ResourceRequirements.derive sampleQuantityEqual
        ⟨[("memory", "1Gi")], []⟩ ⟨[("memory", "2Gi")], []⟩ = some false ∧
    ResourceRequirements.derive sampleQuantityEqual
        ⟨[("memory", "1Gi")], []⟩ ⟨[], []⟩ = some false ∧
    ResourceRequirements.derive sampleQuantityEqual
        ⟨[("memory", "1Gi")], []⟩ ⟨[("cpu", "1")], []⟩ = none := by
  decide

/-- A live StatefulSet with a first container is compared by the image test followed by the
comparison of the package: the result is `(EqualImage && DeepDerivative(desired, live), nil)`. -/
theorem kesStatefulSetMatchesSpec_eq (pkg : KESPkg) (t : Tenant) (live : StatefulSet)
    (c : Container) (rest : List Container) (e : Bool)
    (hc : live.Spec.Template.Spec.Containers = c :: rest)
    (he : pkg.EqualImage t.Spec.KES c.Image = some e) :
    kesStatefulSetMatchesSpec pkg (some t) (some live)
      = some (e && pkg.DeepDerivative (pkg.NewForKES t (pkg.KESHLServiceName t)).Spec live.Spec,
          none) := by
  cases e <;>
    cases hd : pkg.DeepDerivative (pkg.NewForKES t (pkg.KESHLServiceName t)).Spec live.Spec <;>
    simp [kesStatefulSetMatchesSpec, hc, he, hd]

/-- C11: `kesStatefulSetMatchesSpec` is reflexive on its own desired output, and its comparison
is the directional one. The tenant is present and has KES configured with an image;
`EqualImage` tests that the live image is the configured one, the first container of the desired
StatefulSet `NewForKES(tenant, KESHLServiceName())` runs the configured image, and the package
comparison returns what `DeepDerivative` answers (quantities compared by amount, `qe`). Then
(1) a live StatefulSet whose spec is the desired spec gives (true, nil); (2) so does a live
StatefulSet whose spec is the desired spec with the fields it leaves unset (empty strings, nil
pointers, empty slices and maps) populated with any values; (3) for every live StatefulSet with a
first container the result is (live image is the configured one and `DeepDerivative(desired,
live)`, nil), the desired spec on the left: the comparison is the directional derivative test,
not deep equality. -/
theorem kesStatefulSetMatchesSpec_reflexive (pkg : KESPkg) (qe : String → String → Bool)
    (t : Tenant) (kes : KESConfig) (c0 : Container) (rest : List Container)
    (hqe : ∀ q, qe q q = true)
    (hdd : ∀ d l b, DeepDerivative qe d l = some b → pkg.DeepDerivative d l = b)
    (hkes : t.Spec.KES = some kes)
    (hne : kes.Image ≠ "")
    (heq : ∀ image, pkg.EqualImage (some kes) image = some (decide (kes.Image = image)))
    (hc : (pkg.NewForKES t (pkg.KESHLServiceName t)).Spec.Template.Spec.Containers = c0 :: rest)
    (hci : c0.Image = kes.Image) :
    (∀ live : StatefulSet, live.Spec = (pkg.NewForKES t (pkg.KESHLServiceName t)).Spec →
      kesStatefulSetMatchesSpec pkg (some t) (some live) = some (true, none)) ∧
    (∀ (live : StatefulSet) (populated : StatefulSetSpec),
      live.Spec
        = StatefulSetSpec.populate (pkg.NewForKES t (pkg.KESHLServiceName t)).Spec populated →
      kesStatefulSetMatchesSpec pkg (some t) (some live) = some (true, none)) ∧
    (∀ (live : StatefulSet) (c : Container) (rest' : List Container) (b : Bool),
      live.Spec.Template.Spec.Containers = c :: rest' →
      DeepDerivative qe (pkg.NewForKES t (pkg.KESHLServiceName t)).Spec live.Spec = some b →
      kesStatefulSetMatchesSpec pkg (some t) (some live)
        = some (decide (kes.Image = c.Image) && b, none)) := by
  have h3 : ∀ (live : StatefulSet) (c : Container) (rest' : List Container) (b : Bool),
      live.Spec.Template.Spec.Containers = c :: rest' →
      DeepDerivative qe (pkg.NewForKES t (pkg.KESHLServiceName t)).Spec live.Spec = some b →
      kesStatefulSetMatchesSpec pkg (some t) (some live)
        = some (decide (kes.Image = c.Image) && b, none) := by
    intro live c rest' b hcs hb
    rw [kesStatefulSetMatchesSpec_eq pkg t live c rest' (decide (kes.Image = c.Image)) hcs
      (by rw [hkes]; exact heq c.Image), hdd _ _ b hb]
  refine ⟨?_, ?_, h3⟩
  · intro live hlive
    have h := h3 live c0 rest true (by rw [hlive]; exact hc)
      (by rw [hlive]; exact DeepDerivative_self hqe _)
    rw [h]
    simp [hci]
  · intro live populated hlive
    obtain ⟨c, rest', hcs, himg⟩ :=
      populate_first_container (pkg.NewForKES t (pkg.KESHLServiceName t)).Spec populated c0 rest
        hc (by rw [hci]; exact hne)
    have h := h3 live c rest' true (by rw [hlive]; exact hcs)
      (by rw [hlive]; exact DeepDerivative_populate hqe _ _)
    rw [h]
    simp [himg, hci]

/-- C11 at the tenant that asks for `minio/kes:v1`. The live StatefulSet that is the desired one
with the platform's values populated differs from the desired one and the result is (true, nil);
the populated spec is in turn not a derivative of the desired one; and the live StatefulSet that
is the desired one under another service name, a field that the desired spec sets, gives
(false, nil). -/
theorem kesStatefulSetMatchesSpec_reflexive_witness :
    kesStatefulSetMatchesSpec derivativeKESPkg (some kesTenant)
        (some (setSpec (derivativeKESPkg.NewForKES kesTenant "tenant1-kes-hl-svc")
          (StatefulSetSpec.populate
            (derivativeKESPkg.NewForKES kesTenant "tenant1-kes-hl-svc").Spec platformDefaults)))
      = some (true, none)
    ∧ StatefulSetSpec.populate
        (derivativeKESPkg.NewForKES kesTenant "tenant1-kes-hl-svc").Spec platformDefaults
      ≠ (derivativeKESPkg.NewForKES kesTenant "tenant1-kes-hl-svc").Spec
    ∧ DeepDerivative sampleQuantityEqual
        (StatefulSetSpec.populate
          (derivativeKESPkg.NewForKES kesTenant "tenant1-kes-hl-svc").Spec platformDefaults)
        (derivativeKESPkg.NewForKES kesTenant "tenant1-kes-hl-svc").Spec
      = some false
    ∧ kesStatefulSetMatchesSpec derivativeKESPkg (some kesTenant)
        (some (setSpec (derivativeKESPkg.NewForKES kesTenant "tenant1-kes-hl-svc")
          { (derivativeKESPkg.NewForKES kesTenant "tenant1-kes-hl-svc").Spec with
            ServiceName := "other-svc" }))
      = some (false, none) := by
  obtain ⟨-, h2, h3⟩ := kesStatefulSetMatchesSpec_reflexive derivativeKESPkg sampleQuantityEqual
    kesTenant ⟨"minio/kes:v1", none⟩ _ []
    (fun q => by simp [sampleQuantityEqual])
    (fun d l b h => by simp [derivativeKESPkg, h])
    rfl (by decide) (fun _ => rfl) rfl rfl
  refine ⟨h2 _ platformDefaults rfl, by decide, by decide, ?_⟩
  exact h3
    (setSpec (derivativeKESPkg.NewForKES kesTenant "tenant1-kes-hl-svc")
      { (derivativeKESPkg.NewForKES kesTenant "tenant1-kes-hl-svc").Spec with
        ServiceName := "other-svc" })
    _ [] false rfl (by decide)

end MinioOperator
